import Mathlib

/-!
# GreenCart Logistics: the management and simulation forms

A shallow embedding of the React components under
`src/frontend/src/components` (Simulation, Drivers, RoutesPage, Orders).

Conventions of the embedding.

* A component's `useState` cells are the fields of a state structure; an event
  handler is a function from the state it was rendered with (and the event, and
  the answer of the REST call it awaits) to the state after all of its `setX`
  calls have been applied.  One handler runs at a time, with a render between
  two handlers.
* A REST call is an argument of type `Except`: `.ok r` is the resolved promise,
  `.error e` the rejected one.  A handler also reports the calls it made.
* JavaScript values are the primitives `undefined`, `null`, booleans, numbers
  and strings.  A finite number is represented by the rational value of the
  binary64 it is (`-0` is identified with `0`), next to `NaN`, `Infinity` and
  `-Infinity`; `Number(text)` and `+` round to the nearest binary64 value, a
  tie to the even significand, and overflow to `Infinity`.
* A string is a sequence of characters; the code units of the strings the
  handlers slice (dates, field names) are single characters.
-/

namespace GreenCart

/-! ## JavaScript values -/

/-- A JavaScript number: `NaN`, a finite value, `Infinity` or `-Infinity`. -/
inductive JSNum where
  | nan
  | fin (q : ℚ)
  | posInf
  | negInf
  deriving DecidableEq

/-- A JavaScript primitive value. -/
inductive JSVal where
  | undefined
  | null
  | bool (b : Bool)
  | num (n : JSNum)
  | str (s : String)
  deriving DecidableEq

namespace JSNum

/-- The number is not `NaN` and `n ≥ 0` holds in JavaScript. -/
def nonNeg : JSNum → Prop
  | nan => False
  | fin q => 0 ≤ q
  | posInf => True
  | negInf => False

/-- The comparison `n > 0` of JavaScript. -/
def pos : JSNum → Prop
  | nan => False
  | fin q => 0 < q
  | posInf => True
  | negInf => False

/-- The comparison `n ≤ b` of JavaScript for a finite bound `b`. -/
def le (b : ℚ) : JSNum → Prop
  | nan => False
  | fin q => q ≤ b
  | posInf => False
  | negInf => True

/-- The comparison `n ≥ b` of JavaScript for a finite bound `b`. -/
def ge (b : ℚ) : JSNum → Prop
  | nan => False
  | fin q => b ≤ q
  | posInf => True
  | negInf => False

/-- The number is an integer (`Number.isInteger`). -/
def isInteger : JSNum → Prop
  | fin q => q.den = 1
  | _ => False

instance (n : JSNum) : Decidable n.nonNeg := by
  cases n <;> unfold nonNeg <;> infer_instance

instance (n : JSNum) : Decidable n.pos := by
  cases n <;> unfold pos <;> infer_instance

instance (b : ℚ) (n : JSNum) : Decidable (n.le b) := by
  cases n <;> unfold le <;> infer_instance

instance (b : ℚ) (n : JSNum) : Decidable (n.ge b) := by
  cases n <;> unfold ge <;> infer_instance

instance (n : JSNum) : Decidable n.isInteger := by
  cases n <;> unfold isInteger <;> infer_instance

end JSNum

/-! ### Strings -/

/-- The code points of `WhiteSpace` and `LineTerminator`, which `trim` and
`Number` strip. -/
def isJSWhiteSpace (c : Char) : Bool :=
  c.toNat ∈ [0x09, 0x0A, 0x0B, 0x0C, 0x0D, 0x20, 0xA0, 0x1680,
    0x2000, 0x2001, 0x2002, 0x2003, 0x2004, 0x2005, 0x2006, 0x2007, 0x2008,
    0x2009, 0x200A, 0x2028, 0x2029, 0x202F, 0x205F, 0x3000, 0xFEFF]

/-- The characters of `s.trim()`. -/
def trimChars (cs : List Char) : List Char :=
  ((cs.dropWhile isJSWhiteSpace).reverse.dropWhile isJSWhiteSpace).reverse

/-- `s.trim()`. -/
def jsTrim (s : String) : String := String.mk (trimChars s.data)

/-- `s.slice(a, b)` for non-negative `a` and `b`. -/
def jsSlice (s : String) (a b : Nat) : String :=
  String.mk ((s.data.drop a).take (b - a))

/-- `s.slice(-1)`: the last character, or the empty string. -/
def jsSliceLast (s : String) : String :=
  String.mk (s.data.drop (s.data.length - 1))

/-- `s.startsWith(p)`. -/
def jsStartsWith (s p : String) : Bool := p.data.isPrefixOf s.data

/-! ### Rounding to binary64 -/

/-- The quotient `n / d` rounded to the nearest integer, a tie to the even
one. -/
def roundHalfEven (n d : ℕ) : ℕ :=
  if 2 * (n % d) < d then n / d
  else if d < 2 * (n % d) then n / d + 1
  else if n / d % 2 = 0 then n / d
  else n / d + 1

/-- The number of halvings that take `n` below 2, at most `fuel` of them: the
integer part of the binary logarithm of a positive `n` when `fuel` is `n`. -/
def log2Floor : ℕ → ℕ → ℕ
  | 0, _ => 0
  | fuel + 1, n => if n < 2 then 0 else log2Floor fuel (n / 2) + 1

/-- The exponent `e` with `2 ^ e ≤ n / d < 2 ^ (e + 1)`, for positive `n` and
`d`. -/
def binaryExponent (n d : ℕ) : ℤ :=
  let e : ℤ := (log2Floor n n : ℤ) - (log2Floor d d : ℤ)
  if 0 ≤ e then (if d * 2 ^ e.toNat ≤ n then e else e - 1)
  else (if d ≤ n * 2 ^ (-e).toNat then e else e - 1)

/-- The binary64 value nearest to `n / d` (`d` positive), a tie to the even
significand: 53 significant bits from exponent `-1022` up, the multiples of
`2 ^ -1074` below, and `Infinity` from `2 ^ 1024` on. -/
def roundBinary64Nat (n d : ℕ) : JSNum :=
  if n = 0 then .fin 0
  else
    let e := binaryExponent n d
    if 1024 ≤ e then .posInf
    else
      let u : ℤ := max e (-1022) - 52
      let m : ℕ :=
        if 0 ≤ u then roundHalfEven n (d * 2 ^ u.toNat)
        else roundHalfEven (n * 2 ^ (-u).toNat) d
      if 971 ≤ u ∧ 2 ^ 53 ≤ m then .posInf
      else .fin ((m : ℚ) * (2 : ℚ) ^ u)

/-- The Number value of a real number: the binary64 value nearest to it. -/
def roundBinary64 (q : ℚ) : JSNum :=
  match roundBinary64Nat q.num.natAbs q.den with
  | .fin r => .fin (if q < 0 then -r else r)
  | .posInf => if q < 0 then .negInf else .posInf
  | n => n

/-! ### `Number(string)` -/

/-- The value of a digit in the given base, when it is one. -/
def digitVal (base : Nat) (c : Char) : Option Nat :=
  let v : Option Nat :=
    if 48 ≤ c.toNat ∧ c.toNat ≤ 57 then some (c.toNat - 48)
    else if 97 ≤ c.toNat ∧ c.toNat ≤ 102 then some (c.toNat - 87)
    else if 65 ≤ c.toNat ∧ c.toNat ≤ 70 then some (c.toNat - 55)
    else none
  match v with
  | some d => if d < base then some d else none
  | none => none

/-- The longest run of digits at the head of the input, and what follows. -/
def spanDigits (base : Nat) : List Char → List Nat × List Char
  | [] => ([], [])
  | c :: cs =>
    match digitVal base c with
    | some d => let r := spanDigits base cs; (d :: r.1, r.2)
    | none => ([], c :: cs)

/-- The number a digit sequence denotes. -/
def natOfDigits (base : Nat) (ds : List Nat) : Nat :=
  ds.foldl (fun acc d => acc * base + d) 0

/-- The exponent part of a decimal literal: nothing, or `e`, an optional sign
and at least one digit, up to the end of the input. -/
def parseExponent : List Char → Option ℤ
  | [] => some 0
  | c :: cs =>
    if c = 'e' ∨ c = 'E' then
      let body : Bool × List Char :=
        match cs with
        | '+' :: t => (false, t)
        | '-' :: t => (true, t)
        | _ => (false, cs)
      match spanDigits 10 body.2 with
      | (d :: ds, []) =>
        let e : ℤ := natOfDigits 10 (d :: ds)
        some (if body.1 then -e else e)
      | _ => none
    else none

/-- The mathematical value of a `StrUnsignedDecimalLiteral` other than
`Infinity`: digits with an optional fraction and exponent; at least one digit
before or after the point. -/
def parseUnsignedDecimal (cs : List Char) : Option ℚ :=
  let ip := spanDigits 10 cs
  let fp : List Nat × List Char :=
    match ip.2 with
    | '.' :: t => spanDigits 10 t
    | r => ([], r)
  if ip.1.isEmpty ∧ fp.1.isEmpty then none
  else
    match parseExponent fp.2 with
    | some e =>
      some ((natOfDigits 10 (ip.1 ++ fp.1) : ℚ) * (10 : ℚ) ^ (e - (fp.1.length : ℤ)))
    | none => none

/-- The Number value of a `StrUnsignedDecimalLiteral`: its mathematical value,
rounded. -/
def parseUnsigned (cs : List Char) : JSNum :=
  if cs = "Infinity".data then .posInf
  else
    match parseUnsignedDecimal cs with
    | some q => roundBinary64 q
    | none => .nan

/-- A binary, octal or hexadecimal integer literal after its two-character
marker: at least one digit, up to the end of the input. -/
def parseRadix (base : Nat) (cs : List Char) : JSNum :=
  match spanDigits base cs with
  | (d :: ds, []) => roundBinary64 (natOfDigits base (d :: ds) : ℚ)
  | _ => .nan

/-- The abstract operation `StringToNumber`: what `Number(s)` returns for a
string. -/
def stringToNumber (s : String) : JSNum :=
  match trimChars s.data with
  | [] => .fin 0
  | '0' :: 'x' :: t => parseRadix 16 t
  | '0' :: 'X' :: t => parseRadix 16 t
  | '0' :: 'o' :: t => parseRadix 8 t
  | '0' :: 'O' :: t => parseRadix 8 t
  | '0' :: 'b' :: t => parseRadix 2 t
  | '0' :: 'B' :: t => parseRadix 2 t
  | '+' :: t => parseUnsigned t
  | '-' :: t =>
    match parseUnsigned t with
    | .fin q => .fin (-q)
    | .posInf => .negInf
    | n => n
  | cs => parseUnsigned cs

/-- `Number(v)` (the abstract operation `ToNumber`). -/
def toNumber : JSVal → JSNum
  | .undefined => .nan
  | .null => .fin 0
  | .bool true => .fin 1
  | .bool false => .fin 0
  | .num n => n
  | .str s => stringToNumber s

/-- Truthiness (the abstract operation `ToBoolean`). -/
def truthy : JSVal → Bool
  | .undefined => false
  | .null => false
  | .bool b => b
  | .num .nan => false
  | .num (.fin q) => decide (q ≠ 0)
  | .num _ => true
  | .str s => decide (s ≠ "")

/-- The operator `a || b`. -/
def jsOr (a b : JSVal) : JSVal := if truthy a then a else b

/-- The operator `a ?? b`. -/
def jsNullish (a b : JSVal) : JSVal :=
  match a with
  | .undefined => b
  | .null => b
  | _ => a

/-- The operator `a === b` on primitives: the same value, and not `NaN`. -/
def jsStrictEq (a b : JSVal) : Bool := decide (a = b) && decide (a ≠ .num .nan)

/-- The text of a value in a template literal (the abstract operation
`ToString`), given `Number.prototype.toString`. -/
def jsToString (numberToString : JSNum → String) : JSVal → String
  | .undefined => "undefined"
  | .null => "null"
  | .bool true => "true"
  | .bool false => "false"
  | .num n => numberToString n
  | .str s => s

/-- The operator `a + b` on two numbers. -/
def jsAdd : JSNum → JSNum → JSNum
  | .nan, _ => .nan
  | _, .nan => .nan
  | .fin a, .fin b => roundBinary64 (a + b)
  | .fin _, .posInf => .posInf
  | .fin _, .negInf => .negInf
  | .posInf, .negInf => .nan
  | .posInf, _ => .posInf
  | .negInf, .posInf => .nan
  | .negInf, _ => .negInf

/-- The sum of a list of numbers, added from the left, starting from 0. -/
def jsSum (xs : List JSNum) : JSNum := xs.foldl jsAdd (.fin 0)

/-! ## Simulation.jsx -/

namespace Simulation

/-- The `formData` state cell.  `availableDrivers` and `maxHoursPerDay` start as
the numbers 1 and 8 and are only ever set from `Number(value)`; `startTime`
starts as the empty string and is only ever set from an input value. -/
structure FormData where
  availableDrivers : JSNum
  startTime : String
  maxHoursPerDay : JSNum
  deriving DecidableEq

/-- The object passed to `runSimulation`. -/
structure Payload where
  availableDrivers : JSNum
  startTime : String
  maxHoursPerDay : JSNum
  deriving DecidableEq

/-- The state cells of the component; `ρ` is the type of a simulation result,
`none` stands for `null`. -/
structure State (ρ : Type) where
  formData : FormData
  loading : Bool
  result : Option ρ
  error : Option String

/-- The `name` and `value` of the target of a change event. -/
structure ChangeEvent where
  name : String
  value : String
  deriving DecidableEq

/-- The values `useState` is called with. -/
def initialFormData : FormData :=
  { availableDrivers := .fin 1, startTime := "", maxHoursPerDay := .fin 8 }

/-- The state of the component when it mounts. -/
def initialState (ρ : Type) : State ρ :=
  { formData := initialFormData, loading := false, result := none, error := none }

/-- The form after `handleChange`: the key `name` is set to `Number(value)` for
the two numeric fields and to `value` otherwise.  A key no input carries is
never read and is not represented. -/
def handleChangeForm (prev : FormData) (e : ChangeEvent) : FormData :=
  if e.name = "availableDrivers" then
    { prev with availableDrivers := stringToNumber e.value }
  else if e.name = "maxHoursPerDay" then
    { prev with maxHoursPerDay := stringToNumber e.value }
  else if e.name = "startTime" then
    { prev with startTime := e.value }
  else prev

/-- `handleChange`. -/
def handleChange {ρ : Type} (s : State ρ) (e : ChangeEvent) : State ρ :=
  { s with formData := handleChangeForm s.formData e }

/-- The payload `handleSubmit` builds from the form. -/
def buildPayload (f : FormData) : Payload :=
  let simStartTime := if f.startTime ≠ "" then jsSlice f.startTime 11 16 else ""
  { availableDrivers := f.availableDrivers
    startTime := simStartTime
    maxHoursPerDay := f.maxHoursPerDay }

/-- What one run of `handleSubmit` did: the payloads it passed to
`runSimulation`, in order, and the state it left. -/
structure Submitted (ρ : Type) where
  sent : List Payload
  state : State ρ

/-- `handleSubmit`, given the answer `runSimulation` gives to a payload. -/
def handleSubmit {ε ρ : Type} (runSimulation : Payload → Except ε ρ) (s : State ρ) :
    Submitted ρ :=
  let s1 : State ρ := { s with loading := true, error := none, result := none }
  let payload := buildPayload s.formData
  match runSimulation payload with
  | .ok res =>
    { sent := [payload], state := { s1 with result := some res, loading := false } }
  | .error _ =>
    { sent := [payload]
      state := { s1 with error := some "Failed to run simulation. Try again.", loading := false } }

/-- The request invariants of the data model: `availableDrivers` is an integer
at least 1 and `maxHoursPerDay` lies in the interval (0, 24]. -/
def Payload.inRange (p : Payload) : Prop :=
  p.availableDrivers.isInteger ∧ p.availableDrivers.ge 1 ∧
    p.maxHoursPerDay.pos ∧ p.maxHoursPerDay.le 24

instance (p : Payload) : Decidable p.inRange := by
  unfold Payload.inRange; infer_instance

/-- The value of the last event of a sequence that names the field `name`. -/
def lastValue (name : String) (events : List ChangeEvent) : Option String :=
  (events.reverse.find? (fun e => decide (e.name = name))).map (fun e => e.value)

/-- A sample sequence of change events: a first entry of `0` drivers corrected
to `3`, then 7.5 hours and a start time. -/
def witnessEvents : List ChangeEvent :=
  [{ name := "availableDrivers", value := "0" },
   { name := "availableDrivers", value := "3" },
   { name := "maxHoursPerDay", value := "7.5" },
   { name := "startTime", value := "2025-03-14T09:30" }]

/-- One entry of `result.fuelCostBreakdown`. -/
structure FuelCost where
  routeId : JSVal
  totalCost : JSNum
  deriving DecidableEq

/-- One entry of the `data` of a chart. -/
structure ChartDatum where
  name : String
  value : JSNum
  deriving DecidableEq

/-- The `data` passed to `FuelCostChart`: `result.fuelCostBreakdown` mapped to
entries named by the template literal `Route` followed by the route id. -/
def fuelCostChartData (numberToString : JSNum → String) (fuelCostBreakdown : List FuelCost) :
    List ChartDatum :=
  fuelCostBreakdown.map (fun fc =>
    { name := "Route " ++ jsToString numberToString fc.routeId, value := fc.totalCost })

/-- A sample breakdown over three routes. -/
def witnessBreakdown : List FuelCost :=
  [{ routeId := .str "R1", totalCost := .fin 120 },
   { routeId := .str "R7", totalCost := .fin (85 / 2) },
   { routeId := .str "R3", totalCost := .fin 0 }]

end Simulation

/-! ## Drivers.jsx -/

/-- `s.toLowerCase()`.  Only the letters A to Z are mapped: no other character
lowers to a letter of the words the components compare with. -/
def jsToLowerCase (s : String) : String := String.mk (s.data.map Char.toLower)

/-- The element write `arr[index] = v` on a copy of `arr`.  An index that is a
natural number below 2^32 - 1 writes that element, lengthening the array when
needed (the holes this leaves are represented by `undefined`); any other index
names an ordinary property and leaves the elements alone. -/
def arraySet (arr : List JSVal) (index : JSNum) (v : JSVal) : List JSVal :=
  match index with
  | .fin q =>
    if q.den = 1 ∧ 0 ≤ q.num ∧ q.num < 2 ^ 32 - 1 then
      if q.num.toNat < arr.length then arr.set q.num.toNat v
      else arr ++ List.replicate (q.num.toNat - arr.length) JSVal.undefined ++ [v]
    else arr
  | _ => arr

/-- The operator `a || b` on two numbers. -/
def numOr (a b : JSNum) : JSNum := if truthy (.num a) then a else b

namespace Drivers

/-- A driver as the REST API returns it.  A field the record lacks is
`undefined`; `pastWeekHours` is `none` when absent or `null`, else the array. -/
structure DriverRecord where
  _id : JSVal
  name : JSVal
  currentShiftHours : JSVal
  shift_hours : JSVal
  pastWeekHours : Option (List JSVal)
  isActive : JSVal
  is_active : JSVal
  deriving DecidableEq

/-- The `formData` state cell. -/
structure FormData where
  name : JSVal
  currentShiftHours : JSVal
  pastWeekHours : List JSVal
  isActive : JSVal
  deriving DecidableEq

/-- The object passed to `createDriver` and `updateDriver`. -/
structure Payload where
  name : JSVal
  currentShiftHours : JSNum
  pastWeekHours : List JSNum
  isActive : JSVal
  deriving DecidableEq

/-- A call of the REST API. -/
inductive ApiCall where
  | createDriver (payload : Payload)
  | updateDriver (id : JSVal) (payload : Payload)
  deriving DecidableEq

/-- The state cells of the component; `none` stands for a `null` error. -/
structure State where
  drivers : List DriverRecord
  loading : Bool
  showForm : Bool
  editingDriverId : JSVal
  formData : FormData
  formLoading : Bool
  formError : Option String
  deriving DecidableEq

/-- The `name`, `value`, `type` and `checked` of the target of an input event. -/
structure InputEvent where
  name : String
  value : String
  type : String
  checked : Bool
  deriving DecidableEq

/-- One parsed CSV row: the three columns the import reads, `undefined` when
the file has no such column. -/
structure CsvRow where
  name : JSVal
  currentShiftHours : JSVal
  isActive : JSVal
  deriving DecidableEq

/-- `Array(7).fill(0)`. -/
def sevenZeros : List JSVal := List.replicate 7 (JSVal.num (.fin 0))

/-- The form `useState` is called with, and the one every reset installs. -/
def emptyForm : FormData :=
  { name := .str "", currentShiftHours := .num (.fin 0), pastWeekHours := sevenZeros,
    isActive := .bool true }

/-- The state of the component when it mounts. -/
def initialState : State :=
  { drivers := [], loading := true, showForm := false, editingDriverId := .null,
    formData := emptyForm, formLoading := false, formError := none }

/-- The form after `handleInputChange`.  A key no input carries is never read
and is not represented. -/
def handleInputChangeForm (formData : FormData) (e : InputEvent) : FormData :=
  if jsStartsWith e.name "pastWeekHours" then
    let index := stringToNumber (jsSliceLast e.name)
    let updatedHours := arraySet formData.pastWeekHours index (.num (stringToNumber e.value))
    { formData with pastWeekHours := updatedHours }
  else
    let v : JSVal := if e.type = "checkbox" then .bool e.checked else .str e.value
    if e.name = "name" then { formData with name := v }
    else if e.name = "currentShiftHours" then { formData with currentShiftHours := v }
    else if e.name = "isActive" then { formData with isActive := v }
    else formData

/-- `handleInputChange`. -/
def handleInputChange (s : State) (e : InputEvent) : State :=
  { s with formData := handleInputChangeForm s.formData e }

/-- The form `handleEdit` loads from a driver record. -/
def editForm (driver : DriverRecord) : FormData :=
  { name := jsOr driver.name (.str "")
    currentShiftHours := jsOr (jsOr driver.currentShiftHours driver.shift_hours) (.num (.fin 0))
    pastWeekHours :=
      match driver.pastWeekHours with
      | some hours => hours
      | none => sevenZeros
    isActive :=
      if driver.isActive ≠ .undefined then driver.isActive
      else jsOr driver.is_active (.bool true) }

/-- `handleEdit`. -/
def handleEdit (s : State) (driver : DriverRecord) : State :=
  { s with showForm := true, editingDriverId := driver._id, formData := editForm driver }

/-- The value whose truthiness the status cell of the table tests: the driver
is shown `Active` when it is truthy and `Inactive` otherwise. -/
def statusValue (driver : DriverRecord) : JSVal :=
  if driver.isActive ≠ .undefined then driver.isActive else driver.is_active

/-- The text of the status cell. -/
def statusCell (driver : DriverRecord) : String :=
  if truthy (statusValue driver) then "Active" else "Inactive"

/-- `v.trim()`: `none` is the `TypeError` of a value that is not a string. -/
def callTrim : JSVal → Option String
  | .str s => some (jsTrim s)
  | _ => none

/-- The payload `handleSubmit` builds once `formData.name.trim()` has returned
`trimmed`. -/
def buildPayload (formData : FormData) (trimmed : String) : Payload :=
  { name := .str trimmed
    currentShiftHours := toNumber formData.currentShiftHours
    pastWeekHours := formData.pastWeekHours.map toNumber
    isActive := formData.isActive }

/-- What one run of a handler did: the REST calls it made, in order, and the
state it left. -/
structure Outcome where
  calls : List ApiCall
  state : State

/-- The state after the `catch` and `finally` blocks of `handleSubmit`. -/
def submitFailed (s : State) : State :=
  { s with
    formError := some (if truthy s.editingDriverId then "Failed to update driver. Try again."
      else "Failed to create driver. Try again.")
    formLoading := false }

/-- The state after a save went through: the list is replaced and the form is
closed and reset. -/
def submitDone (s : State) (drivers : List DriverRecord) : State :=
  { s with
    drivers := drivers, showForm := false, editingDriverId := .null, formData := emptyForm,
    formError := none, formLoading := false }

/-- `handleSubmit`, given the answers of `createDriver` and `updateDriver`. -/
def handleSubmit {ε : Type} (createDriver : Payload → Except ε DriverRecord)
    (updateDriver : JSVal → Payload → Except ε DriverRecord) (s : State) : Outcome :=
  match callTrim s.formData.name with
  | none => { calls := [], state := submitFailed s }
  | some trimmed =>
    if trimmed = "" then
      { calls := [], state := { s with formError := some "Name is required", formLoading := false } }
    else
      let payload := buildPayload s.formData trimmed
      if truthy s.editingDriverId then
        match updateDriver s.editingDriverId payload with
        | .ok updatedDriver =>
          { calls := [.updateDriver s.editingDriverId payload]
            state := submitDone s
              (s.drivers.map (fun driver =>
                if jsStrictEq driver._id s.editingDriverId then updatedDriver else driver)) }
        | .error _ =>
          { calls := [.updateDriver s.editingDriverId payload], state := submitFailed s }
      else
        match createDriver payload with
        | .ok newDriver =>
          { calls := [.createDriver payload], state := submitDone s (s.drivers ++ [newDriver]) }
        | .error _ =>
          { calls := [.createDriver payload], state := submitFailed s }

/-- The payload `handleCSVImport` builds for a row; `none` when building it
throws (`trim` or `toLowerCase` of a value that is neither a string nor
absent). -/
def csvPayload (row : CsvRow) : Option Payload :=
  let name : Option JSVal :=
    match row.name with
    | .undefined => some (.str "")
    | .null => some (.str "")
    | .str s => some (jsOr (.str (jsTrim s)) (.str ""))
    | _ => none
  let isActive : Option Bool :=
    match row.isActive with
    | .undefined => some false
    | .null => some false
    | .str s => some (decide (jsToLowerCase s = "true") || decide (s = "1"))
    | _ => none
  match name, isActive with
  | some n, some a =>
    some { name := n
           currentShiftHours := numOr (toNumber row.currentShiftHours) (.fin 0)
           pastWeekHours := List.replicate 7 (.fin 0)
           isActive := .bool a }
  | _, _ => none

/-- What the import did: the payloads sent to `createDriver`, the drivers list
and the text of the alert. -/
structure Imported where
  calls : List ApiCall
  drivers : List DriverRecord
  alert : String

/-- The loop of `handleCSVImport` over the parsed rows, from the list of
drivers `drivers` and the calls `calls` made so far.  The REST API is asked
once for each row with a name and answers each call on its own:
`createDriver k payload` is its answer to the call made after `k` earlier
calls, so that it may answer equal payloads differently (a new record each
time, or a refusal of a repeat). -/
def importRows {ε : Type} (createDriver : Nat → Payload → Except ε DriverRecord) :
    List CsvRow → List ApiCall → List DriverRecord → Imported
  | [], calls, drivers =>
    { calls := calls, drivers := drivers, alert := "CSV imported successfully!" }
  | row :: rows, calls, drivers =>
    match csvPayload row with
    | none =>
      { calls := calls, drivers := drivers, alert := "Failed to import CSV. Check the format." }
    | some payload =>
      if truthy payload.name then
        match createDriver calls.length payload with
        | .ok newDriver =>
          importRows createDriver rows (calls ++ [.createDriver payload]) (drivers ++ [newDriver])
        | .error _ =>
          { calls := calls ++ [.createDriver payload], drivers := drivers
            alert := "Failed to import CSV. Check the format." }
      else importRows createDriver rows calls drivers

/-- `handleCSVImport` once the file is parsed into `rows`; `createDriver k` is
the answer of the REST API to the call numbered `k` of this import, counted
from 0. -/
def handleCSVImport {ε : Type} (createDriver : Nat → Payload → Except ε DriverRecord)
    (rows : List CsvRow) (s : State) : Imported :=
  importRows createDriver rows [] s.drivers

/-- The payload of a call. -/
def ApiCall.payload : ApiCall → Payload
  | .createDriver p => p
  | .updateDriver _ p => p

/-- One step of editing the form: an input event or a click on a row's edit
button. -/
inductive Step where
  | change (e : InputEvent)
  | edit (driver : DriverRecord)
  deriving DecidableEq

/-- The handler a step runs. -/
def step (s : State) : Step → State
  | .change e => handleInputChange s e
  | .edit driver => handleEdit s driver

/-- The state reached from the state `s` by a sequence of steps. -/
def run (s : State) (steps : List Step) : State := steps.foldl step s

/-- The names of the seven inputs the form renders for a week of hours. -/
def dayInputs : List String :=
  ["pastWeekHours0", "pastWeekHours1", "pastWeekHours2", "pastWeekHours3", "pastWeekHours4",
   "pastWeekHours5", "pastWeekHours6"]

/-- A step that keeps a week of seven days: an input event that, when its name
starts with `pastWeekHours`, comes from one of the seven inputs; an edit of a
driver whose `pastWeekHours` is absent or has seven entries. -/
def Step.keepsWeek : Step → Prop
  | .change e => jsStartsWith e.name "pastWeekHours" = true → e.name ∈ dayInputs
  | .edit driver => (driver.pastWeekHours.map List.length).getD 7 = 7

/-- The hours of a payload are numbers that are not negative. -/
def Payload.hoursNonNeg (p : Payload) : Prop :=
  p.currentShiftHours.nonNeg ∧ ∀ h ∈ p.pastWeekHours, h.nonNeg

/-- The hours of a form read as numbers that are not negative. -/
def FormData.hoursNonNeg (f : FormData) : Prop :=
  (toNumber f.currentShiftHours).nonNeg ∧ ∀ h ∈ f.pastWeekHours, (toNumber h).nonNeg

/-- A step that enters hours that are not negative: an input event whose value,
for the hours field it names, reads as a number that is not negative; an edit
of a driver from which such hours are loaded. -/
def Step.hoursNonNeg : Step → Prop
  | .change e =>
    (jsStartsWith e.name "pastWeekHours" = true → (stringToNumber e.value).nonNeg) ∧
    (e.name = "currentShiftHours" →
      (toNumber (if e.type = "checkbox" then .bool e.checked else .str e.value)).nonNeg)
  | .edit driver => (editForm driver).hoursNonNeg

/-- A CSV row whose `currentShiftHours` is missing, not numeric, or a number
that is not negative. -/
def CsvRow.hoursNonNeg (row : CsvRow) : Prop :=
  toNumber row.currentShiftHours = .nan ∨ (toNumber row.currentShiftHours).nonNeg

instance (st : Step) : Decidable st.keepsWeek := by
  cases st <;> unfold Step.keepsWeek <;> infer_instance

instance (p : Payload) : Decidable p.hoursNonNeg := by
  unfold Payload.hoursNonNeg; infer_instance

instance (f : FormData) : Decidable f.hoursNonNeg := by
  unfold FormData.hoursNonNeg; infer_instance

instance (st : Step) : Decidable st.hoursNonNeg := by
  cases st <;> unfold Step.hoursNonNeg <;> infer_instance

instance (row : CsvRow) : Decidable row.hoursNonNeg := by
  unfold CsvRow.hoursNonNeg; infer_instance

/-- A sample of parsed CSV rows: a full row, a row without the hours and
status columns, a row whose hours are not a number, and a row without a
name. -/
def witnessRows : List CsvRow :=
  [{ name := .str " Asha ", currentShiftHours := .str "6.5", isActive := .str "TRUE" },
   { name := .str "Ravi", currentShiftHours := .undefined, isActive := .undefined },
   { name := .str "Meera", currentShiftHours := .str "n/a", isActive := .str "1" },
   { name := .str "  ", currentShiftHours := .str "3", isActive := .str "true" }]

/-- A sample driver record, with the legacy names of two fields. -/
def witnessDriver : DriverRecord :=
  { _id := .str "64f0c0ffee", name := .str "Kiran", currentShiftHours := .undefined,
    shift_hours := .num (.fin 4), pastWeekHours := some (List.replicate 7 (.num (.fin 8))),
    isActive := .undefined, is_active := .bool true }

/-- A sample of steps: the driver is opened for editing, renamed, given 5.5
hours for the current shift and 9 hours for the third day. -/
def witnessSteps : List Step :=
  [.edit witnessDriver,
   .change { name := "name", value := "Kiran Rao", type := "text", checked := false },
   .change { name := "currentShiftHours", value := "5.5", type := "number", checked := false },
   .change { name := "pastWeekHours2", value := "9", type := "number", checked := false }]

/-- A REST API that stores what it is sent under a fixed id. -/
def witnessApi (p : Payload) : Except Unit DriverRecord :=
  .ok { _id := .str "64f0c0ffee", name := p.name, currentShiftHours := .num p.currentShiftHours,
        shift_hours := .undefined, pastWeekHours := some (p.pastWeekHours.map JSVal.num),
        isActive := p.isActive, is_active := .undefined }

/-- The name the form gives the input of day `idx`: the template literal
`pastWeekHours` followed by `idx`. -/
def dayInputName (idx : Nat) : String := "pastWeekHours" ++ toString idx

/-- What one run of `handleDelete` did: the ids passed to `deleteDriver`, in
order, the state it left and the text of the alert it showed, if any. -/
structure Deleted where
  deleted : List JSVal
  state : State
  alert : Option String

/-- `handleDelete`, given the answer of `window.confirm` and the answer of
`deleteDriver`. -/
def handleDelete {ε : Type} (confirm : Bool) (deleteDriver : JSVal → Except ε Unit) (s : State)
    (driverId : JSVal) : Deleted :=
  if !confirm then { deleted := [], state := s, alert := none }
  else
    match deleteDriver driverId with
    | .ok _ =>
      { deleted := [driverId]
        state := { s with drivers := s.drivers.filter (fun driver => !jsStrictEq driver._id driverId) }
        alert := none }
    | .error _ =>
      { deleted := [driverId], state := s, alert := some "Failed to delete driver. Please try again." }

/-- The click on the Add/Cancel button: the form is shown or hidden, and when
it was shown the edit is dropped and the form is reset. -/
def toggleForm (s : State) : State :=
  if s.showForm then { s with showForm := false, editingDriverId := .null, formData := emptyForm }
  else { s with showForm := true }

/-- The effect run on mount, given the answer of `fetchDrivers`. -/
def loadDrivers {ε : Type} (fetched : Except ε (List DriverRecord)) (s : State) : State :=
  match fetched with
  | .ok data => { s with drivers := data, loading := false }
  | .error _ => { s with loading := false }

/-- One thing that happens to the component: the answer to the fetch on mount,
a click on an edit button, a click on the Add/Cancel button, a submit of the
form with the answers of the API, a click on a delete button with the answers
of the user and of the API, or an input event. -/
inductive Action where
  | loaded (fetched : Except Unit (List DriverRecord))
  | edit (driver : DriverRecord)
  | toggle
  | submit (createDriver : Payload → Except Unit DriverRecord)
      (updateDriver : JSVal → Payload → Except Unit DriverRecord)
  | delete (confirm : Bool) (deleteDriver : JSVal → Except Unit Unit) (driverId : JSVal)
  | change (e : InputEvent)

/-- The state after an action.  The inputs exist only while the form is shown,
so an input event does nothing otherwise. -/
def act (s : State) : Action → State
  | .loaded fetched => loadDrivers fetched s
  | .edit driver => handleEdit s driver
  | .toggle => toggleForm s
  | .submit createDriver updateDriver => (handleSubmit createDriver updateDriver s).state
  | .delete confirm deleteDriver driverId => (handleDelete confirm deleteDriver s driverId).state
  | .change e => if s.showForm then handleInputChange s e else s

/-- A column of a parsed CSV row: text, or `undefined` when the file has no
such column. -/
def parsedColumn (v : JSVal) : Prop := v = .undefined ∨ ∃ t, v = .str t

/-- A row as the CSV parser yields it: every column is text or missing. -/
def CsvRow.parsed (row : CsvRow) : Prop :=
  parsedColumn row.name ∧ parsedColumn row.currentShiftHours ∧ parsedColumn row.isActive

/-- The name of the row is not empty after trimming. -/
def CsvRow.hasName (row : CsvRow) : Bool :=
  match row.name with
  | .str t => decide (jsTrim t ≠ "")
  | _ => false

/-- The `createDriver` calls for the rows that have a name, in row order. -/
def callsFor (rows : List CsvRow) : List ApiCall :=
  (rows.filter CsvRow.hasName).filterMap (fun row => (csvPayload row).map ApiCall.createDriver)

/-- The record a sample REST API stores for the payload of call `k`: each call
gets an id of its own. -/
def witnessStored (k : Nat) (p : Payload) : DriverRecord :=
  { _id := .str ("64f0c0ffee-" ++ toString k), name := p.name
    currentShiftHours := .num p.currentShiftHours, shift_hours := .undefined
    pastWeekHours := some (p.pastWeekHours.map JSVal.num), isActive := p.isActive
    is_active := .undefined }

/-- A REST API that answers every call of an import with a new record. -/
def witnessStoringApi (k : Nat) (p : Payload) : Except Unit DriverRecord :=
  .ok (witnessStored k p)

/-- A REST API that refuses the second call of an import (the call numbered 1)
and answers every other call with a new record. -/
def witnessRefusingApi (k : Nat) (p : Payload) : Except Unit DriverRecord :=
  if k = 1 then .error () else .ok (witnessStored k p)

/-- The records appended for a list of calls of which the first is the call
numbered `k`, when `created k payload` is the record the API answers call `k`
with. -/
def createdFrom (created : Nat → Payload → DriverRecord) :
    Nat → List ApiCall → List DriverRecord
  | _, [] => []
  | k, c :: cs => created k c.payload :: createdFrom created (k + 1) cs

/-- The drivers created for the rows that have a name, in row order, when
`created k payload` is the record the API answers call `k` with. -/
def createdFor (created : Nat → Payload → DriverRecord) (rows : List CsvRow) :
    List DriverRecord :=
  createdFrom created 0 (callsFor rows)

/-- A sample of parsed rows in which a row is repeated: the first and the
third row are the same, the second has no name. -/
def witnessRepeated : List CsvRow :=
  [{ name := .str "Asha", currentShiftHours := .str "6.5", isActive := .str "true" },
   { name := .undefined, currentShiftHours := .str "2", isActive := .str "1" },
   { name := .str "Asha", currentShiftHours := .str "6.5", isActive := .str "true" },
   { name := .str "Meera", currentShiftHours := .str "3", isActive := .str "false" }]

/-- The sample rows before the one the refusing sample API refuses. -/
def witnessBefore : List CsvRow :=
  [{ name := .str "Asha", currentShiftHours := .str "6.5", isActive := .str "true" },
   { name := .undefined, currentShiftHours := .str "2", isActive := .str "1" }]

/-- The sample row the refusing sample API refuses: a repeat of the first
row. -/
def witnessFailing : CsvRow :=
  { name := .str "Asha", currentShiftHours := .str "6.5", isActive := .str "true" }

/-- The sample rows after the refused one. -/
def witnessAfter : List CsvRow :=
  [{ name := .str "Meera", currentShiftHours := .str "3", isActive := .str "false" }]

/-- The payload of the sample row the refusing sample API refuses. -/
def witnessFailingPayload : Payload :=
  { name := .str "Asha", currentShiftHours := .fin (13 / 2)
    pastWeekHours := List.replicate 7 (.fin 0), isActive := .bool true }

end Drivers

/-! ## RoutesPage.jsx -/

namespace RoutesPage

/-- A route as the REST API returns it, with the current and the legacy name
of each field.  A field the record lacks is `undefined`. -/
structure RouteRecord where
  _id : JSVal
  routeId : JSVal
  route_id : JSVal
  distanceKm : JSVal
  distance_km : JSVal
  trafficLevel : JSVal
  traffic_level : JSVal
  baseTimeMin : JSVal
  base_time_min : JSVal
  isActive : JSVal
  is_active : JSVal
  deriving DecidableEq

/-- The `formData` state cell. -/
structure FormData where
  routeId : JSVal
  distanceKm : JSVal
  trafficLevel : JSVal
  baseTimeMin : JSVal
  isActive : JSVal
  deriving DecidableEq

/-- The object passed to `createRoute` and `updateRoute`. -/
structure Payload where
  routeId : JSVal
  distanceKm : JSNum
  trafficLevel : JSVal
  baseTimeMin : JSNum
  isActive : JSVal
  deriving DecidableEq

/-- A call of the REST API. -/
inductive ApiCall where
  | createRoute (payload : Payload)
  | updateRoute (id : JSVal) (payload : Payload)
  deriving DecidableEq

/-- The state cells of the component; `none` stands for a `null` error. -/
structure State where
  routes : List RouteRecord
  loading : Bool
  showForm : Bool
  editingRouteId : JSVal
  formData : FormData
  formLoading : Bool
  formError : Option String
  deriving DecidableEq

/-- The `name`, `value`, `type` and `checked` of the target of an input event. -/
structure InputEvent where
  name : String
  value : String
  type : String
  checked : Bool
  deriving DecidableEq

/-- The form `useState` is called with, and the one every reset installs. -/
def emptyForm : FormData :=
  { routeId := .str "", distanceKm := .str "", trafficLevel := .str "", baseTimeMin := .str "",
    isActive := .bool true }

/-- The state of the component when it mounts. -/
def initialState : State :=
  { routes := [], loading := true, showForm := false, editingRouteId := .null,
    formData := emptyForm, formLoading := false, formError := none }

/-- The form after `handleInputChange`.  A key no input carries is never read
and is not represented. -/
def handleInputChangeForm (prev : FormData) (e : InputEvent) : FormData :=
  let v : JSVal := if e.type = "checkbox" then .bool e.checked else .str e.value
  if e.name = "routeId" then { prev with routeId := v }
  else if e.name = "distanceKm" then { prev with distanceKm := v }
  else if e.name = "trafficLevel" then { prev with trafficLevel := v }
  else if e.name = "baseTimeMin" then { prev with baseTimeMin := v }
  else if e.name = "isActive" then { prev with isActive := v }
  else prev

/-- `handleInputChange`. -/
def handleInputChange (s : State) (e : InputEvent) : State :=
  { s with formData := handleInputChangeForm s.formData e }

/-- The form `handleEdit` loads from a route record. -/
def editForm (route : RouteRecord) : FormData :=
  { routeId := jsOr (jsOr route.routeId route.route_id) (.str "")
    distanceKm := jsNullish (jsNullish route.distanceKm route.distance_km) (.str "")
    trafficLevel := jsOr (jsOr route.trafficLevel route.traffic_level) (.str "")
    baseTimeMin := jsNullish (jsNullish route.baseTimeMin route.base_time_min) (.str "")
    isActive :=
      if route.isActive ≠ .undefined then route.isActive
      else if route.is_active ≠ .undefined then route.is_active
      else .bool true }

/-- `handleEdit`. -/
def handleEdit (s : State) (route : RouteRecord) : State :=
  { s with showForm := true, editingRouteId := route._id, formData := editForm route }

/-- The payload `handleSubmit` builds from the form. -/
def buildPayload (formData : FormData) : Payload :=
  { routeId := formData.routeId
    distanceKm := toNumber formData.distanceKm
    trafficLevel := formData.trafficLevel
    baseTimeMin := toNumber formData.baseTimeMin
    isActive := formData.isActive }

/-- What one run of a handler did: the REST calls it made, in order, and the
state it left. -/
structure Outcome where
  calls : List ApiCall
  state : State

/-- The state after the `catch` and `finally` blocks of `handleSubmit`. -/
def submitFailed (s : State) : State :=
  { s with
    formError := some (if truthy s.editingRouteId then "Failed to update route. Please try again."
      else "Failed to create route. Please try again.")
    formLoading := false }

/-- The state after a save went through: the list is replaced and the form is
closed and reset. -/
def submitDone (s : State) (routes : List RouteRecord) : State :=
  { s with
    routes := routes, showForm := false, editingRouteId := .null, formData := emptyForm,
    formError := none, formLoading := false }

/-- `handleSubmit`, given the answers of `createRoute` and `updateRoute`. -/
def handleSubmit {ε : Type} (createRoute : Payload → Except ε RouteRecord)
    (updateRoute : JSVal → Payload → Except ε RouteRecord) (s : State) : Outcome :=
  if !truthy s.formData.routeId || !truthy s.formData.distanceKm ||
      !truthy s.formData.trafficLevel || !truthy s.formData.baseTimeMin then
    { calls := []
      state := { s with formError := some "Please fill in all required fields."
                        formLoading := false } }
  else
    let payload := buildPayload s.formData
    if truthy s.editingRouteId then
      match updateRoute s.editingRouteId payload with
      | .ok updatedRoute =>
        { calls := [.updateRoute s.editingRouteId payload]
          state := submitDone s
            (s.routes.map (fun route =>
              if jsStrictEq route._id s.editingRouteId then updatedRoute else route)) }
      | .error _ =>
        { calls := [.updateRoute s.editingRouteId payload], state := submitFailed s }
    else
      match createRoute payload with
      | .ok newRoute =>
        { calls := [.createRoute payload], state := submitDone s (s.routes ++ [newRoute]) }
      | .error _ =>
        { calls := [.createRoute payload], state := submitFailed s }

/-- The payload of a call. -/
def ApiCall.payload : ApiCall → Payload
  | .createRoute p => p
  | .updateRoute _ p => p

/-- The Route invariants of the data model: a positive distance, a positive
base time and one of the three traffic levels. -/
def Payload.valid (p : Payload) : Prop :=
  p.distanceKm.pos ∧ p.baseTimeMin.pos ∧
    (p.trafficLevel = .str "Low" ∨ p.trafficLevel = .str "Medium" ∨ p.trafficLevel = .str "High")

instance (p : Payload) : Decidable p.valid := by
  unfold Payload.valid; infer_instance

/-- One step of editing the form: an input event or a click on a row's edit
button. -/
inductive Step where
  | change (e : InputEvent)
  | edit (route : RouteRecord)
  deriving DecidableEq

/-- The handler a step runs. -/
def step (s : State) : Step → State
  | .change e => handleInputChange s e
  | .edit route => handleEdit s route

/-- The state reached from the state `s` by a sequence of steps. -/
def run (s : State) (steps : List Step) : State := steps.foldl step s

/-- A value of a numeric field that is empty (falsy) or reads as a positive
number. -/
def blankOrPositive (v : JSVal) : Prop := truthy v = false ∨ (toNumber v).pos

/-- A value of the traffic level that is empty (falsy), as the first option of
the select is, or one of its three levels. -/
def blankOrLevel (v : JSVal) : Prop :=
  truthy v = false ∨ v = .str "Low" ∨ v = .str "Medium" ∨ v = .str "High"

/-- A form whose distance and base time are blank or positive and whose
traffic level is blank or one of the three levels. -/
def FormData.enterable (f : FormData) : Prop :=
  blankOrPositive f.distanceKm ∧ blankOrPositive f.baseTimeMin ∧ blankOrLevel f.trafficLevel

/-- A step that enters such values: an input event whose value, for the field
it names, is blank or positive (distance, base time) or an option of the
select (traffic level); an edit of a record from which such values are
loaded. -/
def Step.enterable : Step → Prop
  | .change e =>
    (e.name = "distanceKm" ∨ e.name = "baseTimeMin" →
      blankOrPositive (if e.type = "checkbox" then .bool e.checked else .str e.value)) ∧
    (e.name = "trafficLevel" →
      blankOrLevel (if e.type = "checkbox" then .bool e.checked else .str e.value))
  | .edit route => (editForm route).enterable

instance (v : JSVal) : Decidable (blankOrPositive v) := by
  unfold blankOrPositive; infer_instance

instance (v : JSVal) : Decidable (blankOrLevel v) := by
  unfold blankOrLevel; infer_instance

instance (f : FormData) : Decidable f.enterable := by
  unfold FormData.enterable; infer_instance

instance (st : Step) : Decidable st.enterable := by
  cases st <;> unfold Step.enterable <;> infer_instance

/-- A sample route record, stored under the legacy field names. -/
def witnessRoute : RouteRecord :=
  { _id := .str "64f0c0ffee", routeId := .undefined, route_id := .str "R7",
    distanceKm := .undefined, distance_km := .num (.fin 12), trafficLevel := .undefined,
    traffic_level := .str "High", baseTimeMin := .undefined, base_time_min := .num (.fin 45),
    isActive := .undefined, is_active := .bool false }

/-- A sample of steps: the route is opened for editing, its distance is set to
12.5 km and its traffic level to Medium. -/
def witnessSteps : List Step :=
  [.edit witnessRoute,
   .change { name := "distanceKm", value := "12.5", type := "number", checked := false },
   .change { name := "trafficLevel", value := "Medium", type := "select-one", checked := false }]

/-- A REST API that stores what it is sent under a fixed id. -/
def witnessApi (p : Payload) : Except Unit RouteRecord :=
  .ok { _id := .str "64f0c0ffee", routeId := p.routeId, route_id := .undefined,
        distanceKm := .num p.distanceKm, distance_km := .undefined,
        trafficLevel := p.trafficLevel, traffic_level := .undefined,
        baseTimeMin := .num p.baseTimeMin, base_time_min := .undefined,
        isActive := p.isActive, is_active := .undefined }

/-- The value whose truthiness the status cell of the table tests: the route is
shown `Active` when it is truthy and `Inactive` otherwise. -/
def statusValue (route : RouteRecord) : JSVal :=
  if route.isActive ≠ .undefined then route.isActive
  else if route.is_active ≠ .undefined then route.is_active
  else .bool true

/-- The text of the status cell. -/
def statusCell (route : RouteRecord) : String :=
  if truthy (statusValue route) then "Active" else "Inactive"

/-- `getTrafficColor`; `none` is the `TypeError` of calling `toLowerCase` on a
value that is neither absent nor a string. -/
def getTrafficColor (trafficLevel : JSVal) : Option String :=
  let lowered : Option JSVal :=
    match trafficLevel with
    | .undefined => some .undefined
    | .null => some .undefined
    | .str s => some (.str (jsToLowerCase s))
    | _ => none
  match lowered with
  | none => none
  | some v =>
    if v = .str "low" then some "bg-green-100 text-green-800"
    else if v = .str "medium" then some "bg-yellow-100 text-yellow-800"
    else if v = .str "high" then some "bg-red-100 text-red-800"
    else some "bg-gray-100 text-gray-800"

/-- What one run of `handleDelete` did: the ids passed to `deleteRoute`, in
order, the state it left and the text of the alert it showed, if any. -/
structure Deleted where
  deleted : List JSVal
  state : State
  alert : Option String

/-- `handleDelete`, given the answer of `window.confirm` and the answer of
`deleteRoute`. -/
def handleDelete {ε : Type} (confirm : Bool) (deleteRoute : JSVal → Except ε Unit) (s : State)
    (routeId : JSVal) : Deleted :=
  if !confirm then { deleted := [], state := s, alert := none }
  else
    match deleteRoute routeId with
    | .ok _ =>
      { deleted := [routeId]
        state := { s with routes := s.routes.filter (fun route => !jsStrictEq route._id routeId) }
        alert := none }
    | .error _ =>
      { deleted := [routeId], state := s, alert := some "Failed to delete route. Try again." }

/-- The click on the Add/Cancel button: the form is shown or hidden, and when
it was shown the edit is dropped and the form is reset. -/
def toggleForm (s : State) : State :=
  if s.showForm then { s with showForm := false, editingRouteId := .null, formData := emptyForm }
  else { s with showForm := true }

/-- The effect run on mount, given the answer of `fetchRoutes`. -/
def loadRoutes {ε : Type} (fetched : Except ε (List RouteRecord)) (s : State) : State :=
  match fetched with
  | .ok data => { s with routes := data, loading := false }
  | .error _ => { s with loading := false }

/-- One thing that happens to the component: the answer to the fetch on mount,
a click on an edit button, a click on the Add/Cancel button, a submit of the
form with the answers of the API, a click on a delete button with the answers
of the user and of the API, or an input event. -/
inductive Action where
  | loaded (fetched : Except Unit (List RouteRecord))
  | edit (route : RouteRecord)
  | toggle
  | submit (createRoute : Payload → Except Unit RouteRecord)
      (updateRoute : JSVal → Payload → Except Unit RouteRecord)
  | delete (confirm : Bool) (deleteRoute : JSVal → Except Unit Unit) (routeId : JSVal)
  | change (e : InputEvent)

/-- The state after an action.  The inputs exist only while the form is shown,
so an input event does nothing otherwise. -/
def act (s : State) : Action → State
  | .loaded fetched => loadRoutes fetched s
  | .edit route => handleEdit s route
  | .toggle => toggleForm s
  | .submit createRoute updateRoute => (handleSubmit createRoute updateRoute s).state
  | .delete confirm deleteRoute routeId => (handleDelete confirm deleteRoute s routeId).state
  | .change e => if s.showForm then handleInputChange s e else s

end RoutesPage

/-! ## Orders.jsx -/

namespace Orders

/-- The two library conversions `handleEdit` calls, taken as given:
`Number.prototype.toString` and `new Date(v).toISOString()`, the latter `none`
when it throws a `RangeError` for an invalid date. -/
structure Builtins where
  numberToString : JSNum → String
  dateToISOString : JSVal → Option String

/-- An order as the REST API returns it.  A field the record lacks is
`undefined`. -/
structure OrderRecord where
  _id : JSVal
  order_id : JSVal
  value_rs : JSVal
  route_id : JSVal
  delivery_time : JSVal
  assigned_driver_id : JSVal
  simulation_id : JSVal
  deriving DecidableEq

/-- The `formData` state cell. -/
structure FormData where
  order_id : JSVal
  value_rs : JSVal
  route_id : JSVal
  delivery_time : JSVal
  assigned_driver_id : JSVal
  simulation_id : JSVal
  deriving DecidableEq

/-- The object passed to `createOrder` and `updateOrder`. -/
structure Payload where
  orderId : JSVal
  valueRs : JSNum
  routeId : JSVal
  deliveryTime : JSVal
  assignedDriverId : JSVal
  simulationId : JSVal
  deriving DecidableEq

/-- A call of the REST API. -/
inductive ApiCall where
  | createOrder (payload : Payload)
  | updateOrder (id : JSVal) (payload : Payload)
  deriving DecidableEq

/-- The state cells of the component; `none` stands for a `null` error. -/
structure State where
  orders : List OrderRecord
  loading : Bool
  showForm : Bool
  editingOrderId : JSVal
  formData : FormData
  formLoading : Bool
  formError : Option String
  deriving DecidableEq

/-- The `name` and `value` of the target of an input event. -/
structure InputEvent where
  name : String
  value : String
  deriving DecidableEq

/-- The form `useState` is called with, and the one every reset installs. -/
def emptyForm : FormData :=
  { order_id := .str "", value_rs := .str "", route_id := .str "", delivery_time := .str "",
    assigned_driver_id := .str "", simulation_id := .str "" }

/-- The state of the component when it mounts. -/
def initialState : State :=
  { orders := [], loading := true, showForm := false, editingOrderId := .null,
    formData := emptyForm, formLoading := false, formError := none }

/-- The form after `handleInputChange`.  A key no input carries is never read
and is not represented. -/
def handleInputChangeForm (prev : FormData) (e : InputEvent) : FormData :=
  if e.name = "order_id" then { prev with order_id := .str e.value }
  else if e.name = "value_rs" then { prev with value_rs := .str e.value }
  else if e.name = "route_id" then { prev with route_id := .str e.value }
  else if e.name = "delivery_time" then { prev with delivery_time := .str e.value }
  else if e.name = "assigned_driver_id" then { prev with assigned_driver_id := .str e.value }
  else if e.name = "simulation_id" then { prev with simulation_id := .str e.value }
  else prev

/-- `handleInputChange`. -/
def handleInputChange (s : State) (e : InputEvent) : State :=
  { s with formData := handleInputChangeForm s.formData e }

/-- `v?.toString()`: `undefined` for an absent value, else its text. -/
def optToString (b : Builtins) : JSVal → JSVal
  | .undefined => .undefined
  | .null => .undefined
  | .bool true => .str "true"
  | .bool false => .str "false"
  | .num n => .str (b.numberToString n)
  | .str s => .str s

/-- The form `handleEdit` loads from an order record; `none` when
`toISOString` throws. -/
def editForm (b : Builtins) (order : OrderRecord) : Option FormData :=
  let delivery_time : Option JSVal :=
    if truthy order.delivery_time then
      match b.dateToISOString order.delivery_time with
      | some iso => some (.str (jsSlice iso 0 16))
      | none => none
    else some (.str "")
  match delivery_time with
  | some dt =>
    some { order_id := jsOr order.order_id (.str "")
           value_rs := jsOr (optToString b order.value_rs) (.str "")
           route_id := jsOr order.route_id (.str "")
           delivery_time := dt
           assigned_driver_id := jsOr order.assigned_driver_id (.str "")
           simulation_id := jsOr order.simulation_id (.str "") }
  | none => none

/-- `handleEdit`.  When building the form throws, `setShowForm` and
`setEditingOrderId` have run and `setFormData` has not. -/
def handleEdit (b : Builtins) (s : State) (order : OrderRecord) : State :=
  match editForm b order with
  | some form => { s with showForm := true, editingOrderId := order._id, formData := form }
  | none => { s with showForm := true, editingOrderId := order._id }

/-- The payload `handleSubmit` builds from the form. -/
def buildPayload (formData : FormData) : Payload :=
  { orderId := formData.order_id
    valueRs := toNumber formData.value_rs
    routeId := formData.route_id
    deliveryTime := jsOr formData.delivery_time .null
    assignedDriverId := jsOr formData.assigned_driver_id .null
    simulationId := jsOr formData.simulation_id .null }

/-- What one run of a handler did: the REST calls it made, in order, and the
state it left. -/
structure Outcome where
  calls : List ApiCall
  state : State

/-- The state after the `catch` and `finally` blocks of `handleSubmit`. -/
def submitFailed (s : State) : State :=
  { s with
    formError := some (if truthy s.editingOrderId then "Failed to update order."
      else "Failed to create order. Please try again.")
    formLoading := false }

/-- The state after a save went through: the list is replaced and the form is
closed and reset. -/
def submitDone (s : State) (orders : List OrderRecord) : State :=
  { s with
    orders := orders, showForm := false, editingOrderId := .null, formData := emptyForm,
    formError := none, formLoading := false }

/-- `handleSubmit`, given the answers of `createOrder` and `updateOrder`. -/
def handleSubmit {ε : Type} (createOrder : Payload → Except ε OrderRecord)
    (updateOrder : JSVal → Payload → Except ε OrderRecord) (s : State) : Outcome :=
  if !truthy s.formData.order_id || !truthy s.formData.value_rs ||
      !truthy s.formData.route_id then
    { calls := []
      state := { s with formError := some "Order ID, Value, and Route ID are required."
                        formLoading := false } }
  else
    let payload := buildPayload s.formData
    if truthy s.editingOrderId then
      match updateOrder s.editingOrderId payload with
      | .ok updatedOrder =>
        { calls := [.updateOrder s.editingOrderId payload]
          state := submitDone s
            (s.orders.map (fun order =>
              if jsStrictEq order._id s.editingOrderId then updatedOrder else order)) }
      | .error _ =>
        { calls := [.updateOrder s.editingOrderId payload], state := submitFailed s }
    else
      match createOrder payload with
      | .ok newOrder =>
        { calls := [.createOrder payload], state := submitDone s (s.orders ++ [newOrder]) }
      | .error _ =>
        { calls := [.createOrder payload], state := submitFailed s }

/-- The payload of a call. -/
def ApiCall.payload : ApiCall → Payload
  | .createOrder p => p
  | .updateOrder _ p => p

/-- One step of editing the form: an input event or a click on a row's edit
button. -/
inductive Step where
  | change (e : InputEvent)
  | edit (order : OrderRecord)
  deriving DecidableEq

/-- The handler a step runs. -/
def step (b : Builtins) (s : State) : Step → State
  | .change e => handleInputChange s e
  | .edit order => handleEdit b s order

/-- The state reached from the state `s` by a sequence of steps. -/
def run (b : Builtins) (s : State) (steps : List Step) : State := steps.foldl (step b) s

/-- A form value that is the empty string or truthy. -/
def blankOrTruthy (v : JSVal) : Prop := v = .str "" ∨ truthy v = true

/-- Every field of the form is the empty string or truthy. -/
def FormData.tidy (f : FormData) : Prop :=
  blankOrTruthy f.order_id ∧ blankOrTruthy f.value_rs ∧ blankOrTruthy f.route_id ∧
    blankOrTruthy f.delivery_time ∧ blankOrTruthy f.assigned_driver_id ∧
    blankOrTruthy f.simulation_id

/-- The form misses a required field. -/
def FormData.incomplete (f : FormData) : Prop :=
  f.order_id = .str "" ∨ f.value_rs = .str "" ∨ f.route_id = .str ""

/-- A step that enters a value that is not negative: an input event whose
value, when it names `value_rs`, reads as a number that is not negative; an
edit of an order whose `value_rs`, as the text `handleEdit` loads, does. -/
def Step.valueNonNeg (b : Builtins) : Step → Prop
  | .change e => e.name = "value_rs" → (stringToNumber e.value).nonNeg
  | .edit order => (toNumber (jsOr (optToString b order.value_rs) (.str ""))).nonNeg

instance (v : JSVal) : Decidable (blankOrTruthy v) := by
  unfold blankOrTruthy; infer_instance

instance (f : FormData) : Decidable f.tidy := by
  unfold FormData.tidy; infer_instance

instance (f : FormData) : Decidable f.incomplete := by
  unfold FormData.incomplete; infer_instance

instance (b : Builtins) (st : Step) : Decidable (st.valueNonNeg b) := by
  cases st <;> unfold Step.valueNonNeg <;> infer_instance

/-- Sample library conversions: the text of the one number and the ISO text of
the one date the sample order holds. -/
def witnessBuiltins : Builtins :=
  { numberToString := fun n => if n = .fin 1250 then "1250" else "NaN"
    dateToISOString := fun v =>
      if v = .str "2025-03-14T09:30:00.000Z" then some "2025-03-14T09:30:00.000Z" else none }

/-- A sample order record, not yet assigned to a driver. -/
def witnessOrder : OrderRecord :=
  { _id := .str "64f0c0ffee", order_id := .str "ORD-7", value_rs := .num (.fin 1250),
    route_id := .str "R1", delivery_time := .str "2025-03-14T09:30:00.000Z",
    assigned_driver_id := .null, simulation_id := .undefined }

/-- A sample of steps: the order is opened for editing and its value is set to
1300.50. -/
def witnessSteps : List Step :=
  [.edit witnessOrder, .change { name := "value_rs", value := "1300.50" }]

/-- A sample of steps that leaves the value blank: an order id and a route id
are entered. -/
def witnessBlankValue : List Step :=
  [.change { name := "order_id", value := "ORD-9" },
   .change { name := "route_id", value := "R1" }]

/-- A sample of steps that leaves the driver blank: the order is opened for
editing, the driver field is cleared and a simulation id is entered. -/
def witnessBlankDriver : List Step :=
  [.edit witnessOrder,
   .change { name := "assigned_driver_id", value := "" },
   .change { name := "simulation_id", value := "SIM-3" }]

/-- A REST API that stores what it is sent under a fixed id. -/
def witnessApi (p : Payload) : Except Unit OrderRecord :=
  .ok { _id := .str "64f0c0ffee", order_id := p.orderId, value_rs := .num p.valueRs,
        route_id := p.routeId, delivery_time := p.deliveryTime,
        assigned_driver_id := p.assignedDriverId, simulation_id := p.simulationId }

/-- What one run of `handleDelete` did: the ids passed to `deleteOrder`, in
order, the state it left and the text of the alert it showed, if any. -/
structure Deleted where
  deleted : List JSVal
  state : State
  alert : Option String

/-- `handleDelete`, given the answer of `window.confirm` and the answer of
`deleteOrder`. -/
def handleDelete {ε : Type} (confirm : Bool) (deleteOrder : JSVal → Except ε Unit) (s : State)
    (orderId : JSVal) : Deleted :=
  if !confirm then { deleted := [], state := s, alert := none }
  else
    match deleteOrder orderId with
    | .ok _ =>
      { deleted := [orderId]
        state := { s with orders := s.orders.filter (fun order => !jsStrictEq order._id orderId) }
        alert := none }
    | .error _ =>
      { deleted := [orderId], state := s, alert := some "Failed to delete order. Please try again." }

/-- The click on the Add/Cancel button: the form is shown or hidden, and when
it was shown the edit is dropped and the form is reset. -/
def toggleForm (s : State) : State :=
  if s.showForm then { s with showForm := false, editingOrderId := .null, formData := emptyForm }
  else { s with showForm := true }

/-- The effect run on mount, given the answer of `fetchOrders`. -/
def loadOrders {ε : Type} (fetched : Except ε (List OrderRecord)) (s : State) : State :=
  match fetched with
  | .ok data => { s with orders := data, loading := false }
  | .error _ => { s with loading := false }

/-- One thing that happens to the component: the answer to the fetch on mount,
a click on an edit button, a click on the Add/Cancel button, a submit of the
form with the answers of the API, a click on a delete button with the answers
of the user and of the API, or an input event. -/
inductive Action where
  | loaded (fetched : Except Unit (List OrderRecord))
  | edit (order : OrderRecord)
  | toggle
  | submit (createOrder : Payload → Except Unit OrderRecord)
      (updateOrder : JSVal → Payload → Except Unit OrderRecord)
  | delete (confirm : Bool) (deleteOrder : JSVal → Except Unit Unit) (orderId : JSVal)
  | change (e : InputEvent)

/-- The state after an action.  The inputs exist only while the form is shown,
so an input event does nothing otherwise. -/
def act (b : Builtins) (s : State) : Action → State
  | .loaded fetched => loadOrders fetched s
  | .edit order => handleEdit b s order
  | .toggle => toggleForm s
  | .submit createOrder updateOrder => (handleSubmit createOrder updateOrder s).state
  | .delete confirm deleteOrder orderId => (handleDelete confirm deleteOrder s orderId).state
  | .change e => if s.showForm then handleInputChange s e else s

/-- A sample order record whose delivery time is a text that is not a date,
for which `toISOString` throws. -/
def witnessUndatedOrder : OrderRecord :=
  { _id := .str "64f0c0ffee", order_id := .str "ORD-7", value_rs := .num (.fin 1250),
    route_id := .str "R1", delivery_time := .str "as soon as possible",
    assigned_driver_id := .null, simulation_id := .undefined }

end Orders

/-! ## runSimulation

The engine behind `runSimulation` of `services/api` is not among the source
files.  It is modelled from sections 3, 4 and 7 of the specification; the
constants and formulas the specification leaves open are the fields of
`Policy`.  Quantities are exact rationals; an instant is a number of minutes
on the clock `startTime` is read from. -/

namespace Engine

/-- Modelled from the spec: the traffic level of a route (section 3); the
engine is missing from the sources. -/
inductive TrafficLevel where
  | Low
  | Medium
  | High
  deriving DecidableEq

/-- Modelled from the spec: the Driver entity of section 3. -/
structure Driver where
  id : String
  name : String
  currentShiftHours : ℚ
  pastWeekHours : List ℚ
  isActive : Bool
  deriving DecidableEq

/-- Modelled from the spec: the Route entity of section 3. -/
structure Route where
  routeId : String
  distanceKm : ℚ
  trafficLevel : TrafficLevel
  baseTimeMin : ℚ
  isActive : Bool
  deriving DecidableEq

/-- Modelled from the spec: the Order entity of section 3, as the engine reads
it; `deliveryTime` is the optional deadline. -/
structure Order where
  orderId : String
  valueRs : ℚ
  routeId : String
  deliveryTime : Option ℚ
  deriving DecidableEq

/-- Modelled from the spec: the SimulationRequest of section 3. -/
structure SimulationRequest where
  availableDrivers : ℕ
  startTime : ℚ
  maxHoursPerDay : ℚ
  deriving DecidableEq

/-- Modelled from the spec: the snapshot of drivers, routes and unassigned
orders a run reads (sections 3 and 5). -/
structure Snapshot where
  drivers : List Driver
  routes : List Route
  orders : List Order
  deriving DecidableEq

/-- Modelled from the spec: the tunable policy constants and functions that
sections 4 and 9 name and leave open. -/
structure Policy where
  fatigueThreshold : ℚ
  derate : ℚ → ℚ
  trafficMultiplier : TrafficLevel → ℚ
  costPerKm : ℚ
  trafficFuelFactor : TrafficLevel → ℚ
  bonusRate : ℚ
  latePenalty : ℚ → ℚ
  onTimeWeight : ℚ

/-- Modelled from the spec: the fatal error of section 7. -/
inductive SimulationError where
  | InvalidCapacity
  deriving DecidableEq

/-- Modelled from the spec: a DriverAssignment of sections 3 and 6. -/
structure DriverAssignment where
  driverId : String
  totalHours : ℚ
  totalProfit : ℚ
  assignedOrders : List String
  deriving DecidableEq

/-- Modelled from the spec: an entry of `fuelCostBreakdown` (section 6). -/
structure RouteFuelCost where
  routeId : String
  totalCost : ℚ
  deriving DecidableEq

/-- Modelled from the spec: the `performanceMetrics` of section 6. -/
structure PerformanceMetrics where
  totalFuelCost : ℚ
  totalBonuses : ℚ
  totalPenalties : ℚ
  averageDeliveryTime : ℚ
  utilizationRate : ℚ
  deriving DecidableEq

/-- Modelled from the spec: the SimulationResult of sections 3 and 6. -/
structure SimulationResult where
  totalProfit : ℚ
  efficiencyScore : ℚ
  onTimeDeliveries : ℕ
  lateDeliveries : ℕ
  fuelCostBreakdown : List RouteFuelCost
  driverAssignments : List DriverAssignment
  performanceMetrics : PerformanceMetrics
  deriving DecidableEq

/-- Modelled from the spec: the capacity of section 4.1 for a positive
`maxHoursPerDay`: `maxHoursPerDay − currentShiftHours` floored at 0, derated
when the sum of `pastWeekHours` exceeds the fatigue threshold. -/
def capacity (p : Policy) (driver : Driver) (maxHoursPerDay : ℚ) : ℚ :=
  let base := max (maxHoursPerDay - driver.currentShiftHours) 0
  if p.fatigueThreshold < driver.pastWeekHours.sum then p.derate base else base

/-- Modelled from the spec: `remainingHours` of section 4.1, which fails with
`InvalidCapacity` when `maxHoursPerDay` is at most 0. -/
def remainingHours (p : Policy) (driver : Driver) (maxHoursPerDay : ℚ) :
    Except SimulationError ℚ :=
  if maxHoursPerDay ≤ 0 then .error .InvalidCapacity
  else .ok (capacity p driver maxHoursPerDay)

/-- Modelled from the spec: what `estimate` of section 4.2 returns. -/
structure Estimate where
  transitMinutes : ℚ
  fuelCostPerTrip : ℚ
  deriving DecidableEq

/-- Modelled from the spec: `estimate` of section 4.2. -/
def estimate (p : Policy) (route : Route) : Estimate :=
  { transitMinutes := route.baseTimeMin * p.trafficMultiplier route.trafficLevel
    fuelCostPerTrip := route.distanceKm * p.costPerKm * p.trafficFuelFactor route.trafficLevel }

/-- Modelled from the spec: the active route an order references, if there is
one (section 4.3, step 1). -/
def findRoute (routes : List Route) (order : Order) : Option Route :=
  routes.find? (fun r => decide (r.routeId = order.routeId) && r.isActive)

/-- Modelled from the spec: the order references a valid route, one that
exists and is active (sections 7 and 8). -/
def hasValidRoute (routes : List Route) (order : Order) : Bool :=
  routes.any (fun r => decide (r.routeId = order.routeId) && r.isActive)

/-- Modelled from the spec: what `score` of section 4.4 returns. -/
structure Score where
  onTime : Bool
  bonus : ℚ
  penalty : ℚ
  deriving DecidableEq

/-- Modelled from the spec: `score` of section 4.4.  An order without a
deadline is on time; the bonus goes to deliveries on time, in proportion to
the value; the penalty goes to late deliveries and never exceeds the value. -/
def score (p : Policy) (order : Order) (completionInstant : ℚ) : Score :=
  match order.deliveryTime with
  | none => { onTime := true, bonus := p.bonusRate * order.valueRs, penalty := 0 }
  | some deadline =>
    if completionInstant ≤ deadline then
      { onTime := true, bonus := p.bonusRate * order.valueRs, penalty := 0 }
    else
      { onTime := false, bonus := 0
        penalty := min (p.latePenalty (completionInstant - deadline)) order.valueRs }

/-- Modelled from the spec: a driver of the pool of section 4.3 with the
capacity it started with, the capacity it has left and its running clock. -/
structure Slot where
  driver : Driver
  capacity : ℚ
  remaining : ℚ
  clock : ℚ
  deriving DecidableEq

/-- Modelled from the spec: an assigned order on the timeline of the driver in
slot `slot`, with its transit time, completion instant, score and fuel cost
(sections 4.3 and 4.4). -/
structure Delivery where
  slot : ℕ
  order : Order
  route : Route
  transitMinutes : ℚ
  completionInstant : ℚ
  score : Score
  fuelCost : ℚ
  deriving DecidableEq

/-- Modelled from the spec: the profit of one order (section 4.4). -/
def Delivery.profit (d : Delivery) : ℚ :=
  d.order.valueRs + d.score.bonus - d.score.penalty - d.fuelCost

/-- Modelled from the spec: the working state of `assign` (section 4.3): the
pool, the deliveries in the order they were assigned, and the orders left
unassigned. -/
structure Assignment where
  pool : List Slot
  deliveries : List Delivery
  unassignedOrders : List Order
  deriving DecidableEq

/-- Modelled from the spec: the pool of section 4.3: the active drivers with a
capacity above 0, ranked by descending capacity, restricted to the first
`availableDrivers` of them. -/
def buildPool (p : Policy) (req : SimulationRequest) (drivers : List Driver) : List Slot :=
  let slots : List Slot := (drivers.filter (fun d => d.isActive)).map (fun d =>
    { driver := d, capacity := capacity p d req.maxHoursPerDay
      remaining := capacity p d req.maxHoursPerDay, clock := req.startTime })
  let eligible := slots.filter (fun s => decide (0 < s.capacity))
  (eligible.insertionSort (fun a b => b.capacity ≤ a.capacity)).take req.availableDrivers

/-- Modelled from the spec: the priority of section 4.3, step 2: descending
value, ties broken by ascending order id. -/
def hasPriority (a b : Order × Route) : Prop :=
  b.1.valueRs < a.1.valueRs ∨ (a.1.valueRs = b.1.valueRs ∧ ¬ b.1.orderId < a.1.orderId)

instance (a b : Order × Route) : Decidable (hasPriority a b) := by
  unfold hasPriority; infer_instance

/-- Modelled from the spec: the orders that reference a valid route, each with
its route, in priority order (section 4.3, steps 1 and 2). -/
def backlog (routes : List Route) (orders : List Order) : List (Order × Route) :=
  (orders.filterMap (fun o => (findRoute routes o).map (fun r => (o, r)))).insertionSort
    hasPriority

/-- Modelled from the spec: the driver with the most remaining capacity and
its place in the pool, the first one among equals (section 4.3, steps 3 and
4). -/
def mostRemaining : List Slot → Option (ℕ × Slot)
  | [] => none
  | s :: rest =>
    match mostRemaining rest with
    | some (j, t) => if s.remaining < t.remaining then some (j + 1, t) else some (0, s)
    | none => some (0, s)

/-- Modelled from the spec: step 4 of section 4.3 for one order: the driver
with the most remaining capacity takes it when its transit time fits, and the
order is left unassigned otherwise. -/
def assignOrder (p : Policy) (a : Assignment) (job : Order × Route) : Assignment :=
  match mostRemaining a.pool with
  | some (i, s) =>
    if (estimate p job.2).transitMinutes / 60 ≤ s.remaining then
      { pool := a.pool.set i
          { s with remaining := s.remaining - (estimate p job.2).transitMinutes / 60
                   clock := s.clock + (estimate p job.2).transitMinutes }
        deliveries := a.deliveries ++
          [{ slot := i, order := job.1, route := job.2
             transitMinutes := (estimate p job.2).transitMinutes
             completionInstant := s.clock + (estimate p job.2).transitMinutes
             score := score p job.1 (s.clock + (estimate p job.2).transitMinutes)
             fuelCost := (estimate p job.2).fuelCostPerTrip }]
        unassignedOrders := a.unassignedOrders }
    else { a with unassignedOrders := a.unassignedOrders ++ [job.1] }
  | none => { a with unassignedOrders := a.unassignedOrders ++ [job.1] }

/-- Modelled from the spec: `assign` of section 4.3.  The orders without a
valid route are reported unassigned from the start. -/
def assign (p : Policy) (req : SimulationRequest) (drivers : List Driver) (routes : List Route)
    (orders : List Order) : Assignment :=
  (backlog routes orders).foldl (assignOrder p)
    { pool := buildPool p req drivers, deliveries := []
      unassignedOrders := orders.filter (fun o => !hasValidRoute routes o) }

/-- Modelled from the spec: the driver assignments of a pool, the first slot
having the number `j` (sections 3 and 4.5). -/
def assignmentsFrom (deliveries : List Delivery) : ℕ → List Slot → List DriverAssignment
  | _, [] => []
  | j, s :: rest =>
    { driverId := s.driver.id
      totalHours := s.capacity - s.remaining
      totalProfit := ((deliveries.filter (fun d => decide (d.slot = j))).map Delivery.profit).sum
      assignedOrders := (deliveries.filter (fun d => decide (d.slot = j))).map
        (fun d => d.order.orderId) } :: assignmentsFrom deliveries (j + 1) rest

/-- Modelled from the spec: a rate clamped to the range from 0 to 100. -/
def clamp (x : ℚ) : ℚ := max 0 (min 100 x)

/-- Modelled from the spec: `aggregate` of section 4.5. -/
def aggregate (p : Policy) (req : SimulationRequest) (a : Assignment) : SimulationResult :=
  let delivered : ℚ := a.deliveries.length
  let onTime := a.deliveries.countP (fun d => d.score.onTime)
  let hoursUsed := (a.pool.map (fun s => s.capacity - s.remaining)).sum
  let utilization : ℚ :=
    if a.pool = [] then 0
    else clamp (hoursUsed / ((a.pool.length : ℚ) * req.maxHoursPerDay) * 100)
  let onTimeRatio : ℚ := if a.deliveries = [] then 0 else (onTime : ℚ) / delivered * 100
  { totalProfit := (a.deliveries.map Delivery.profit).sum
    efficiencyScore := clamp (p.onTimeWeight * onTimeRatio + (1 - p.onTimeWeight) * utilization)
    onTimeDeliveries := onTime
    lateDeliveries := a.deliveries.countP (fun d => !d.score.onTime)
    fuelCostBreakdown :=
      (a.deliveries.map (fun d => d.route.routeId)).eraseDups.map (fun id =>
        { routeId := id
          totalCost := ((a.deliveries.filter (fun d => decide (d.route.routeId = id))).map
            (fun d => d.fuelCost)).sum })
    driverAssignments := assignmentsFrom a.deliveries 0 a.pool
    performanceMetrics :=
      { totalFuelCost := (a.deliveries.map (fun d => d.fuelCost)).sum
        totalBonuses := (a.deliveries.map (fun d => d.score.bonus)).sum
        totalPenalties := (a.deliveries.map (fun d => d.score.penalty)).sum
        averageDeliveryTime :=
          if a.deliveries = [] then 0
          else (a.deliveries.map (fun d => d.transitMinutes)).sum / delivered
        utilizationRate := utilization } }

/-- Modelled from the spec: `runSimulation` of section 6 with the error policy
of section 7: a `maxHoursPerDay` of at most 0 aborts the run with
`InvalidCapacity` before anything is computed; every other request returns a
result. -/
def runSimulation (p : Policy) (snapshot : Snapshot) (req : SimulationRequest) :
    Except SimulationError SimulationResult :=
  if req.maxHoursPerDay ≤ 0 then .error .InvalidCapacity
  else .ok (aggregate p req (assign p req snapshot.drivers snapshot.routes snapshot.orders))

/-- A sample policy: drivers above 50 hours in the past week keep three
quarters of their capacity; traffic multiplies the transit time by 1, 1.3 and
1.6 and the fuel by 1, 1.2 and 1.5; fuel costs 5 per km; the bonus is a tenth
of the value and the penalty is 50. -/
def witnessPolicy : Policy :=
  { fatigueThreshold := 50
    derate := fun c => c * (3 / 4)
    trafficMultiplier := fun t =>
      match t with
      | .Low => 1
      | .Medium => 13 / 10
      | .High => 8 / 5
    costPerKm := 5
    trafficFuelFactor := fun t =>
      match t with
      | .Low => 1
      | .Medium => 6 / 5
      | .High => 3 / 2
    bonusRate := 1 / 10
    latePenalty := fun _ => 50
    onTimeWeight := 1 / 2 }

/-- A sample snapshot: a rested driver three hours into the shift, a tired
driver, an inactive driver; a quiet and a busy route and a closed one; four
orders, one of them on the closed route and one with a deadline it misses. -/
def witnessSnapshot : Snapshot :=
  { drivers :=
      [{ id := "D1", name := "Asha", currentShiftHours := 3,
         pastWeekHours := [6, 6, 6, 6, 6, 6, 6], isActive := true },
       { id := "D2", name := "Ravi", currentShiftHours := 0,
         pastWeekHours := [9, 9, 9, 9, 9, 9, 9], isActive := true },
       { id := "D3", name := "Meera", currentShiftHours := 0,
         pastWeekHours := [0, 0, 0, 0, 0, 0, 0], isActive := false }]
    routes :=
      [{ routeId := "R1", distanceKm := 10, trafficLevel := .Low, baseTimeMin := 120,
         isActive := true },
       { routeId := "R2", distanceKm := 25, trafficLevel := .High, baseTimeMin := 150,
         isActive := true },
       { routeId := "R3", distanceKm := 5, trafficLevel := .Medium, baseTimeMin := 30,
         isActive := false }]
    orders :=
      [{ orderId := "O1", valueRs := 500, routeId := "R1", deliveryTime := none },
       { orderId := "O2", valueRs := 900, routeId := "R2", deliveryTime := some 600 },
       { orderId := "O3", valueRs := 700, routeId := "R3", deliveryTime := none },
       { orderId := "O4", valueRs := 500, routeId := "R2", deliveryTime := none }] }

/-- A sample request: two drivers, a start at 09:00 and a day of 8 hours. -/
def witnessRequest : SimulationRequest :=
  { availableDrivers := 2, startTime := 540, maxHoursPerDay := 8 }

/-- The invariant of a run, which holds of every slot of the pool throughout:
its driver is in the snapshot, its capacity is the capacity of that driver,
above 0, and what remains of it is not negative. -/
def SlotOK (p : Policy) (req : SimulationRequest) (drivers : List Driver) (s : Slot) : Prop :=
  s.driver ∈ drivers ∧ s.capacity = capacity p s.driver req.maxHoursPerDay ∧ 0 < s.capacity ∧
    0 ≤ s.remaining

/-- The result the sample run returns. -/
def witnessResult : SimulationResult :=
  aggregate witnessPolicy witnessRequest
    (assign witnessPolicy witnessRequest witnessSnapshot.drivers witnessSnapshot.routes
      witnessSnapshot.orders)

/-- A sample translation of the payload of the Simulation form into a request:
the numbers as they are (0 when they are not finite), the day starting at
09:00. -/
def witnessToRequest (payload : Simulation.Payload) : SimulationRequest :=
  { availableDrivers :=
      match payload.availableDrivers with
      | .fin q => q.floor.toNat
      | _ => 0
    startTime := 540
    maxHoursPerDay :=
      match payload.maxHoursPerDay with
      | .fin q => q
      | _ => 0 }

/-- A sample state of the Simulation form, with two drivers and 0 hours. -/
def witnessZeroHours : Simulation.State SimulationResult :=
  { formData := { availableDrivers := .fin 2, startTime := "2025-03-14T09:00",
                  maxHoursPerDay := .fin 0 }
    loading := false, result := none, error := none }

end Engine

/-! ## Dashboard.jsx -/

/-- The pieces of a character sequence between the occurrences of `sep`. -/
def splitChars (sep : Char) : List Char → List (List Char)
  | [] => [[]]
  | c :: cs =>
    if c = sep then [] :: splitChars sep cs
    else
      match splitChars sep cs with
      | [] => [[c]]
      | piece :: pieces => (c :: piece) :: pieces

/-- `s.split(sep)` for a separator of one character. -/
def jsSplit (s : String) (sep : Char) : List String := (splitChars sep s.data).map String.mk

/-- `xs.join(sep)` for an array of strings. -/
def jsJoin (sep : String) (xs : List String) : String :=
  String.mk (List.intercalate sep.data (xs.map String.data))

namespace Dashboard

/-- The two fields of the `data` state cell that `downloadCSV` reads. -/
structure Data where
  totalProfit : JSVal
  efficiencyScore : JSVal
  deriving DecidableEq

/-- The two library conversions `downloadCSV` calls, taken as given:
`Number.prototype.toString` and `Number.prototype.toLocaleString`, whose text
depends on the locale of the browser. -/
structure Builtins where
  numberToString : JSNum → String
  numberToLocaleString : JSNum → String

/-- The values `useState` is called with. -/
def initialData : Data := { totalProfit := .num (.fin 0), efficiencyScore := .num (.fin 0) }

/-- `v.toLocaleString()`: `none` is the `TypeError` of an absent value. -/
def callToLocaleString (b : Builtins) : JSVal → Option String
  | .undefined => none
  | .null => none
  | .bool true => some "true"
  | .bool false => some "false"
  | .num n => some (b.numberToLocaleString n)
  | .str s => some s

/-- The array of lines `downloadCSV` joins; `none` when building it throws. -/
def csvLines (b : Builtins) (data : Data) : Option (List String) :=
  match callToLocaleString b data.totalProfit with
  | none => none
  | some profit =>
    some ["Metric,Value",
          "Total Profit,$" ++ profit,
          "Efficiency Score," ++ jsToString b.numberToString data.efficiencyScore ++ "%",
          "Active Routes,24",
          "Total Deliveries,1,247"]

/-- The text `downloadCSV` puts into the downloaded file. -/
def downloadCSV (b : Builtins) (data : Data) : Option String :=
  (csvLines b data).map (jsJoin "\n")

/-- Sample library conversions in an English locale, for the numbers of the
sample data. -/
def witnessBuiltins : Builtins :=
  { numberToString := fun n =>
      if n = .fin 0 then "0" else if n = .fin 87 then "87" else "NaN"
    numberToLocaleString := fun n =>
      if n = .fin 0 then "0" else if n = .fin 12500 then "12,500" else "NaN" }

/-- Sample dashboard data: a profit of 12500 and an efficiency of 87. -/
def witnessData : Data := { totalProfit := .num (.fin 12500), efficiencyScore := .num (.fin 87) }

end Dashboard

/-! ## What the claims about the three lists say -/

/-- The list `after` is the list `before` with every record whose id is `E`
replaced by `updated`: the same length, every position holding the record it
held or, where that had the id `E`, `updated`; and the same list when no
record has the id `E`. -/
def ReplacedById {α : Type} (idOf : α → JSVal) (E : JSVal) (updated : α)
    (before after : List α) : Prop :=
  after.length = before.length ∧
  (∀ (i : Nat) (x : α), before[i]? = some x →
    after[i]? = some (if idOf x = E then updated else x)) ∧
  ((∀ x ∈ before, idOf x ≠ E) → after = before)

/-- The list `after` is the list `before` without the records whose id is
strictly equal to `id`: the records that stay are exactly the others, in the
order they had; for an `id` other than `NaN`, strictly equal is equal. -/
def RemovedById {α : Type} (idOf : α → JSVal) (id : JSVal) (before after : List α) : Prop :=
  after = before.filter (fun x => !jsStrictEq (idOf x) id) ∧
  after.Sublist before ∧
  (∀ x, x ∈ after ↔ x ∈ before ∧ jsStrictEq (idOf x) id = false) ∧
  (id ≠ .num .nan → ∀ x, jsStrictEq (idOf x) id = true ↔ idOf x = id)

/-- Drivers: while the form is hidden, no driver is being edited and the form
is the empty form. -/
def Drivers.State.closedClean (s : Drivers.State) : Prop :=
  s.showForm = false → s.editingDriverId = .null ∧ s.formData = Drivers.emptyForm

/-- RoutesPage: while the form is hidden, no route is being edited and the
form is the empty form. -/
def RoutesPage.State.closedClean (s : RoutesPage.State) : Prop :=
  s.showForm = false → s.editingRouteId = .null ∧ s.formData = RoutesPage.emptyForm

/-- Orders: while the form is hidden, no order is being edited and the form is
the empty form. -/
def Orders.State.closedClean (s : Orders.State) : Prop :=
  s.showForm = false → s.editingOrderId = .null ∧ s.formData = Orders.emptyForm

/-- Drivers: a sample state in which the sample driver, the second of two in
the list, is being edited. -/
def Drivers.witnessEditing : Drivers.State :=
  Drivers.handleEdit
    { Drivers.initialState with
      drivers := [{ Drivers.witnessDriver with _id := .str "64f0c0ffaa", name := .str "Asha" },
                  Drivers.witnessDriver]
      loading := false }
    Drivers.witnessDriver

/-- RoutesPage: a sample state in which the sample route, the only one in the
list, is being edited. -/
def RoutesPage.witnessEditing : RoutesPage.State :=
  RoutesPage.handleEdit
    { RoutesPage.initialState with routes := [RoutesPage.witnessRoute], loading := false }
    RoutesPage.witnessRoute

/-- Orders: a sample state in which the sample order, the first of two in the
list, is being edited. -/
def Orders.witnessEditing : Orders.State :=
  Orders.handleEdit Orders.witnessBuiltins
    { Orders.initialState with
      orders := [Orders.witnessOrder,
                 { Orders.witnessOrder with _id := .str "64f0c0ffbb", order_id := .str "ORD-8" }]
      loading := false }
    Orders.witnessOrder

/-! # Properties -/

/-! ## `Number(text)`: rounding to binary64 -/

/-- `Number('1e400')` is `Infinity`: the value read is above every binary64. -/
theorem stringToNumber_overflow : stringToNumber "1e400" = .posInf := by decide!

/-- `Number('1e-400')` is 0: the value read is below half of the least
positive binary64. -/
theorem stringToNumber_underflow : stringToNumber "1e-400" = .fin 0 := by decide!

/-- `Number('0.1')` is the binary64 nearest to one tenth. -/
theorem stringToNumber_tenth :
    stringToNumber "0.1" = .fin (3602879701896397 / 36028797018963968) := by decide!

/-- `Number('9007199254740993')`, halfway between two binary64 values, is the
one with the even significand. -/
theorem stringToNumber_tie :
    stringToNumber "9007199254740993" = .fin 9007199254740992 := by decide!

/-- The greatest binary64 and the least text value that reads as `Infinity`
next to it. -/
theorem stringToNumber_greatest :
    stringToNumber "1.7976931348623157e308" = .fin ((2 ^ 53 - 1) * 2 ^ 971) ∧
    stringToNumber "1.7976931348623159e308" = .posInf ∧
    stringToNumber "-1.7976931348623159e308" = .negInf := by decide!

/-- The least positive binary64, `2 ^ -1074`, and a text value below half of
it. -/
theorem stringToNumber_least :
    stringToNumber "5e-324" = .fin (1 / 2 ^ 1074) ∧
    stringToNumber "2.4e-324" = .fin 0 := by decide!

/-! ## Simulation: what `handleSubmit` sends and leaves -/

namespace Simulation

/-- Whatever `runSimulation` answers, `handleSubmit` calls it once, with the
payload built from the form. -/
theorem handleSubmit_sent {ε ρ : Type} (runSimulation : Payload → Except ε ρ) (s : State ρ) :
    (handleSubmit runSimulation s).sent = [buildPayload s.formData] := by
  unfold handleSubmit
  dsimp only
  split <;> rfl

/-- C1: when the form's startTime is a datetime-local string, a date of
4-2-2 characters, `T`, two characters of hours, `:`, two of minutes, and
anything (such as `:SS`) after them, `handleSubmit` calls `runSimulation`
exactly once, with a payload whose startTime is the five characters `HH:MM`
and whose availableDrivers and maxHoursPerDay are the form's. -/
theorem handleSubmit_sends_hhmm {ε ρ : Type} (runSimulation : Payload → Except ε ρ)
    (s : State ρ) (yyyy mm dd hh mi rest : List Char)
    (hy : yyyy.length = 4) (hm : mm.length = 2) (hd : dd.length = 2)
    (hh2 : hh.length = 2) (hmi : mi.length = 2)
    (hst : s.formData.startTime =
      String.mk (yyyy ++ '-' :: mm ++ '-' :: dd ++ 'T' :: hh ++ ':' :: mi ++ rest)) :
    (handleSubmit runSimulation s).sent =
      [{ availableDrivers := s.formData.availableDrivers
         startTime := String.mk (hh ++ ':' :: mi)
         maxHoursPerDay := s.formData.maxHoursPerDay }] := by
  obtain ⟨a, b, c, d, rfl⟩ : ∃ a b c d, yyyy = [a, b, c, d] := by
    match yyyy, hy with
    | [a, b, c, d], _ => exact ⟨a, b, c, d, rfl⟩
  obtain ⟨m1, m2, rfl⟩ : ∃ a b, mm = [a, b] := by
    match mm, hm with
    | [a, b], _ => exact ⟨a, b, rfl⟩
  obtain ⟨d1, d2, rfl⟩ : ∃ a b, dd = [a, b] := by
    match dd, hd with
    | [a, b], _ => exact ⟨a, b, rfl⟩
  obtain ⟨h1, h2, rfl⟩ : ∃ a b, hh = [a, b] := by
    match hh, hh2 with
    | [a, b], _ => exact ⟨a, b, rfl⟩
  obtain ⟨n1, n2, rfl⟩ : ∃ a b, mi = [a, b] := by
    match mi, hmi with
    | [a, b], _ => exact ⟨a, b, rfl⟩
  have hne : s.formData.startTime ≠ "" := by
    rw [hst]; intro h; simpa using congrArg String.data h
  rw [handleSubmit_sent]
  simp only [buildPayload, if_pos hne]
  rw [hst]
  simp [jsSlice]

/-- C1, at the form `3 drivers, 2025-03-14T09:30, 7.5 hours`. -/
theorem handleSubmit_sends_hhmm_witness :
    (handleSubmit (fun _ => (Except.ok 0 : Except Unit Nat))
        { formData := { availableDrivers := .fin 3, startTime := "2025-03-14T09:30",
                        maxHoursPerDay := .fin (15 / 2) }
          loading := false, result := none, error := none }).sent =
      [{ availableDrivers := .fin 3, startTime := "09:30", maxHoursPerDay := .fin (15 / 2) }] :=
  handleSubmit_sends_hhmm _ _ ['2', '0', '2', '5'] ['0', '3'] ['1', '4'] ['0', '9'] ['3', '0'] []
    rfl rfl rfl rfl rfl rfl

/-- C2, as stated, fails: one change of `availableDrivers` to the text `0`
from the initial form, and `handleSubmit` sends availableDrivers = 0. -/
theorem handleSubmit_sends_zero_drivers :
    (handleSubmit (fun _ => (Except.ok 0 : Except Unit Nat))
        (handleChange (initialState Nat) { name := "availableDrivers", value := "0" })).sent =
      [{ availableDrivers := .fin 0, startTime := "", maxHoursPerDay := .fin 8 }] ∧
    ¬ Payload.inRange { availableDrivers := .fin 0, startTime := "", maxHoursPerDay := .fin 8 } := by
  decide!

/-- A text whose value is above every binary64 is sent as `Infinity`, which is
not an integer, and a text whose value is below half of the least positive
binary64 is sent as 0: `Number` reads neither as a number in range. -/
theorem handleSubmit_sends_rounded :
    (handleSubmit (fun _ => (Except.ok 0 : Except Unit Nat))
        ([{ name := "availableDrivers", value := "1e400" },
          { name := "maxHoursPerDay", value := "1e-400" }].foldl handleChange
            (initialState Nat))).sent =
      [{ availableDrivers := .posInf, startTime := "", maxHoursPerDay := .fin 0 }] ∧
    ¬ (stringToNumber "1e400").isInteger ∧ ¬ (stringToNumber "1e-400").pos := by
  decide!

/-- The form cell after a sequence of `handleChange` events. -/
theorem formData_foldl_handleChange {ρ : Type} (events : List ChangeEvent) (s : State ρ) :
    (events.foldl handleChange s).formData = events.foldl handleChangeForm s.formData := by
  induction events generalizing s with
  | nil => rfl
  | cons e es ih => simp only [List.foldl_cons]; rw [ih]; rfl

/-- The last value entered for a field, read off a sequence of events. -/
theorem lastValue_append (name : String) (es : List ChangeEvent) (e : ChangeEvent) :
    lastValue name (es ++ [e]) = if e.name = name then some e.value else lastValue name es := by
  unfold lastValue
  rw [List.reverse_append, List.reverse_singleton, List.singleton_append, List.find?_cons]
  by_cases h : e.name = name
  · simp [h]
  · simp [h]

/-- After a sequence of `handleChange` events, each numeric field of the form
is `Number` of the last value entered for it, or its initial value. -/
theorem form_after_events (events : List ChangeEvent) (f : FormData) :
    (events.foldl handleChangeForm f).availableDrivers =
        (match lastValue "availableDrivers" events with
          | some v => stringToNumber v
          | none => f.availableDrivers) ∧
      (events.foldl handleChangeForm f).maxHoursPerDay =
        (match lastValue "maxHoursPerDay" events with
          | some v => stringToNumber v
          | none => f.maxHoursPerDay) := by
  induction events using List.reverseRecOn with
  | nil => exact ⟨rfl, rfl⟩
  | append_singleton es e ih =>
    rw [List.foldl_append, List.foldl_cons, List.foldl_nil, lastValue_append, lastValue_append]
    unfold handleChangeForm
    by_cases n1 : e.name = "availableDrivers"
    · have n2 : e.name ≠ "maxHoursPerDay" := by rw [n1]; decide
      rw [if_pos n1, if_pos n1, if_neg n2]
      exact ⟨rfl, ih.2⟩
    · rw [if_neg n1, if_neg n1]
      by_cases n2 : e.name = "maxHoursPerDay"
      · rw [if_pos n2, if_pos n2]
        exact ⟨ih.1, rfl⟩
      · rw [if_neg n2, if_neg n2]
        by_cases n3 : e.name = "startTime"
        · rw [if_pos n3]; exact ih
        · rw [if_neg n3]; exact ih

/-- C2, amended: from the initial state, after any sequence of `handleChange`
events, the payload `handleSubmit` passes to `runSimulation` has
availableDrivers an integer at least 1 and maxHoursPerDay in (0, 24], provided
`Number` reads the last value entered for `availableDrivers`, if any, as an
integer at least 1 and the last value entered for `maxHoursPerDay`, if any, as
a number in (0, 24].  What `Number` reads is the binary64 nearest to the value
of the text: `1e400` reads as `Infinity` and `1e-400` as 0, so neither meets
the proviso. -/
theorem handleSubmit_payload_inRange {ε ρ : Type} (runSimulation : Payload → Except ε ρ)
    (events : List ChangeEvent)
    (hd : ∀ v, lastValue "availableDrivers" events = some v →
      (stringToNumber v).isInteger ∧ (stringToNumber v).ge 1)
    (hm : ∀ v, lastValue "maxHoursPerDay" events = some v →
      (stringToNumber v).pos ∧ (stringToNumber v).le 24) :
    ∀ p ∈ (handleSubmit runSimulation (events.foldl handleChange (initialState ρ))).sent,
      p.inRange := by
  intro p hp
  rw [handleSubmit_sent, List.mem_singleton] at hp
  subst hp
  rw [formData_foldl_handleChange]
  obtain ⟨h1, h2⟩ := form_after_events events (initialState ρ).formData
  show (events.foldl handleChangeForm (initialState ρ).formData).availableDrivers.isInteger ∧
    (events.foldl handleChangeForm (initialState ρ).formData).availableDrivers.ge 1 ∧
    (events.foldl handleChangeForm (initialState ρ).formData).maxHoursPerDay.pos ∧
    (events.foldl handleChangeForm (initialState ρ).formData).maxHoursPerDay.le 24
  rw [h1, h2]
  refine ⟨?_, ?_, ?_, ?_⟩
  · cases hv : lastValue "availableDrivers" events with
    | none => show (JSNum.fin 1).isInteger; decide!
    | some v => exact (hd v hv).1
  · cases hv : lastValue "availableDrivers" events with
    | none => show (JSNum.fin 1).ge 1; decide!
    | some v => exact (hd v hv).2
  · cases hv : lastValue "maxHoursPerDay" events with
    | none => show (JSNum.fin 8).pos; decide!
    | some v => exact (hm v hv).1
  · cases hv : lastValue "maxHoursPerDay" events with
    | none => show (JSNum.fin 8).le 24; decide!
    | some v => exact (hm v hv).2

/-- C2, amended, at the events `availableDrivers := 0`, `availableDrivers := 3`,
`maxHoursPerDay := 7.5`, `startTime := 2025-03-14T09:30`. -/
theorem handleSubmit_payload_inRange_witness :
    (∀ v, lastValue "availableDrivers" witnessEvents = some v →
      (stringToNumber v).isInteger ∧ (stringToNumber v).ge 1) ∧
    (∀ v, lastValue "maxHoursPerDay" witnessEvents = some v →
      (stringToNumber v).pos ∧ (stringToNumber v).le 24) ∧
    ∀ p ∈ (handleSubmit (fun _ => (Except.ok 0 : Except Unit Nat))
        (witnessEvents.foldl handleChange (initialState Nat))).sent, p.inRange :=
  have hd : ∀ v, lastValue "availableDrivers" witnessEvents = some v →
      (stringToNumber v).isInteger ∧ (stringToNumber v).ge 1 := by
    intro v hv
    have h3 : lastValue "availableDrivers" witnessEvents = some "3" := by decide
    rw [h3] at hv
    cases hv
    decide!
  have hm : ∀ v, lastValue "maxHoursPerDay" witnessEvents = some v →
      (stringToNumber v).pos ∧ (stringToNumber v).le 24 := by
    intro v hv
    have h3 : lastValue "maxHoursPerDay" witnessEvents = some "7.5" := by decide
    rw [h3] at hv
    cases hv
    decide!
  ⟨hd, hm, handleSubmit_payload_inRange _ witnessEvents hd hm⟩

/-- C3: after `handleSubmit`, loading is false and the form is as it was; when
`runSimulation` resolved, result is the value it returned and error is null;
when it rejected, result is null and error is the fixed message.  What result
and error held before the run plays no part. -/
theorem handleSubmit_outcome {ε ρ : Type} (runSimulation : Payload → Except ε ρ)
    (s : State ρ) :
    (handleSubmit runSimulation s).state.loading = false ∧
    (handleSubmit runSimulation s).state.formData = s.formData ∧
    (match runSimulation (buildPayload s.formData) with
      | .ok res =>
        (handleSubmit runSimulation s).state.result = some res ∧
          (handleSubmit runSimulation s).state.error = none
      | .error _ =>
        (handleSubmit runSimulation s).state.result = none ∧
          (handleSubmit runSimulation s).state.error =
            some "Failed to run simulation. Try again.") := by
  unfold handleSubmit
  dsimp only
  cases runSimulation (buildPayload s.formData) <;> simp

end Simulation

/-! ## RoutesPage: the payload of `handleSubmit` -/

namespace RoutesPage

/-- Whatever the API answers, `handleSubmit` either rejects the form and calls
nothing, or makes one call carrying the payload built from the form. -/
theorem routes_handleSubmit_calls {ε : Type} (createRoute : Payload → Except ε RouteRecord)
    (updateRoute : JSVal → Payload → Except ε RouteRecord) (s : State) :
    (handleSubmit createRoute updateRoute s).calls =
      if !truthy s.formData.routeId || !truthy s.formData.distanceKm ||
          !truthy s.formData.trafficLevel || !truthy s.formData.baseTimeMin then []
      else if truthy s.editingRouteId then [.updateRoute s.editingRouteId (buildPayload s.formData)]
      else [.createRoute (buildPayload s.formData)] := by
  unfold handleSubmit
  dsimp only
  split
  · rfl
  · split
    · split <;> rfl
    · split <;> rfl

/-- C4, as stated, fails: entering a route id, a distance of `0`, the level
`Low` and a base time of `30` passes the required-field check and
`handleSubmit` sends distanceKm = 0. -/
theorem handleSubmit_sends_zero_distance :
    (handleSubmit (fun _ => (Except.error () : Except Unit RouteRecord))
        (fun _ _ => Except.error ())
        ([Step.change { name := "routeId", value := "R1", type := "text", checked := false },
          Step.change { name := "distanceKm", value := "0", type := "number", checked := false },
          Step.change { name := "trafficLevel", value := "Low", type := "select-one",
                        checked := false },
          Step.change { name := "baseTimeMin", value := "30", type := "number",
                        checked := false }].foldl step initialState)).calls =
      [.createRoute { routeId := .str "R1", distanceKm := .fin 0, trafficLevel := .str "Low",
                      baseTimeMin := .fin 30, isActive := .bool true }] ∧
    ¬ Payload.valid { routeId := .str "R1", distanceKm := .fin 0, trafficLevel := .str "Low",
                      baseTimeMin := .fin 30, isActive := .bool true } := by
  decide!

/-- A distance whose text has a value below half of the least positive
binary64 is sent as 0: `Number` does not read such a text as a positive number,
and the step that enters it is not enterable. -/
theorem handleSubmit_sends_rounded_distance :
    (handleSubmit (fun _ => (Except.error () : Except Unit RouteRecord))
        (fun _ _ => Except.error ())
        ([Step.change { name := "routeId", value := "R1", type := "text", checked := false },
          Step.change { name := "distanceKm", value := "1e-400", type := "number",
                        checked := false },
          Step.change { name := "trafficLevel", value := "Low", type := "select-one",
                        checked := false },
          Step.change { name := "baseTimeMin", value := "30", type := "number",
                        checked := false }].foldl step initialState)).calls =
      [.createRoute { routeId := .str "R1", distanceKm := .fin 0, trafficLevel := .str "Low",
                      baseTimeMin := .fin 30, isActive := .bool true }] ∧
    ¬ (Step.change { name := "distanceKm", value := "1e-400", type := "number",
                     checked := false }).enterable := by
  decide!

/-- An input event that enters a blank or valid value keeps the form
enterable. -/
theorem enterable_handleInputChangeForm (f : FormData) (e : InputEvent) (hf : f.enterable)
    (he : (Step.change e).enterable) : (handleInputChangeForm f e).enterable := by
  obtain ⟨hnum, hlev⟩ := he
  unfold handleInputChangeForm
  dsimp only
  obtain ⟨h1, h2, h3⟩ := hf
  by_cases n1 : e.name = "routeId"
  · rw [if_pos n1]; exact ⟨h1, h2, h3⟩
  rw [if_neg n1]
  by_cases n2 : e.name = "distanceKm"
  · rw [if_pos n2]; exact ⟨hnum (Or.inl n2), h2, h3⟩
  rw [if_neg n2]
  by_cases n3 : e.name = "trafficLevel"
  · rw [if_pos n3]; exact ⟨h1, h2, hlev n3⟩
  rw [if_neg n3]
  by_cases n4 : e.name = "baseTimeMin"
  · rw [if_pos n4]; exact ⟨h1, hnum (Or.inr n4), h3⟩
  rw [if_neg n4]
  by_cases n5 : e.name = "isActive"
  · rw [if_pos n5]; exact ⟨h1, h2, h3⟩
  · rw [if_neg n5]; exact ⟨h1, h2, h3⟩

/-- Steps that enter blank or valid values keep the form enterable. -/
theorem enterable_foldl_step (steps : List Step) (s : State) (hs : s.formData.enterable)
    (h : ∀ st ∈ steps, st.enterable) : (run s steps).formData.enterable := by
  unfold run
  induction steps generalizing s with
  | nil => exact hs
  | cons st rest ih =>
    rw [List.foldl_cons]
    apply ih
    · have hst := h st (List.mem_cons_self _ _)
      cases st with
      | change e => exact enterable_handleInputChangeForm _ _ hs hst
      | edit route => exact hst
    · intro st2 h2
      exact h st2 (List.mem_cons_of_mem _ h2)

/-- The payload of an enterable form that passes the required-field check
satisfies the Route invariants. -/
theorem valid_of_enterable (f : FormData) (hf : f.enterable)
    (hd : truthy f.distanceKm = true) (ht : truthy f.trafficLevel = true)
    (hb : truthy f.baseTimeMin = true) : (buildPayload f).valid := by
  obtain ⟨h1, h2, h3⟩ := hf
  refine ⟨?_, ?_, ?_⟩
  · rcases h1 with h | h
    · rw [hd] at h; cases h
    · exact h
  · rcases h2 with h | h
    · rw [hb] at h; cases h
    · exact h
  · rcases h3 with h | h
    · rw [ht] at h; cases h
    · exact h

/-- C4, amended: every route payload that `handleSubmit` passes to
`createRoute` or `updateRoute` satisfies the Route invariants (distanceKm > 0,
baseTimeMin > 0, trafficLevel one of Low, Medium, High) when the form was
reached from the initial or reset form through `handleInputChange` events whose
value is blank or is read by `Number` as a positive number (for distanceKm and
baseTimeMin) and is blank or one of the three levels (for trafficLevel), and
through `handleEdit` of records from which such values are loaded.  What
`Number` reads is the binary64 nearest to the value of the text: `1e-400` reads
as 0, so it is not such a value. -/
theorem handleSubmit_payload_valid {ε : Type} (createRoute : Payload → Except ε RouteRecord)
    (updateRoute : JSVal → Payload → Except ε RouteRecord) (s0 : State) (steps : List Step)
    (h0 : s0.formData = emptyForm) (h : ∀ st ∈ steps, st.enterable) :
    ∀ c ∈ (handleSubmit createRoute updateRoute (run s0 steps)).calls, c.payload.valid := by
  have hf : (run s0 steps).formData.enterable :=
    enterable_foldl_step steps s0 (by rw [h0]; decide) h
  intro c hc
  rw [routes_handleSubmit_calls] at hc
  split at hc
  · cases hc
  · rename_i hg
    simp only [Bool.or_eq_true, Bool.not_eq_true', not_or, Bool.not_eq_false] at hg
    obtain ⟨⟨⟨_, hd⟩, ht⟩, hb⟩ := hg
    have hv := valid_of_enterable _ hf hd ht hb
    split at hc
    · rw [List.mem_singleton] at hc; subst hc; exact hv
    · rw [List.mem_singleton] at hc; subst hc; exact hv

/-- C4, amended, at the sample steps: the hypotheses hold and the one call
made, an update, carries a valid payload. -/
theorem handleSubmit_payload_valid_witness :
    (initialState.formData = emptyForm ∧ ∀ st ∈ witnessSteps, st.enterable) ∧
    (handleSubmit witnessApi (fun _ => witnessApi) (run initialState witnessSteps)).calls ≠ [] ∧
    ∀ c ∈ (handleSubmit witnessApi (fun _ => witnessApi) (run initialState witnessSteps)).calls,
      c.payload.valid :=
  ⟨⟨rfl, by decide!⟩, by decide!,
    handleSubmit_payload_valid witnessApi (fun _ => witnessApi) initialState witnessSteps rfl
      (by decide!)⟩

end RoutesPage

/-! ## Drivers: the payloads of `handleSubmit` and `handleCSVImport` -/

namespace Drivers

/-- Whatever the API answers, `handleSubmit` makes no call (the name is blank
or `trim` throws) or one call carrying the payload built from the form. -/
theorem drivers_handleSubmit_calls {ε : Type} (createDriver : Payload → Except ε DriverRecord)
    (updateDriver : JSVal → Payload → Except ε DriverRecord) (s : State) :
    (handleSubmit createDriver updateDriver s).calls =
      match callTrim s.formData.name with
      | none => []
      | some trimmed =>
        if trimmed = "" then []
        else if truthy s.editingDriverId then
          [.updateDriver s.editingDriverId (buildPayload s.formData trimmed)]
        else [.createDriver (buildPayload s.formData trimmed)] := by
  unfold handleSubmit
  cases callTrim s.formData.name with
  | none => rfl
  | some trimmed =>
    dsimp only
    split
    · rfl
    · split
      · split <;> rfl
      · split <;> rfl

/-- Every call of the import loop was made before, or is a `createDriver` with
the payload of one of the rows. -/
theorem importRows_calls {ε : Type} (createDriver : Nat → Payload → Except ε DriverRecord)
    (rows : List CsvRow) (calls : List ApiCall) (drivers : List DriverRecord) :
    ∀ c ∈ (importRows createDriver rows calls drivers).calls,
      c ∈ calls ∨ ∃ row ∈ rows, ∃ p, csvPayload row = some p ∧ c = .createDriver p := by
  induction rows generalizing calls drivers with
  | nil => intro c hc; exact Or.inl hc
  | cons row rest ih =>
    intro c hc
    unfold importRows at hc
    cases hp : csvPayload row with
    | none => rw [hp] at hc; exact Or.inl hc
    | some p =>
      rw [hp] at hc
      dsimp only at hc
      have hnew : ∀ c, c ∈ calls ++ [ApiCall.createDriver p] →
          c ∈ calls ∨ ∃ r ∈ row :: rest, ∃ q, csvPayload r = some q ∧ c = .createDriver q := by
        intro c hc
        rcases List.mem_append.mp hc with h | h
        · exact Or.inl h
        · rw [List.mem_singleton] at h
          exact Or.inr ⟨row, List.mem_cons_self _ _, p, hp, h⟩
      have hrest : ∀ c, (∃ r ∈ rest, ∃ q, csvPayload r = some q ∧ c = ApiCall.createDriver q) →
          ∃ r ∈ row :: rest, ∃ q, csvPayload r = some q ∧ c = .createDriver q := by
        rintro c ⟨r, hr, q, hq, hcq⟩
        exact ⟨r, List.mem_cons_of_mem _ hr, q, hq, hcq⟩
      split at hc
      · split at hc
        · rcases ih _ _ c hc with h | h
          · exact hnew c h
          · exact Or.inr (hrest c h)
        · exact hnew c hc
      · rcases ih _ _ c hc with h | h
        · exact Or.inl h
        · exact Or.inr (hrest c h)

/-- The hours of the payload built for a CSV row: seven zeros, and for the
current shift `Number` of the column, or 0 when that is `NaN` or 0. -/
theorem csvPayload_hours (row : CsvRow) (p : Payload) (h : csvPayload row = some p) :
    p.pastWeekHours = List.replicate 7 (.fin 0) ∧
      p.currentShiftHours = numOr (toNumber row.currentShiftHours) (.fin 0) := by
  unfold csvPayload at h
  dsimp only at h
  split at h
  · cases h; exact ⟨rfl, rfl⟩
  · cases h

/-- The element write of `handleInputChange` at an index inside the array. -/
theorem arraySet_natCast (arr : List JSVal) (k : ℕ) (v : JSVal) (hk : k < arr.length)
    (hb : k < 2 ^ 32 - 1) : arraySet arr (.fin (k : ℚ)) v = arr.set k v := by
  unfold arraySet
  have h1 : ((k : ℚ)).den = 1 := Rat.den_natCast k
  have h2 : ((k : ℚ)).num = (k : ℤ) := Rat.num_natCast k
  have h3 : ¬ 4294967295 ≤ k := by
    have : (2 : ℕ) ^ 32 - 1 = 4294967295 := by norm_num
    omega
  simp [h1, h2, h3, hk]

/-- The index the name of one of the seven inputs denotes. -/
theorem dayInputs_index (name : String) (h : name ∈ dayInputs) :
    jsStartsWith name "pastWeekHours" = true ∧
      ∃ k : ℕ, k < 7 ∧ stringToNumber (jsSliceLast name) = .fin (k : ℚ) := by
  simp only [dayInputs, List.mem_cons, List.mem_singleton, List.not_mem_nil, or_false] at h
  rcases h with h | h | h | h | h | h | h <;> subst h
  · exact ⟨by decide, 0, by decide, by decide!⟩
  · exact ⟨by decide, 1, by decide, by decide!⟩
  · exact ⟨by decide, 2, by decide, by decide!⟩
  · exact ⟨by decide, 3, by decide, by decide!⟩
  · exact ⟨by decide, 4, by decide, by decide!⟩
  · exact ⟨by decide, 5, by decide, by decide!⟩
  · exact ⟨by decide, 6, by decide, by decide!⟩

/-- A step that keeps a week of seven days keeps the seven entries of the
form. -/
theorem length_step (s : State) (st : Step) (hs : s.formData.pastWeekHours.length = 7)
    (h : st.keepsWeek) : (step s st).formData.pastWeekHours.length = 7 := by
  cases st with
  | change e =>
    show (handleInputChangeForm s.formData e).pastWeekHours.length = 7
    unfold handleInputChangeForm
    by_cases hp : jsStartsWith e.name "pastWeekHours" = true
    · rw [if_pos hp]
      obtain ⟨_, k, hk, hidx⟩ := dayInputs_index e.name (h hp)
      dsimp only
      rw [hidx, arraySet_natCast _ k _ (by omega) (by omega), List.length_set]
      exact hs
    · rw [if_neg hp]
      dsimp only
      split
      · exact hs
      · split
        · exact hs
        · split <;> exact hs
  | edit driver =>
    show (editForm driver).pastWeekHours.length = 7
    unfold editForm
    dsimp only
    have h2 : (driver.pastWeekHours.map List.length).getD 7 = 7 := h
    cases hd : driver.pastWeekHours with
    | none => rfl
    | some hours => rw [hd] at h2; simpa using h2

/-- Steps that keep a week of seven days keep the seven entries of the form. -/
theorem length_foldl_step (steps : List Step) (s : State)
    (hs : s.formData.pastWeekHours.length = 7) (h : ∀ st ∈ steps, st.keepsWeek) :
    (run s steps).formData.pastWeekHours.length = 7 := by
  unfold run
  induction steps generalizing s with
  | nil => exact hs
  | cons st rest ih =>
    rw [List.foldl_cons]
    exact ih _ (length_step s st hs (h st (List.mem_cons_self _ _)))
      (fun st2 h2 => h st2 (List.mem_cons_of_mem _ h2))

/-- A step that keeps the week and enters hours that are not negative keeps
the hours of the form not negative. -/
theorem hoursNonNeg_step (s : State) (st : Step) (hl : s.formData.pastWeekHours.length = 7)
    (hs : s.formData.hoursNonNeg) (hw : st.keepsWeek) (h : st.hoursNonNeg) :
    (step s st).formData.hoursNonNeg := by
  cases st with
  | change e =>
    show (handleInputChangeForm s.formData e).hoursNonNeg
    obtain ⟨h1, h2⟩ := h
    unfold handleInputChangeForm
    by_cases hp : jsStartsWith e.name "pastWeekHours" = true
    · rw [if_pos hp]
      obtain ⟨_, k, hk, hidx⟩ := dayInputs_index e.name (hw hp)
      dsimp only
      rw [hidx, arraySet_natCast _ k _ (by omega) (by omega)]
      refine ⟨hs.1, ?_⟩
      intro x hx
      rcases List.mem_or_eq_of_mem_set hx with hx | hx
      · exact hs.2 x hx
      · subst hx; exact h1 hp
    · rw [if_neg hp]
      dsimp only
      split
      · exact hs
      · split
        · rename_i hn
          exact ⟨h2 hn, hs.2⟩
        · split <;> exact hs
  | edit driver => exact h

/-- Steps that keep the week and enter hours that are not negative keep the
hours of the form not negative. -/
theorem hoursNonNeg_foldl_step (steps : List Step) (s : State)
    (hl : s.formData.pastWeekHours.length = 7) (hs : s.formData.hoursNonNeg)
    (h : ∀ st ∈ steps, st.keepsWeek ∧ st.hoursNonNeg) :
    (run s steps).formData.hoursNonNeg := by
  unfold run
  induction steps generalizing s with
  | nil => exact hs
  | cons st rest ih =>
    rw [List.foldl_cons]
    have hst := h st (List.mem_cons_self _ _)
    exact ih _ (length_step s st hl hst.1) (hoursNonNeg_step s st hl hs hst.1 hst.2)
      (fun st2 h2 => h st2 (List.mem_cons_of_mem _ h2))

/-- Every call of `handleSubmit` carries a payload built from the form. -/
theorem drivers_handleSubmit_payload {ε : Type} (createDriver : Payload → Except ε DriverRecord)
    (updateDriver : JSVal → Payload → Except ε DriverRecord) (s : State) :
    ∀ c ∈ (handleSubmit createDriver updateDriver s).calls,
      ∃ trimmed, c.payload = buildPayload s.formData trimmed := by
  intro c hc
  rw [drivers_handleSubmit_calls] at hc
  split at hc
  · cases hc
  · rename_i trimmed _
    split at hc
    · cases hc
    · split at hc <;>
        (rw [List.mem_singleton] at hc; subst hc; exact ⟨trimmed, rfl⟩)

/-- C5, as stated, fails: importing the CSV row `Asha,-5,true` sends a driver
with currentShiftHours = -5. -/
theorem handleCSVImport_sends_negative_hours :
    (handleCSVImport witnessStoringApi
        [{ name := .str "Asha", currentShiftHours := .str "-5", isActive := .str "true" }]
        initialState).calls =
      [.createDriver { name := .str "Asha", currentShiftHours := .fin (-5),
                       pastWeekHours := List.replicate 7 (.fin 0), isActive := .bool true }] ∧
    ¬ Payload.hoursNonNeg { name := .str "Asha", currentShiftHours := .fin (-5),
                            pastWeekHours := List.replicate 7 (.fin 0), isActive := .bool true } := by
  decide!

/-- C5, amended: every payload `handleCSVImport` sends has currentShiftHours
and all of pastWeekHours at least 0 when the rows' currentShiftHours are
missing, not numeric, or numbers that are not negative, and a missing or
non-numeric currentShiftHours becomes 0; every payload `handleSubmit` sends has
currentShiftHours and all of pastWeekHours at least 0 when the form was reached
from the initial or reset form through `handleInputChange` events of the seven
day inputs and the other inputs whose hours read as numbers that are not
negative, and through `handleEdit` of drivers with no or seven pastWeekHours
from which such hours are loaded. -/
theorem payload_hoursNonNeg {ε : Type} (importDriver : Nat → Payload → Except ε DriverRecord)
    (createDriver : Payload → Except ε DriverRecord)
    (updateDriver : JSVal → Payload → Except ε DriverRecord) (rows : List CsvRow)
    (s s0 : State) (steps : List Step)
    (hrows : ∀ row ∈ rows, row.hoursNonNeg) (h0 : s0.formData = emptyForm)
    (hsteps : ∀ st ∈ steps, st.keepsWeek ∧ st.hoursNonNeg) :
    (∀ c ∈ (handleCSVImport importDriver rows s).calls, c.payload.hoursNonNeg) ∧
    (∀ row ∈ rows, ∀ p, csvPayload row = some p →
      toNumber row.currentShiftHours = .nan → p.currentShiftHours = .fin 0) ∧
    (∀ c ∈ (handleSubmit createDriver updateDriver (run s0 steps)).calls,
      c.payload.hoursNonNeg) := by
  refine ⟨?_, ?_, ?_⟩
  · intro c hc
    rcases importRows_calls importDriver rows [] s.drivers c hc with h | ⟨row, hrow, p, hp, hcp⟩
    · cases h
    · subst hcp
      obtain ⟨hw, hcur⟩ := csvPayload_hours row p hp
      show p.currentShiftHours.nonNeg ∧ ∀ h ∈ p.pastWeekHours, h.nonNeg
      rw [hw, hcur]
      constructor
      · unfold numOr
        split
        · rename_i ht
          rcases hrows row hrow with hn | hn
          · rw [hn] at ht; cases ht
          · exact hn
        · decide!
      · intro h hh
        rw [(List.mem_replicate.mp hh).2]
        decide!
  · intro row _ p hp hnan
    rw [(csvPayload_hours row p hp).2, hnan]
    rfl
  · intro c hc
    obtain ⟨trimmed, hp⟩ := drivers_handleSubmit_payload createDriver updateDriver _ c hc
    have hl0 : s0.formData.pastWeekHours.length = 7 := by rw [h0]; rfl
    have hn0 : s0.formData.hoursNonNeg := by rw [h0]; decide!
    have hf := hoursNonNeg_foldl_step steps s0 hl0 hn0 hsteps
    rw [hp]
    refine ⟨hf.1, ?_⟩
    intro h hh
    obtain ⟨x, hx, rfl⟩ := List.mem_map.mp hh
    exact hf.2 x hx

/-- C5, amended, at the sample rows and the sample steps. -/
theorem payload_hoursNonNeg_witness :
    ((∀ row ∈ witnessRows, row.hoursNonNeg) ∧ initialState.formData = emptyForm ∧
      ∀ st ∈ witnessSteps, st.keepsWeek ∧ st.hoursNonNeg) ∧
    ((∀ c ∈ (handleCSVImport witnessStoringApi witnessRows initialState).calls,
        c.payload.hoursNonNeg) ∧
      (∀ row ∈ witnessRows, ∀ p, csvPayload row = some p →
        toNumber row.currentShiftHours = .nan → p.currentShiftHours = .fin 0) ∧
      (∀ c ∈ (handleSubmit witnessApi (fun _ => witnessApi)
          (run initialState witnessSteps)).calls, c.payload.hoursNonNeg)) :=
  ⟨⟨by decide!, rfl, by decide!⟩,
    payload_hoursNonNeg witnessStoringApi witnessApi (fun _ => witnessApi) witnessRows
      initialState initialState witnessSteps (by decide!) rfl (by decide!)⟩

/-- C6: every payload `handleCSVImport` sends has seven zeros for
pastWeekHours, and every payload `handleSubmit` sends has seven entries when
the form was reached from the initial or reset form through
`handleInputChange` events that, when named `pastWeekHours...`, come from the
inputs `pastWeekHours0` to `pastWeekHours6`, and through `handleEdit` of
drivers whose pastWeekHours is absent or has seven entries. -/
theorem payload_week_length {ε : Type} (importDriver : Nat → Payload → Except ε DriverRecord)
    (createDriver : Payload → Except ε DriverRecord)
    (updateDriver : JSVal → Payload → Except ε DriverRecord) (rows : List CsvRow)
    (s s0 : State) (steps : List Step)
    (h0 : s0.formData = emptyForm) (hsteps : ∀ st ∈ steps, st.keepsWeek) :
    (∀ c ∈ (handleCSVImport importDriver rows s).calls,
      c.payload.pastWeekHours = List.replicate 7 (.fin 0)) ∧
    (∀ c ∈ (handleSubmit createDriver updateDriver (run s0 steps)).calls,
      c.payload.pastWeekHours.length = 7) := by
  constructor
  · intro c hc
    rcases importRows_calls importDriver rows [] s.drivers c hc with h | ⟨row, _, p, hp, hcp⟩
    · cases h
    · subst hcp
      exact (csvPayload_hours row p hp).1
  · intro c hc
    obtain ⟨trimmed, hp⟩ := drivers_handleSubmit_payload createDriver updateDriver _ c hc
    have hl0 : s0.formData.pastWeekHours.length = 7 := by rw [h0]; rfl
    rw [hp]
    show ((run s0 steps).formData.pastWeekHours.map toNumber).length = 7
    rw [List.length_map]
    exact length_foldl_step steps s0 hl0 hsteps

/-- C6, at the sample rows and the sample steps. -/
theorem payload_week_length_witness :
    (initialState.formData = emptyForm ∧ ∀ st ∈ witnessSteps, st.keepsWeek) ∧
    ((∀ c ∈ (handleCSVImport witnessStoringApi witnessRows initialState).calls,
        c.payload.pastWeekHours = List.replicate 7 (.fin 0)) ∧
      (∀ c ∈ (handleSubmit witnessApi (fun _ => witnessApi)
          (run initialState witnessSteps)).calls,
        c.payload.pastWeekHours.length = 7)) :=
  ⟨⟨rfl, by decide!⟩,
    payload_week_length witnessStoringApi witnessApi (fun _ => witnessApi) witnessRows
      initialState initialState witnessSteps rfl (by decide!)⟩

/-- C10: the code at a driver stored under the legacy name only and inactive
(`isActive` undefined, `is_active` false): the table shows `Inactive`, and
`handleEdit` loads isActive = true into the form. -/
theorem handleEdit_loads_active_for_inactive :
    statusCell { _id := .str "64f0c0ffee", name := .str "Kiran", currentShiftHours := .undefined,
                 shift_hours := .num (.fin 4), pastWeekHours := none, isActive := .undefined,
                 is_active := .bool false } = "Inactive" ∧
    (handleEdit initialState
        { _id := .str "64f0c0ffee", name := .str "Kiran", currentShiftHours := .undefined,
          shift_hours := .num (.fin 4), pastWeekHours := none, isActive := .undefined,
          is_active := .bool false }).formData.isActive = .bool true := by
  decide!

/-- The status `handleEdit` loads agrees with the status the table shows
exactly for the drivers whose `isActive` is defined or whose `is_active` is
truthy. -/
theorem editForm_isActive_agrees_iff (driver : DriverRecord) :
    truthy (editForm driver).isActive = truthy (statusValue driver) ↔
      (driver.isActive ≠ .undefined ∨ truthy driver.is_active = true) := by
  unfold editForm statusValue
  dsimp only
  by_cases h : driver.isActive = .undefined
  · simp only [h, ne_eq, not_true_eq_false, if_false, false_or]
    unfold jsOr
    cases ht : truthy driver.is_active
    · simp [truthy]
    · simp [ht]
  · simp [h]

end Drivers

/-! ## Orders: the required fields and the payload of `handleSubmit` -/

namespace Orders

/-- A string is the empty string or truthy. -/
theorem blankOrTruthy_str (v : String) : blankOrTruthy (.str v) := by
  by_cases h : v = ""
  · exact Or.inl (by rw [h])
  · exact Or.inr (by simp [truthy, h])

/-- The value `x || ""` is the empty string or truthy. -/
theorem blankOrTruthy_jsOr (x : JSVal) : blankOrTruthy (jsOr x (.str "")) := by
  unfold jsOr
  by_cases h : truthy x = true
  · rw [if_pos h]; exact Or.inr h
  · rw [if_neg h]; exact Or.inl rfl

/-- A form value that is the empty string or truthy is falsy exactly when it
is the empty string. -/
theorem truthy_eq_false_iff (v : JSVal) (h : blankOrTruthy v) :
    truthy v = false ↔ v = .str "" := by
  constructor
  · intro hf
    rcases h with h | h
    · exact h
    · rw [hf] at h; cases h
  · intro hv; rw [hv]; rfl

/-- Every step keeps every field of the form the empty string or truthy. -/
theorem tidy_step (b : Builtins) (s : State) (st : Step) (hs : s.formData.tidy) :
    (step b s st).formData.tidy := by
  obtain ⟨h1, h2, h3, h4, h5, h6⟩ := hs
  cases st with
  | change e =>
    show (handleInputChangeForm s.formData e).tidy
    unfold handleInputChangeForm
    have hv := blankOrTruthy_str e.value
    split
    · exact ⟨hv, h2, h3, h4, h5, h6⟩
    · split
      · exact ⟨h1, hv, h3, h4, h5, h6⟩
      · split
        · exact ⟨h1, h2, hv, h4, h5, h6⟩
        · split
          · exact ⟨h1, h2, h3, hv, h5, h6⟩
          · split
            · exact ⟨h1, h2, h3, h4, hv, h6⟩
            · split
              · exact ⟨h1, h2, h3, h4, h5, hv⟩
              · exact ⟨h1, h2, h3, h4, h5, h6⟩
  | edit order =>
    show (handleEdit b s order).formData.tidy
    unfold handleEdit
    cases hf : editForm b order with
    | none => exact ⟨h1, h2, h3, h4, h5, h6⟩
    | some form =>
      dsimp only
      unfold editForm at hf
      dsimp only at hf
      split at hf
      · rename_i dt hdt
        cases hf
        refine ⟨blankOrTruthy_jsOr _, blankOrTruthy_jsOr _, blankOrTruthy_jsOr _, ?_,
          blankOrTruthy_jsOr _, blankOrTruthy_jsOr _⟩
        split at hdt
        · split at hdt
          · cases hdt; exact blankOrTruthy_str _
          · cases hdt
        · cases hdt; exact blankOrTruthy_str _
      · cases hf

/-- In every form reached from the initial state, every field is the empty
string or truthy. -/
theorem tidy_foldl_step (b : Builtins) (steps : List Step) (s : State) (hs : s.formData.tidy) :
    (run b s steps).formData.tidy := by
  unfold run
  induction steps generalizing s with
  | nil => exact hs
  | cons st rest ih =>
    rw [List.foldl_cons]
    exact ih _ (tidy_step b s st hs)

/-- Whatever the API answers, `handleSubmit` either rejects the form and calls
nothing, or makes one call carrying the payload built from the form. -/
theorem orders_handleSubmit_calls {ε : Type} (createOrder : Payload → Except ε OrderRecord)
    (updateOrder : JSVal → Payload → Except ε OrderRecord) (s : State) :
    (handleSubmit createOrder updateOrder s).calls =
      if !truthy s.formData.order_id || !truthy s.formData.value_rs ||
          !truthy s.formData.route_id then []
      else if truthy s.editingOrderId then [.updateOrder s.editingOrderId (buildPayload s.formData)]
      else [.createOrder (buildPayload s.formData)] := by
  unfold handleSubmit
  dsimp only
  split
  · rfl
  · split
    · split <;> rfl
    · split <;> rfl

/-- The required-field check of `handleSubmit` on a tidy form. -/
theorem guard_iff_incomplete (f : FormData) (hf : f.tidy) :
    (!truthy f.order_id || !truthy f.value_rs || !truthy f.route_id) = true ↔ f.incomplete := by
  obtain ⟨h1, h2, h3, _, _, _⟩ := hf
  simp only [Bool.or_eq_true, Bool.not_eq_true', truthy_eq_false_iff _ h1,
    truthy_eq_false_iff _ h2, truthy_eq_false_iff _ h3, FormData.incomplete, or_assoc]

/-- In every state reached from the initial or reset form, every field of the
form is the empty string or truthy. -/
theorem tidy_run (b : Builtins) (s0 : State) (steps : List Step) (h0 : s0.formData = emptyForm) :
    (run b s0 steps).formData.tidy :=
  tidy_foldl_step b steps s0 (by rw [h0]; decide)

/-- C7: in every state reached from the initial or reset form through
`handleInputChange` and `handleEdit`,
`handleSubmit` rejects the form exactly when order_id, value_rs or route_id is
the empty string.  It then makes no call and changes nothing but formError,
set to the required-fields message, and formLoading, set to false.  In every
other case (a value_rs of `0` is one) it makes exactly one call, `updateOrder`
when an order is being edited and `createOrder` otherwise, with the payload
built from the form, and formError is not the required-fields message. -/
theorem handleSubmit_rejects_iff_incomplete {ε : Type}
    (createOrder : Payload → Except ε OrderRecord)
    (updateOrder : JSVal → Payload → Except ε OrderRecord) (b : Builtins) (s0 : State)
    (steps : List Step) (h0 : s0.formData = emptyForm) :
    ((run b s0 steps).formData.incomplete →
      (handleSubmit createOrder updateOrder (run b s0 steps)).calls = [] ∧
      (handleSubmit createOrder updateOrder (run b s0 steps)).state =
        { run b s0 steps with
          formError := some "Order ID, Value, and Route ID are required."
          formLoading := false }) ∧
    (¬ (run b s0 steps).formData.incomplete →
      (handleSubmit createOrder updateOrder (run b s0 steps)).calls =
        [if truthy (run b s0 steps).editingOrderId then
           .updateOrder (run b s0 steps).editingOrderId (buildPayload (run b s0 steps).formData)
         else .createOrder (buildPayload (run b s0 steps).formData)] ∧
      (handleSubmit createOrder updateOrder (run b s0 steps)).state.formError ≠
        some "Order ID, Value, and Route ID are required.") := by
  have hg := guard_iff_incomplete _ (tidy_run b s0 steps h0)
  constructor
  · intro hinc
    have hgt := hg.mpr hinc
    unfold handleSubmit
    rw [if_pos hgt]
    exact ⟨rfl, rfl⟩
  · intro hinc
    have hgf : ¬ ((!truthy (run b s0 steps).formData.order_id ||
        !truthy (run b s0 steps).formData.value_rs ||
        !truthy (run b s0 steps).formData.route_id) = true) := fun h => hinc (hg.mp h)
    constructor
    · rw [orders_handleSubmit_calls, if_neg hgf]
      split <;> rfl
    · unfold handleSubmit
      rw [if_neg hgf]
      dsimp only
      split
      · split
        · simp [submitDone]
        · simp only [submitFailed]
          split <;> decide
      · split
        · simp [submitDone]
        · simp only [submitFailed]
          split <;> decide

/-- C7, at the sample steps that leave the value blank: the form is
incomplete, no call is made and formError is the required-fields message. -/
theorem handleSubmit_rejects_iff_incomplete_witness :
    initialState.formData = emptyForm ∧
    (run witnessBuiltins initialState witnessBlankValue).formData.incomplete ∧
    (handleSubmit witnessApi (fun _ => witnessApi)
      (run witnessBuiltins initialState witnessBlankValue)).calls = [] ∧
    (handleSubmit witnessApi (fun _ => witnessApi)
      (run witnessBuiltins initialState witnessBlankValue)).state =
        { run witnessBuiltins initialState witnessBlankValue with
          formError := some "Order ID, Value, and Route ID are required."
          formLoading := false } :=
  ⟨rfl, by decide!,
    (handleSubmit_rejects_iff_incomplete witnessApi (fun _ => witnessApi) witnessBuiltins
      initialState witnessBlankValue rfl).1 (by decide!)⟩

/-- The form with the three required fields filled in and a value of `0` is
sent: `handleSubmit` calls `createOrder` with valueRs = 0. -/
theorem handleSubmit_sends_zero_value :
    (handleSubmit witnessApi (fun _ => witnessApi)
        (run witnessBuiltins initialState
          [.change { name := "order_id", value := "ORD-9" },
           .change { name := "value_rs", value := "0" },
           .change { name := "route_id", value := "R1" }])).calls =
      [.createOrder { orderId := .str "ORD-9", valueRs := .fin 0, routeId := .str "R1",
                      deliveryTime := .null, assignedDriverId := .null,
                      simulationId := .null }] := by
  decide!

/-- C8, as stated, fails: entering an order id, a value of `-5` and a route id
passes the required-field check and `handleSubmit` sends valueRs = -5. -/
theorem handleSubmit_sends_negative_value :
    (handleSubmit witnessApi (fun _ => witnessApi)
        (run witnessBuiltins initialState
          [.change { name := "order_id", value := "ORD-9" },
           .change { name := "value_rs", value := "-5" },
           .change { name := "route_id", value := "R1" }])).calls =
      [.createOrder { orderId := .str "ORD-9", valueRs := .fin (-5), routeId := .str "R1",
                      deliveryTime := .null, assignedDriverId := .null,
                      simulationId := .null }] ∧
    ¬ (JSNum.fin (-5)).nonNeg := by
  decide!

/-- A step that enters a value that is not negative keeps `Number` of the
form's value_rs not negative. -/
theorem valueNonNeg_step (b : Builtins) (s : State) (st : Step)
    (hs : (toNumber s.formData.value_rs).nonNeg) (h : st.valueNonNeg b) :
    (toNumber (step b s st).formData.value_rs).nonNeg := by
  cases st with
  | change e =>
    show (toNumber (handleInputChangeForm s.formData e).value_rs).nonNeg
    unfold handleInputChangeForm
    split
    · exact hs
    · split
      · rename_i hn
        exact h hn
      · split
        · exact hs
        · split
          · exact hs
          · split
            · exact hs
            · split <;> exact hs
  | edit order =>
    show (toNumber (handleEdit b s order).formData.value_rs).nonNeg
    unfold handleEdit
    cases hf : editForm b order with
    | none => exact hs
    | some form =>
      dsimp only
      unfold editForm at hf
      dsimp only at hf
      split at hf
      · cases hf; exact h
      · cases hf

/-- Steps that enter values that are not negative keep `Number` of the form's
value_rs not negative. -/
theorem valueNonNeg_foldl_step (b : Builtins) (steps : List Step) (s : State)
    (hs : (toNumber s.formData.value_rs).nonNeg) (h : ∀ st ∈ steps, st.valueNonNeg b) :
    (toNumber (run b s steps).formData.value_rs).nonNeg := by
  unfold run
  induction steps generalizing s with
  | nil => exact hs
  | cons st rest ih =>
    rw [List.foldl_cons]
    exact ih _ (valueNonNeg_step b s st hs (h st (List.mem_cons_self _ _)))
      (fun st2 h2 => h st2 (List.mem_cons_of_mem _ h2))

/-- Every call of `handleSubmit` carries the payload built from the form. -/
theorem orders_handleSubmit_payload {ε : Type} (createOrder : Payload → Except ε OrderRecord)
    (updateOrder : JSVal → Payload → Except ε OrderRecord) (s : State) :
    ∀ c ∈ (handleSubmit createOrder updateOrder s).calls, c.payload = buildPayload s.formData := by
  intro c hc
  rw [orders_handleSubmit_calls] at hc
  split at hc
  · cases hc
  · split at hc <;> (rw [List.mem_singleton] at hc; subst hc; rfl)

/-- C8, amended: every order payload that `handleSubmit` passes to
`createOrder` or `updateOrder` has valueRs at least 0 when the form was reached
from the initial or reset form through `handleInputChange` events whose value_rs values
read as numbers that are not negative and through `handleEdit` of orders whose
value_rs, as the text loaded into the form, reads as such a number. -/
theorem handleSubmit_valueRs_nonNeg {ε : Type} (createOrder : Payload → Except ε OrderRecord)
    (updateOrder : JSVal → Payload → Except ε OrderRecord) (b : Builtins) (s0 : State)
    (steps : List Step) (h0 : s0.formData = emptyForm) (h : ∀ st ∈ steps, st.valueNonNeg b) :
    ∀ c ∈ (handleSubmit createOrder updateOrder (run b s0 steps)).calls,
      c.payload.valueRs.nonNeg := by
  intro c hc
  rw [orders_handleSubmit_payload createOrder updateOrder _ c hc]
  exact valueNonNeg_foldl_step b steps s0 (by rw [h0]; decide!) h

/-- C8, amended, at the sample steps: the hypothesis holds and the one call
made, an update, carries a value that is not negative. -/
theorem handleSubmit_valueRs_nonNeg_witness :
    (initialState.formData = emptyForm ∧ ∀ st ∈ witnessSteps, st.valueNonNeg witnessBuiltins) ∧
    (handleSubmit witnessApi (fun _ => witnessApi)
      (run witnessBuiltins initialState witnessSteps)).calls ≠ [] ∧
    ∀ c ∈ (handleSubmit witnessApi (fun _ => witnessApi)
        (run witnessBuiltins initialState witnessSteps)).calls, c.payload.valueRs.nonNeg :=
  ⟨⟨rfl, by decide!⟩, by decide!,
    handleSubmit_valueRs_nonNeg witnessApi (fun _ => witnessApi) witnessBuiltins initialState
      witnessSteps rfl (by decide!)⟩

/-- The value `v || null` of a form value that is the empty string or truthy. -/
theorem jsOr_null (v : JSVal) (h : blankOrTruthy v) :
    jsOr v .null = if v = .str "" then .null else v := by
  unfold jsOr
  rcases h with h | h
  · rw [h]; rfl
  · rw [if_pos h]
    have hne : v ≠ .str "" := by
      intro hv; rw [hv] at h; cases h
    rw [if_neg hne]

/-- C9: in every order payload `handleSubmit` sends, from a form reached
from the initial or reset form through `handleInputChange` and `handleEdit`, each of deliveryTime,
assignedDriverId and simulationId is null when its form field is the empty
string and is the value of the form field otherwise. -/
theorem handleSubmit_optional_fields {ε : Type} (createOrder : Payload → Except ε OrderRecord)
    (updateOrder : JSVal → Payload → Except ε OrderRecord) (b : Builtins) (s0 : State)
    (steps : List Step) (h0 : s0.formData = emptyForm) :
    ∀ c ∈ (handleSubmit createOrder updateOrder (run b s0 steps)).calls,
      c.payload.deliveryTime =
          (if (run b s0 steps).formData.delivery_time = .str "" then .null
           else (run b s0 steps).formData.delivery_time) ∧
        c.payload.assignedDriverId =
          (if (run b s0 steps).formData.assigned_driver_id = .str "" then .null
           else (run b s0 steps).formData.assigned_driver_id) ∧
        c.payload.simulationId =
          (if (run b s0 steps).formData.simulation_id = .str "" then .null
           else (run b s0 steps).formData.simulation_id) := by
  intro c hc
  rw [orders_handleSubmit_payload createOrder updateOrder _ c hc]
  obtain ⟨_, _, _, h4, h5, h6⟩ := tidy_run b s0 steps h0
  exact ⟨jsOr_null _ h4, jsOr_null _ h5, jsOr_null _ h6⟩

/-- C9, at the sample steps that leave the driver blank: the one call made, an
update, carries assignedDriverId = null, the simulation id as entered and the
delivery time as loaded. -/
theorem handleSubmit_optional_fields_witness :
    initialState.formData = emptyForm ∧
    (handleSubmit witnessApi (fun _ => witnessApi)
        (run witnessBuiltins initialState witnessBlankDriver)).calls =
      [.updateOrder (.str "64f0c0ffee")
        { orderId := .str "ORD-7", valueRs := .fin 1250, routeId := .str "R1",
          deliveryTime := .str "2025-03-14T09:30", assignedDriverId := .null,
          simulationId := .str "SIM-3" }] ∧
    ∀ c ∈ (handleSubmit witnessApi (fun _ => witnessApi)
        (run witnessBuiltins initialState witnessBlankDriver)).calls,
      c.payload.deliveryTime =
          (if (run witnessBuiltins initialState witnessBlankDriver).formData.delivery_time =
              .str "" then .null
           else (run witnessBuiltins initialState witnessBlankDriver).formData.delivery_time) ∧
        c.payload.assignedDriverId =
          (if (run witnessBuiltins initialState witnessBlankDriver).formData.assigned_driver_id =
              .str "" then .null
           else (run witnessBuiltins initialState witnessBlankDriver).formData.assigned_driver_id) ∧
        c.payload.simulationId =
          (if (run witnessBuiltins initialState witnessBlankDriver).formData.simulation_id =
              .str "" then .null
           else (run witnessBuiltins initialState witnessBlankDriver).formData.simulation_id) :=
  ⟨rfl, by decide!,
    handleSubmit_optional_fields witnessApi (fun _ => witnessApi) witnessBuiltins initialState
      witnessBlankDriver rfl⟩

end Orders

/-! ## RoutesPage: the status loaded for editing and the traffic colours -/

namespace RoutesPage

/-- C11: the isActive value `handleEdit` loads into the form is the value the
status cell of the table tests: the isActive of the record when it is defined,
otherwise its legacy is_active when that is defined, otherwise true; so the
form shows the route active exactly when the table shows `Active`. -/
theorem handleEdit_isActive_eq_statusValue (s : State) (route : RouteRecord) :
    (handleEdit s route).formData.isActive = statusValue route ∧
    statusValue route =
      (if route.isActive ≠ .undefined then route.isActive
       else if route.is_active ≠ .undefined then route.is_active
       else .bool true) ∧
    (truthy (handleEdit s route).formData.isActive = true ↔ statusCell route = "Active") := by
  refine ⟨rfl, rfl, ?_⟩
  show truthy (statusValue route) = true ↔ statusCell route = "Active"
  unfold statusCell
  constructor
  · intro h; rw [if_pos h]
  · intro h
    by_contra hn
    rw [if_neg hn] at h
    exact absurd h (by decide)

/-- C17, as stated, fails: `getTrafficColor` is not total, the call with the
number 5 throws a `TypeError`. -/
theorem getTrafficColor_throws_on_number : getTrafficColor (.num (.fin 5)) = none := rfl

/-- C17, amended: `getTrafficColor` returns a class string exactly for the
strings, `undefined` and `null`, and it is case-insensitive on strings: every
spelling of `low` gets the green classes, of `medium` the yellow classes, of
`high` the red classes, every other string (the empty one too), `undefined`
and `null` get the gray classes; the levels Low, Medium and High get three
distinct results, none of them gray. -/
theorem getTrafficColor_spec :
    (∀ v, (∃ c, getTrafficColor v = some c) ↔ (v = .undefined ∨ v = .null ∨ ∃ s, v = .str s)) ∧
    (∀ s t, jsToLowerCase s = jsToLowerCase t →
      getTrafficColor (.str s) = getTrafficColor (.str t)) ∧
    (∀ s, jsToLowerCase s = "low" → getTrafficColor (.str s) = some "bg-green-100 text-green-800") ∧
    (∀ s, jsToLowerCase s = "medium" →
      getTrafficColor (.str s) = some "bg-yellow-100 text-yellow-800") ∧
    (∀ s, jsToLowerCase s = "high" → getTrafficColor (.str s) = some "bg-red-100 text-red-800") ∧
    (∀ s, jsToLowerCase s ≠ "low" → jsToLowerCase s ≠ "medium" → jsToLowerCase s ≠ "high" →
      getTrafficColor (.str s) = some "bg-gray-100 text-gray-800") ∧
    getTrafficColor .undefined = some "bg-gray-100 text-gray-800" ∧
    getTrafficColor .null = some "bg-gray-100 text-gray-800" ∧
    getTrafficColor (.str "") = some "bg-gray-100 text-gray-800" ∧
    getTrafficColor (.str "Low") = some "bg-green-100 text-green-800" ∧
    getTrafficColor (.str "Medium") = some "bg-yellow-100 text-yellow-800" ∧
    getTrafficColor (.str "High") = some "bg-red-100 text-red-800" := by
  have hstr : ∀ s, getTrafficColor (.str s) =
      (if jsToLowerCase s = "low" then some "bg-green-100 text-green-800"
       else if jsToLowerCase s = "medium" then some "bg-yellow-100 text-yellow-800"
       else if jsToLowerCase s = "high" then some "bg-red-100 text-red-800"
       else some "bg-gray-100 text-gray-800") := by
    intro s
    simp only [getTrafficColor, JSVal.str.injEq]
  refine ⟨?_, ?_, ?_, ?_, ?_, ?_, rfl, rfl, by decide, by decide, by decide, by decide⟩
  · intro v
    constructor
    · rintro ⟨c, hc⟩
      cases v with
      | undefined => exact Or.inl rfl
      | null => exact Or.inr (Or.inl rfl)
      | bool b => cases hc
      | num n => cases hc
      | str s => exact Or.inr (Or.inr ⟨s, rfl⟩)
    · rintro (h | h | ⟨s, h⟩)
      · subst h; exact ⟨_, rfl⟩
      · subst h; exact ⟨_, rfl⟩
      · subst h
        rw [hstr]
        split
        · exact ⟨_, rfl⟩
        · split
          · exact ⟨_, rfl⟩
          · split <;> exact ⟨_, rfl⟩
  · intro s t h
    rw [hstr, hstr, h]
  · intro s h
    rw [hstr, if_pos h]
  · intro s h
    have h1 : jsToLowerCase s ≠ "low" := by rw [h]; decide
    rw [hstr, if_neg h1, if_pos h]
  · intro s h
    have h1 : jsToLowerCase s ≠ "low" := by rw [h]; decide
    have h2 : jsToLowerCase s ≠ "medium" := by rw [h]; decide
    rw [hstr, if_neg h1, if_neg h2, if_pos h]
  · intro s h1 h2 h3
    rw [hstr, if_neg h1, if_neg h2, if_neg h3]

end RoutesPage

/-! ## Simulation: the data of the fuel cost chart -/

namespace Simulation

/-- C18: the data passed to `FuelCostChart` has one entry per entry of
`result.fuelCostBreakdown`, in the same order; entry `i` is named `Route`,
a blank and the text of route id `i` (the route id itself when it is a
string), and its value is total cost `i`; so the charted values sum to the
sum of the total costs. -/
theorem fuelCostChartData_spec (numberToString : JSNum → String)
    (fuelCostBreakdown : List FuelCost) :
    (fuelCostChartData numberToString fuelCostBreakdown).length = fuelCostBreakdown.length ∧
    (∀ i : Nat, (fuelCostChartData numberToString fuelCostBreakdown)[i]? =
      (fuelCostBreakdown[i]?).map (fun fc : FuelCost =>
        ({ name := "Route " ++ jsToString numberToString fc.routeId,
           value := fc.totalCost } : ChartDatum))) ∧
    (∀ (i : Nat) (fc : FuelCost) (id : String), fuelCostBreakdown[i]? = some fc →
      fc.routeId = .str id →
      ((fuelCostChartData numberToString fuelCostBreakdown)[i]?).map (fun d => d.name) =
        some ("Route " ++ id)) ∧
    jsSum ((fuelCostChartData numberToString fuelCostBreakdown).map (fun d => d.value)) =
      jsSum (fuelCostBreakdown.map (fun fc => fc.totalCost)) := by
  refine ⟨?_, ?_, ?_, ?_⟩
  · simp [fuelCostChartData]
  · intro i
    simp [fuelCostChartData]
  · intro i fc id hi hid
    simp [fuelCostChartData, hi, hid, jsToString]
  · simp [fuelCostChartData, List.map_map, Function.comp_def]

end Simulation

/-! ## Drivers: day inputs, the required name and the status of imported rows -/

namespace Drivers

/-- The input of day `idx` is one of the `pastWeekHours` inputs and the last
character of its name reads as `idx`. -/
theorem dayInputName_index (idx : Nat) (h : idx < 7) :
    jsStartsWith (dayInputName idx) "pastWeekHours" = true ∧
      stringToNumber (jsSliceLast (dayInputName idx)) = .fin (idx : ℚ) := by
  interval_cases idx <;> exact ⟨by decide, by decide!⟩

/-- C16: for a form whose pastWeekHours has 7 entries and an index from 0 to 6,
`handleInputChange` on the input named `pastWeekHours` followed by the index
sets that entry of pastWeekHours to `Number(value)` and leaves the length, the
other six entries, name, currentShiftHours, isActive and the other state cells
as they were. -/
theorem handleInputChange_sets_day (s : State) (e : InputEvent) (idx : Nat)
    (hlen : s.formData.pastWeekHours.length = 7) (hidx : idx < 7)
    (hname : e.name = dayInputName idx) :
    (handleInputChange s e).formData.pastWeekHours.length = 7 ∧
    (handleInputChange s e).formData.pastWeekHours[idx]? =
      some (.num (stringToNumber e.value)) ∧
    (∀ j : Nat, j ≠ idx →
      (handleInputChange s e).formData.pastWeekHours[j]? = s.formData.pastWeekHours[j]?) ∧
    (handleInputChange s e).formData.name = s.formData.name ∧
    (handleInputChange s e).formData.currentShiftHours = s.formData.currentShiftHours ∧
    (handleInputChange s e).formData.isActive = s.formData.isActive ∧
    handleInputChange s e = { s with formData := (handleInputChange s e).formData } := by
  obtain ⟨hstart, hnum⟩ := dayInputName_index idx hidx
  have hform : (handleInputChange s e).formData =
      { s.formData with
        pastWeekHours := s.formData.pastWeekHours.set idx (.num (stringToNumber e.value)) } := by
    show handleInputChangeForm s.formData e = _
    unfold handleInputChangeForm
    rw [hname, if_pos hstart]
    dsimp only
    rw [hnum, arraySet_natCast _ idx _ (by omega) (by omega)]
  refine ⟨?_, ?_, ?_, ?_, ?_, ?_, rfl⟩
  · rw [hform]; simp [hlen]
  · rw [hform]; simp [List.getElem?_set, hlen, hidx]
  · intro j hj
    rw [hform]; simp [List.getElem?_set, Ne.symm hj]
  · rw [hform]
  · rw [hform]
  · rw [hform]

/-- C16, at the initial form and the input of day 2 with the value `9.5`. -/
theorem handleInputChange_sets_day_witness :
    (initialState.formData.pastWeekHours.length = 7 ∧ 2 < 7 ∧
      ({ name := "pastWeekHours2", value := "9.5", type := "number", checked := false } :
        InputEvent).name = dayInputName 2) ∧
    (handleInputChange initialState
      { name := "pastWeekHours2", value := "9.5", type := "number",
        checked := false }).formData.pastWeekHours[2]? = some (.num (.fin (19 / 2))) :=
  ⟨⟨rfl, by decide, by decide⟩,
    ((handleInputChange_sets_day initialState
      { name := "pastWeekHours2", value := "9.5", type := "number", checked := false } 2
      rfl (by decide) (by decide)).2.1).trans (by decide!)⟩

/-- C19: for a form whose name is the text `n`, `handleSubmit` rejects exactly
when `n` is empty after trimming: it then makes no call and changes nothing
but formError, set to `Name is required`, and formLoading, set to false (the
drivers list, the form data and showForm are as before).  Otherwise it makes
exactly one call, `updateDriver` when a driver is being edited and
`createDriver` otherwise, with a payload whose name is the trimmed name, and
formError is not `Name is required`. -/
theorem handleSubmit_rejects_iff_blank_name {ε : Type}
    (createDriver : Payload → Except ε DriverRecord)
    (updateDriver : JSVal → Payload → Except ε DriverRecord) (s : State) (n : String)
    (hn : s.formData.name = .str n) :
    (jsTrim n = "" →
      (handleSubmit createDriver updateDriver s).calls = [] ∧
      (handleSubmit createDriver updateDriver s).state =
        { s with formError := some "Name is required", formLoading := false }) ∧
    (jsTrim n ≠ "" →
      (handleSubmit createDriver updateDriver s).calls =
        [if truthy s.editingDriverId then
           .updateDriver s.editingDriverId (buildPayload s.formData (jsTrim n))
         else .createDriver (buildPayload s.formData (jsTrim n))] ∧
      (buildPayload s.formData (jsTrim n)).name = .str (jsTrim n) ∧
      (handleSubmit createDriver updateDriver s).state.formError ≠ some "Name is required") := by
  have htrim : callTrim s.formData.name = some (jsTrim n) := by rw [hn]; rfl
  constructor
  · intro hblank
    unfold handleSubmit
    rw [htrim]
    dsimp only
    rw [if_pos hblank]
    exact ⟨rfl, rfl⟩
  · intro hfull
    refine ⟨?_, rfl, ?_⟩
    · rw [drivers_handleSubmit_calls, htrim]
      dsimp only
      rw [if_neg hfull]
      split <;> rfl
    · unfold handleSubmit
      rw [htrim]
      dsimp only
      rw [if_neg hfull]
      split
      · split
        · simp [submitDone]
        · simp only [submitFailed]
          split <;> decide
      · split
        · simp [submitDone]
        · simp only [submitFailed]
          split <;> decide

/-- C19, at the initial state with a name of three blanks: the form is
rejected and no call is made. -/
theorem handleSubmit_rejects_iff_blank_name_witness :
    ({ initialState with formData := { emptyForm with name := .str "   " } } : State).formData.name =
      .str "   " ∧
    jsTrim "   " = "" ∧
    (handleSubmit witnessApi (fun _ => witnessApi)
      { initialState with formData := { emptyForm with name := .str "   " } }).calls = [] ∧
    (handleSubmit witnessApi (fun _ => witnessApi)
      { initialState with formData := { emptyForm with name := .str "   " } }).state =
      { ({ initialState with formData := { emptyForm with name := .str "   " } } : State) with
        formError := some "Name is required", formLoading := false } :=
  ⟨rfl, by decide,
    (handleSubmit_rejects_iff_blank_name witnessApi (fun _ => witnessApi)
      { initialState with formData := { emptyForm with name := .str "   " } } "   " rfl).1
      (by decide)⟩

/-- A payload is built for every row the parser yields. -/
theorem csvPayload_parsed (row : CsvRow) (h : row.parsed) : ∃ p, csvPayload row = some p := by
  obtain ⟨hname, _, hact⟩ := h
  unfold csvPayload
  dsimp only
  rcases hname with hn | ⟨t, hn⟩ <;> rcases hact with ha | ⟨u, ha⟩ <;> rw [hn, ha] <;>
    exact ⟨_, rfl⟩

/-- The comparison `row.isActive === true` is never reached with the boolean
true: for a row holding it, which the parser never yields, `toLowerCase`
throws first, no payload is built and the import makes no call. -/
theorem csvPayload_throws_on_boolean :
    csvPayload { name := .str "Asha", currentShiftHours := .str "4", isActive := .bool true } =
      none ∧
    (handleCSVImport witnessStoringApi
      [{ name := .str "Asha", currentShiftHours := .str "4", isActive := .bool true }]
      initialState).calls = [] := by
  decide!

/-- In every payload built for a row, isActive is a boolean, and it is true
exactly when the isActive of the row is a text that, lower-cased, is `true`, or
that is exactly `1`. -/
theorem csvPayload_isActive_built (row : CsvRow) (p : Payload) (h : csvPayload row = some p) :
    (p.isActive = .bool true ∨ p.isActive = .bool false) ∧
    (p.isActive = .bool true ↔
      ∃ s, row.isActive = .str s ∧ (jsToLowerCase s = "true" ∨ s = "1")) := by
  unfold csvPayload at h
  dsimp only at h
  split at h
  · rename_i n a _ ha
    cases h
    dsimp only
    cases hr : row.isActive with
    | undefined => rw [hr] at ha; cases ha; simp
    | null => rw [hr] at ha; cases ha; simp
    | bool b => rw [hr] at ha; cases ha
    | num k => rw [hr] at ha; cases ha
    | str s =>
      rw [hr] at ha
      cases ha
      by_cases h1 : jsToLowerCase s = "true"
      · simp [h1]
      · by_cases h2 : s = "1"
        · simp [h2]
        · simp [h1, h2]
  · cases h

/-- C20: for every row the CSV parser yields (each column a text, or missing),
`handleCSVImport` builds a payload, and the payload's isActive is true exactly
when the row's isActive is a text that, lower-cased, is `true`, or is the text
`1` (or is the boolean true, which no parsed row holds); for every other
value, a missing column and texts such as `yes` or ` true ` among them, it is
false. -/
theorem csvPayload_isActive (row : CsvRow) (hparsed : row.parsed) :
    ∃ p, csvPayload row = some p ∧
      (p.isActive = .bool true ↔
        (∃ s, row.isActive = .str s ∧ (jsToLowerCase s = "true" ∨ s = "1")) ∨
          row.isActive = .bool true) ∧
      (p.isActive = .bool false ↔
        ¬ ((∃ s, row.isActive = .str s ∧ (jsToLowerCase s = "true" ∨ s = "1")) ∨
          row.isActive = .bool true)) := by
  obtain ⟨p, hp⟩ := csvPayload_parsed row hparsed
  obtain ⟨hbool, hiff⟩ := csvPayload_isActive_built row p hp
  have hnot : row.isActive ≠ .bool true := by
    rcases hparsed.2.2 with h | ⟨t, h⟩ <;> rw [h] <;> exact JSVal.noConfusion
  have htrue : p.isActive = .bool true ↔
      (∃ s, row.isActive = .str s ∧ (jsToLowerCase s = "true" ∨ s = "1")) ∨
        row.isActive = .bool true :=
    ⟨fun h => Or.inl (hiff.mp h), fun h => h.elim hiff.mpr (fun hb => absurd hb hnot)⟩
  refine ⟨p, hp, htrue, ?_⟩
  rw [← htrue]
  rcases hbool with h | h <;> rw [h] <;> simp

/-- C20, at the parsed row whose isActive is `TRUE`, and the payloads of rows
whose isActive is `True`, `1`, `yes`, ` true `, `TRUE ` and missing. -/
theorem csvPayload_isActive_witness :
    CsvRow.parsed
      { name := .str "Asha", currentShiftHours := .str "4", isActive := .str "TRUE" } ∧
    (∃ p, csvPayload
        { name := .str "Asha", currentShiftHours := .str "4", isActive := .str "TRUE" } =
        some p ∧
      (p.isActive = .bool true ↔
        (∃ s, JSVal.str "TRUE" = .str s ∧ (jsToLowerCase s = "true" ∨ s = "1")) ∨
          JSVal.str "TRUE" = .bool true) ∧
      (p.isActive = .bool false ↔
        ¬ ((∃ s, JSVal.str "TRUE" = .str s ∧ (jsToLowerCase s = "true" ∨ s = "1")) ∨
          JSVal.str "TRUE" = .bool true))) ∧
    csvPayload { name := .str "Asha", currentShiftHours := .str "4", isActive := .str "TRUE" } =
      some { name := .str "Asha", currentShiftHours := .fin 4,
             pastWeekHours := List.replicate 7 (.fin 0), isActive := .bool true } ∧
    (csvPayload { name := .str "A", currentShiftHours := .undefined,
                  isActive := .str "True" }).map (fun p => p.isActive) = some (.bool true) ∧
    (csvPayload { name := .str "A", currentShiftHours := .undefined,
                  isActive := .str "1" }).map (fun p => p.isActive) = some (.bool true) ∧
    (csvPayload { name := .str "A", currentShiftHours := .undefined,
                  isActive := .str "yes" }).map (fun p => p.isActive) = some (.bool false) ∧
    (csvPayload { name := .str "A", currentShiftHours := .undefined,
                  isActive := .str " true " }).map (fun p => p.isActive) = some (.bool false) ∧
    (csvPayload { name := .str "A", currentShiftHours := .undefined,
                  isActive := .str "TRUE " }).map (fun p => p.isActive) = some (.bool false) ∧
    (csvPayload { name := .str "A", currentShiftHours := .undefined,
                  isActive := .undefined }).map (fun p => p.isActive) = some (.bool false) :=
  have hparsed : CsvRow.parsed
      { name := .str "Asha", currentShiftHours := .str "4", isActive := .str "TRUE" } :=
    ⟨Or.inr ⟨_, rfl⟩, Or.inr ⟨_, rfl⟩, Or.inr ⟨_, rfl⟩⟩
  ⟨hparsed, csvPayload_isActive _ hparsed, by decide!, by decide!, by decide!, by decide!,
    by decide!, by decide!, by decide!⟩

end Drivers

/-! ## runSimulation: termination, capacity and the fatal error -/

namespace Engine

/-- The on-time and the late deliveries of a result are the deliveries of the
assignment. -/
theorem aggregate_counts (p : Policy) (req : SimulationRequest) (a : Assignment) :
    (aggregate p req a).onTimeDeliveries + (aggregate p req a).lateDeliveries =
      a.deliveries.length := by
  show a.deliveries.countP (fun d => d.score.onTime) +
    a.deliveries.countP (fun d => !d.score.onTime) = a.deliveries.length
  induction a.deliveries with
  | nil => rfl
  | cons d ds ih =>
    rw [List.countP_cons, List.countP_cons, List.length_cons]
    cases d.score.onTime <;> simp <;> omega

/-- One order adds at most one delivery. -/
theorem assignOrder_deliveries_length (p : Policy) (a : Assignment) (job : Order × Route) :
    (assignOrder p a job).deliveries.length ≤ a.deliveries.length + 1 := by
  unfold assignOrder
  split
  · split
    · simp
    · simp
  · simp

/-- A backlog adds at most as many deliveries as it has orders. -/
theorem foldl_assignOrder_deliveries_length (p : Policy) (jobs : List (Order × Route))
    (a : Assignment) :
    (jobs.foldl (assignOrder p) a).deliveries.length ≤ a.deliveries.length + jobs.length := by
  induction jobs generalizing a with
  | nil => simp
  | cons job rest ih =>
    rw [List.foldl_cons, List.length_cons]
    have h1 := ih (assignOrder p a job)
    have h2 := assignOrder_deliveries_length p a job
    omega

/-- The backlog has one entry for each order that references a valid route. -/
theorem backlog_length (routes : List Route) (orders : List Order) :
    (backlog routes orders).length = (orders.filter (hasValidRoute routes)).length := by
  unfold backlog
  rw [List.length_insertionSort]
  induction orders with
  | nil => rfl
  | cons o rest ih =>
    rw [List.filterMap_cons, List.filter_cons]
    cases hf : findRoute routes o with
    | none =>
      have hv : hasValidRoute routes o = false := by
        unfold findRoute at hf
        unfold hasValidRoute
        rw [List.find?_eq_none] at hf
        rw [Bool.eq_false_iff]
        intro hany
        obtain ⟨r, hr, hp⟩ := List.any_eq_true.mp hany
        exact hf r hr hp
      simp [hv, ih]
    | some r =>
      have hv : hasValidRoute routes o = true := by
        unfold findRoute at hf
        unfold hasValidRoute
        have hp := List.find?_some hf
        exact List.any_eq_true.mpr ⟨r, List.mem_of_find?_eq_some hf, hp⟩
      simp [hv, ih]

/-- C12: for every request with maxHoursPerDay above 0, whatever the drivers,
`runSimulation` returns a result (it is a total function: the run ends), and
in it onTimeDeliveries + lateDeliveries is at most the number of orders that
reference an existing, active route. -/
theorem runSimulation_returns_bounded (p : Policy) (snapshot : Snapshot)
    (req : SimulationRequest) (hmax : 0 < req.maxHoursPerDay) :
    ∃ r, runSimulation p snapshot req = .ok r ∧
      r.onTimeDeliveries + r.lateDeliveries ≤
        (snapshot.orders.filter (hasValidRoute snapshot.routes)).length := by
  refine ⟨aggregate p req (assign p req snapshot.drivers snapshot.routes snapshot.orders), ?_, ?_⟩
  · unfold runSimulation
    rw [if_neg (not_le.mpr hmax)]
  · rw [aggregate_counts, ← backlog_length]
    have h := foldl_assignOrder_deliveries_length p (backlog snapshot.routes snapshot.orders)
      { pool := buildPool p req snapshot.drivers, deliveries := []
        unassignedOrders := snapshot.orders.filter (fun o => !hasValidRoute snapshot.routes o) }
    simpa [assign] using h

/-- The priority that orders the backlog leaves no tie between two orders with
different ids: exactly one of them goes first. -/
theorem hasPriority_iff_not (a b : Order × Route) (hne : a.1.orderId ≠ b.1.orderId) :
    hasPriority a b ↔ ¬ hasPriority b a := by
  unfold hasPriority
  rcases lt_trichotomy a.1.valueRs b.1.valueRs with hv | hv | hv
  · constructor
    · rintro (h | ⟨h, _⟩)
      · exact absurd h (not_lt.mpr hv.le)
      · exact absurd h hv.ne
    · intro h
      exact absurd (Or.inl hv) h
  · rcases lt_trichotomy a.1.orderId b.1.orderId with hi | hi | hi
    · constructor
      · rintro _ (h | ⟨_, h⟩)
        · rw [hv] at h; exact lt_irrefl _ h
        · exact h hi
      · intro _
        exact Or.inr ⟨hv, fun h => lt_asymm hi h⟩
    · exact absurd hi hne
    · constructor
      · rintro (h | ⟨_, h⟩)
        · rw [hv] at h; exact absurd h (lt_irrefl _)
        · exact absurd hi h
      · intro h
        exact absurd (Or.inr ⟨hv.symm, fun h2 => lt_asymm hi h2⟩) h
  · constructor
    · rintro _ (h | ⟨h, _⟩)
      · exact lt_asymm hv h
      · rw [h] at hv; exact lt_irrefl _ hv
    · intro _
      exact Or.inl hv

/-- A capacity above 0 is at most `maxHoursPerDay − currentShiftHours` when
derating only reduces. -/
theorem capacity_le (p : Policy) (driver : Driver) (maxHoursPerDay : ℚ)
    (hder : ∀ c, 0 ≤ c → p.derate c ≤ c) (hpos : 0 < capacity p driver maxHoursPerDay) :
    capacity p driver maxHoursPerDay ≤ maxHoursPerDay - driver.currentShiftHours := by
  have hbase : capacity p driver maxHoursPerDay ≤
      max (maxHoursPerDay - driver.currentShiftHours) 0 := by
    unfold capacity
    dsimp only
    split
    · exact hder _ (le_max_right _ _)
    · exact le_refl _
  have hbpos : 0 < max (maxHoursPerDay - driver.currentShiftHours) 0 := lt_of_lt_of_le hpos hbase
  rcases le_total (maxHoursPerDay - driver.currentShiftHours) 0 with h | h
  · rw [max_eq_right h] at hbpos
    exact absurd hbpos (lt_irrefl _)
  · rw [max_eq_left h] at hbase
    exact hbase

/-- Every slot of the pool a run starts with is in order. -/
theorem buildPool_ok (p : Policy) (req : SimulationRequest) (drivers : List Driver) :
    ∀ s ∈ buildPool p req drivers, SlotOK p req drivers s := by
  intro s hs
  unfold buildPool at hs
  dsimp only at hs
  have h1 := List.mem_of_mem_take hs
  rw [List.mem_insertionSort, List.mem_filter] at h1
  obtain ⟨hmem, hcap⟩ := h1
  obtain ⟨d, hd, rfl⟩ := List.mem_map.mp hmem
  have hpos : 0 < capacity p d req.maxHoursPerDay := by simpa using hcap
  exact ⟨(List.mem_filter.mp hd).1, rfl, hpos, hpos.le⟩

/-- The driver with the most remaining capacity is a slot of the pool. -/
theorem mostRemaining_mem (pool : List Slot) (i : ℕ) (s : Slot)
    (h : mostRemaining pool = some (i, s)) : s ∈ pool := by
  induction pool generalizing i s with
  | nil => cases h
  | cons t rest ih =>
    unfold mostRemaining at h
    cases hr : mostRemaining rest with
    | none =>
      rw [hr] at h
      cases h
      exact List.mem_cons_self _ _
    | some js =>
      obtain ⟨j, u⟩ := js
      rw [hr] at h
      dsimp only at h
      split at h
      · cases h
        exact List.mem_cons_of_mem _ (ih j s hr)
      · cases h
        exact List.mem_cons_self _ _

/-- Assigning one order keeps every slot of the pool in order. -/
theorem assignOrder_ok (p : Policy) (req : SimulationRequest) (drivers : List Driver)
    (a : Assignment) (job : Order × Route) (h : ∀ s ∈ a.pool, SlotOK p req drivers s) :
    ∀ s ∈ (assignOrder p a job).pool, SlotOK p req drivers s := by
  unfold assignOrder
  split
  · rename_i i t hbest
    split
    · rename_i hfit
      intro s hs
      rcases List.mem_or_eq_of_mem_set hs with hs | hs
      · exact h s hs
      · subst hs
        obtain ⟨h1, h2, h3, _⟩ := h t (mostRemaining_mem _ _ _ hbest)
        exact ⟨h1, h2, h3, sub_nonneg.mpr hfit⟩
    · exact h
  · exact h

/-- Assigning a backlog keeps every slot of the pool in order. -/
theorem foldl_assignOrder_ok (p : Policy) (req : SimulationRequest) (drivers : List Driver)
    (jobs : List (Order × Route)) (a : Assignment)
    (h : ∀ s ∈ a.pool, SlotOK p req drivers s) :
    ∀ s ∈ (jobs.foldl (assignOrder p) a).pool, SlotOK p req drivers s := by
  induction jobs generalizing a with
  | nil => exact h
  | cons job rest ih =>
    rw [List.foldl_cons]
    exact ih _ (assignOrder_ok p req drivers a job h)

/-- Every driver assignment comes from a slot of the pool: it carries the id
of the driver of the slot and the hours the slot has used. -/
theorem assignmentsFrom_mem (deliveries : List Delivery) (j : ℕ) (pool : List Slot)
    (x : DriverAssignment) (h : x ∈ assignmentsFrom deliveries j pool) :
    ∃ s ∈ pool, x.driverId = s.driver.id ∧ x.totalHours = s.capacity - s.remaining := by
  induction pool generalizing j with
  | nil => cases h
  | cons t rest ih =>
    unfold assignmentsFrom at h
    rcases List.mem_cons.mp h with h | h
    · subst h
      exact ⟨t, List.mem_cons_self _ _, rfl, rfl⟩
    · obtain ⟨s, hs, h1, h2⟩ := ih (j + 1) h
      exact ⟨s, List.mem_cons_of_mem _ hs, h1, h2⟩

/-- C14: with a derating that only reduces a capacity, in every result of
`runSimulation` every driver assignment belongs to a driver of the snapshot
and its totalHours is at most the capacity of that driver after derating,
which is at most maxHoursPerDay minus the currentShiftHours of that driver. -/
theorem runSimulation_capacity (p : Policy) (snapshot : Snapshot) (req : SimulationRequest)
    (r : SimulationResult) (hder : ∀ c, 0 ≤ c → p.derate c ≤ c)
    (hrun : runSimulation p snapshot req = .ok r) :
    ∀ a ∈ r.driverAssignments, ∃ d ∈ snapshot.drivers, d.id = a.driverId ∧
      a.totalHours ≤ capacity p d req.maxHoursPerDay ∧
      a.totalHours ≤ req.maxHoursPerDay - d.currentShiftHours := by
  unfold runSimulation at hrun
  split at hrun
  · cases hrun
  · cases hrun
    intro a ha
    obtain ⟨s, hs, hid, hhours⟩ := assignmentsFrom_mem _ 0 _ a ha
    have hok := foldl_assignOrder_ok p req snapshot.drivers
      (backlog snapshot.routes snapshot.orders)
      { pool := buildPool p req snapshot.drivers, deliveries := []
        unassignedOrders := snapshot.orders.filter (fun o => !hasValidRoute snapshot.routes o) }
      (buildPool_ok p req snapshot.drivers) s hs
    obtain ⟨hmem, hcap, hpos, hrem⟩ := hok
    have hle : a.totalHours ≤ capacity p s.driver req.maxHoursPerDay := by
      rw [hhours, ← hcap]
      exact sub_le_self _ hrem
    refine ⟨s.driver, hmem, hid.symm, hle, ?_⟩
    exact le_trans hle (capacity_le p s.driver req.maxHoursPerDay hder (hcap ▸ hpos))

/-- The derating of the sample policy only reduces a capacity. -/
theorem witnessPolicy_derate (c : ℚ) (hc : 0 ≤ c) : witnessPolicy.derate c ≤ c := by
  show c * (3 / 4) ≤ c
  linarith

/-- The run at the sample snapshot and request returns the sample result. -/
theorem runSimulation_witnessResult :
    runSimulation witnessPolicy witnessSnapshot witnessRequest = .ok witnessResult := by
  unfold runSimulation
  rw [if_neg (by decide!)]
  rfl

/-- C14, at the sample snapshot and request: the derating of the sample policy
only reduces, the run returns the sample result, whose two assignments use 4
and 2 hours, and the bound holds of them. -/
theorem runSimulation_capacity_witness :
    (∀ c, 0 ≤ c → witnessPolicy.derate c ≤ c) ∧
    runSimulation witnessPolicy witnessSnapshot witnessRequest = .ok witnessResult ∧
    witnessResult.driverAssignments.map (fun a => (a.driverId, a.totalHours)) =
      [("D2", 4), ("D1", 2)] ∧
    ∀ a ∈ witnessResult.driverAssignments, ∃ d ∈ witnessSnapshot.drivers, d.id = a.driverId ∧
      a.totalHours ≤ capacity witnessPolicy d witnessRequest.maxHoursPerDay ∧
      a.totalHours ≤ witnessRequest.maxHoursPerDay - d.currentShiftHours :=
  ⟨witnessPolicy_derate, runSimulation_witnessResult, by decide!,
    runSimulation_capacity witnessPolicy witnessSnapshot witnessRequest witnessResult
      witnessPolicy_derate runSimulation_witnessResult⟩

/-- C12, at the sample snapshot and request: the request has 8 hours, three of
the four orders reference a valid route, and the run returns one delivery on
time and one late. -/
theorem runSimulation_returns_bounded_witness :
    0 < witnessRequest.maxHoursPerDay ∧
    (witnessSnapshot.orders.filter (hasValidRoute witnessSnapshot.routes)).length = 3 ∧
    (runSimulation witnessPolicy witnessSnapshot witnessRequest).toOption.map
        (fun r => (r.onTimeDeliveries, r.lateDeliveries)) = some (1, 1) ∧
    ∃ r, runSimulation witnessPolicy witnessSnapshot witnessRequest = .ok r ∧
      r.onTimeDeliveries + r.lateDeliveries ≤
        (witnessSnapshot.orders.filter (hasValidRoute witnessSnapshot.routes)).length :=
  ⟨by decide!, by decide!, by decide!,
    runSimulation_returns_bounded witnessPolicy witnessSnapshot witnessRequest (by decide!)⟩

/-- C15: a request whose maxHoursPerDay is at most 0 fails with
`InvalidCapacity`: `runSimulation` returns the error and no result, and so
does `remainingHours` for every driver; and when `handleSubmit` of the
Simulation form reaches the engine with such a request, it is left with a
null result and the failure message. -/
theorem runSimulation_invalidCapacity (p : Policy) (snapshot : Snapshot)
    (toRequest : Simulation.Payload → SimulationRequest)
    (s : Simulation.State SimulationResult)
    (h : (toRequest (Simulation.buildPayload s.formData)).maxHoursPerDay ≤ 0) :
    runSimulation p snapshot (toRequest (Simulation.buildPayload s.formData)) =
      .error .InvalidCapacity ∧
    (∀ r, runSimulation p snapshot (toRequest (Simulation.buildPayload s.formData)) ≠ .ok r) ∧
    (∀ driver, remainingHours p driver
      (toRequest (Simulation.buildPayload s.formData)).maxHoursPerDay = .error .InvalidCapacity) ∧
    (Simulation.handleSubmit (fun payload => runSimulation p snapshot (toRequest payload))
      s).state.result = none ∧
    (Simulation.handleSubmit (fun payload => runSimulation p snapshot (toRequest payload))
      s).state.error = some "Failed to run simulation. Try again." := by
  have hrun : runSimulation p snapshot (toRequest (Simulation.buildPayload s.formData)) =
      .error .InvalidCapacity := by
    unfold runSimulation
    rw [if_pos h]
  refine ⟨hrun, ?_, ?_, ?_, ?_⟩
  · intro r hr
    rw [hrun] at hr
    cases hr
  · intro driver
    unfold remainingHours
    rw [if_pos h]
  · unfold Simulation.handleSubmit
    dsimp only
    rw [hrun]
  · unfold Simulation.handleSubmit
    dsimp only
    rw [hrun]

/-- C15, at the sample snapshot and a form with maxHoursPerDay = 0. -/
theorem runSimulation_invalidCapacity_witness :
    (witnessToRequest (Simulation.buildPayload witnessZeroHours.formData)).maxHoursPerDay ≤ 0 ∧
    runSimulation witnessPolicy witnessSnapshot
      (witnessToRequest (Simulation.buildPayload witnessZeroHours.formData)) =
      .error .InvalidCapacity ∧
    (Simulation.handleSubmit
      (fun payload => runSimulation witnessPolicy witnessSnapshot (witnessToRequest payload))
      witnessZeroHours).state.error = some "Failed to run simulation. Try again." :=
  ⟨by decide!,
    (runSimulation_invalidCapacity witnessPolicy witnessSnapshot witnessToRequest
      witnessZeroHours (by decide!)).1,
    (runSimulation_invalidCapacity witnessPolicy witnessSnapshot witnessToRequest
      witnessZeroHours (by decide!)).2.2.2.2⟩

end Engine

/-! ## Dashboard: the lines of the downloaded report -/

namespace Dashboard

/-- C27: the text `downloadCSV` generates, at the data the component starts
with: it has five lines and the first is the header `Metric,Value`, but the
fifth, `Total Deliveries,1,247`, has three comma-separated fields; and for
every dashboard data object the fifth line built is that same line. -/
theorem downloadCSV_fifth_line_three_fields :
    downloadCSV witnessBuiltins initialData =
      some "Metric,Value\nTotal Profit,$0\nEfficiency Score,0%\nActive Routes,24\nTotal Deliveries,1,247" ∧
    ((downloadCSV witnessBuiltins initialData).map (fun text => jsSplit text '\n')) =
      some ["Metric,Value", "Total Profit,$0", "Efficiency Score,0%", "Active Routes,24",
            "Total Deliveries,1,247"] ∧
    jsSplit "Total Deliveries,1,247" ',' = ["Total Deliveries", "1", "247"] ∧
    (∀ (b : Builtins) (data : Data) (lines : List String), csvLines b data = some lines →
      lines.length = 5 ∧ lines[0]? = some "Metric,Value" ∧
        lines[4]? = some "Total Deliveries,1,247") := by
  refine ⟨by decide!, by decide!, by decide!, ?_⟩
  intro b data lines h
  unfold csvLines at h
  split at h
  · cases h
  · cases h
    exact ⟨rfl, rfl, rfl⟩

/-- With a profit of 12500 in an English locale the second line has three
comma-separated fields too. -/
theorem downloadCSV_grouped_profit :
    (downloadCSV witnessBuiltins witnessData).map
        (fun text => (jsSplit text '\n').map (fun line => (jsSplit line ',').length)) =
      some [2, 3, 2, 2, 3] := by
  decide!

end Dashboard

/-! ## The three lists: update, delete and the hidden form -/

/-- Strict equality with a truthy value is equality. -/
theorem jsStrictEq_truthy (a E : JSVal) (hE : truthy E = true) :
    jsStrictEq a E = true ↔ a = E := by
  unfold jsStrictEq
  constructor
  · intro h
    simp only [Bool.and_eq_true, decide_eq_true_eq] at h
    exact h.1
  · intro h
    subst h
    have hn : a ≠ .num .nan := by
      intro hnan; rw [hnan] at hE; cases hE
    simp [hn]

/-- Strict equality with a value other than `NaN` is equality. -/
theorem jsStrictEq_iff (a id : JSVal) (hid : id ≠ .num .nan) :
    jsStrictEq a id = true ↔ a = id := by
  unfold jsStrictEq
  constructor
  · intro h
    simp only [Bool.and_eq_true, decide_eq_true_eq] at h
    exact h.1
  · intro h
    subst h
    simp [hid]

/-- The `map` of the update branch replaces the records with the edited id. -/
theorem replacedById_map {α : Type} (idOf : α → JSVal) (E : JSVal) (hE : truthy E = true)
    (updated : α) (l : List α) :
    ReplacedById idOf E updated l
      (l.map (fun x => if jsStrictEq (idOf x) E then updated else x)) := by
  have hfun : (fun x => if jsStrictEq (idOf x) E then updated else x) =
      (fun x => if idOf x = E then updated else x) := by
    funext x
    by_cases h : idOf x = E
    · rw [if_pos ((jsStrictEq_truthy _ _ hE).mpr h), if_pos h]
    · rw [if_neg (fun hs => h ((jsStrictEq_truthy _ _ hE).mp hs)), if_neg h]
  rw [hfun]
  refine ⟨by simp, ?_, ?_⟩
  · intro i x hx
    simp [List.getElem?_map, hx]
  · intro hnone
    conv_rhs => rw [← List.map_id l]
    apply List.map_congr_left
    intro x hx
    rw [if_neg (hnone x hx)]
    rfl

/-- The `filter` of `handleDelete` removes the records with the deleted id. -/
theorem removedById_filter {α : Type} (idOf : α → JSVal) (id : JSVal) (l : List α) :
    RemovedById idOf id l (l.filter (fun x => !jsStrictEq (idOf x) id)) := by
  refine ⟨rfl, List.filter_sublist l, ?_, ?_⟩
  · intro x
    simp [List.mem_filter]
  · intro hid x
    exact jsStrictEq_iff _ _ hid

/-- Drivers: the list after a successful update. -/
theorem drivers_update_list {ε : Type}
    (createDriver : Drivers.Payload → Except ε Drivers.DriverRecord)
    (updateDriver : JSVal → Drivers.Payload → Except ε Drivers.DriverRecord)
    (s : Drivers.State) (n : String) (updated : Drivers.DriverRecord)
    (hE : truthy s.editingDriverId = true) (hn : s.formData.name = .str n)
    (hne : jsTrim n ≠ "")
    (hupd : updateDriver s.editingDriverId (Drivers.buildPayload s.formData (jsTrim n)) =
      .ok updated) :
    (Drivers.handleSubmit createDriver updateDriver s).state.drivers =
      s.drivers.map (fun d => if jsStrictEq d._id s.editingDriverId then updated else d) := by
  have htrim : Drivers.callTrim s.formData.name = some (jsTrim n) := by rw [hn]; rfl
  unfold Drivers.handleSubmit
  rw [htrim]
  dsimp only
  rw [if_neg hne, if_pos hE, hupd]
  rfl

/-- RoutesPage: the list after a successful update. -/
theorem routes_update_list {ε : Type}
    (createRoute : RoutesPage.Payload → Except ε RoutesPage.RouteRecord)
    (updateRoute : JSVal → RoutesPage.Payload → Except ε RoutesPage.RouteRecord)
    (s : RoutesPage.State) (updated : RoutesPage.RouteRecord)
    (hE : truthy s.editingRouteId = true)
    (hfilled : truthy s.formData.routeId = true ∧ truthy s.formData.distanceKm = true ∧
      truthy s.formData.trafficLevel = true ∧ truthy s.formData.baseTimeMin = true)
    (hupd : updateRoute s.editingRouteId (RoutesPage.buildPayload s.formData) = .ok updated) :
    (RoutesPage.handleSubmit createRoute updateRoute s).state.routes =
      s.routes.map (fun r => if jsStrictEq r._id s.editingRouteId then updated else r) := by
  obtain ⟨h1, h2, h3, h4⟩ := hfilled
  unfold RoutesPage.handleSubmit
  rw [if_neg (by simp [h1, h2, h3, h4])]
  dsimp only
  rw [if_pos hE, hupd]
  rfl

/-- Orders: the list after a successful update. -/
theorem orders_update_list {ε : Type}
    (createOrder : Orders.Payload → Except ε Orders.OrderRecord)
    (updateOrder : JSVal → Orders.Payload → Except ε Orders.OrderRecord)
    (s : Orders.State) (updated : Orders.OrderRecord)
    (hE : truthy s.editingOrderId = true)
    (hfilled : truthy s.formData.order_id = true ∧ truthy s.formData.value_rs = true ∧
      truthy s.formData.route_id = true)
    (hupd : updateOrder s.editingOrderId (Orders.buildPayload s.formData) = .ok updated) :
    (Orders.handleSubmit createOrder updateOrder s).state.orders =
      s.orders.map (fun o => if jsStrictEq o._id s.editingOrderId then updated else o) := by
  obtain ⟨h1, h2, h3⟩ := hfilled
  unfold Orders.handleSubmit
  rw [if_neg (by simp [h1, h2, h3])]
  dsimp only
  rw [if_pos hE, hupd]
  rfl

/-- C23: after a successful update in the `handleSubmit` of Drivers, of
RoutesPage and of Orders, with the editing id `E` (the form passes the check
of the required fields and the update call resolves with `updated`), the list
has the length and the order it had, every record whose `_id` differs from `E`
is unchanged, every record whose `_id` is `E` is replaced by `updated`, and
the list is unchanged when no record has the `_id` `E`. -/
theorem update_replaces_by_id {ε : Type}
    (createDriver : Drivers.Payload → Except ε Drivers.DriverRecord)
    (updateDriver : JSVal → Drivers.Payload → Except ε Drivers.DriverRecord)
    (sd : Drivers.State) (n : String) (driver : Drivers.DriverRecord)
    (createRoute : RoutesPage.Payload → Except ε RoutesPage.RouteRecord)
    (updateRoute : JSVal → RoutesPage.Payload → Except ε RoutesPage.RouteRecord)
    (sr : RoutesPage.State) (route : RoutesPage.RouteRecord)
    (createOrder : Orders.Payload → Except ε Orders.OrderRecord)
    (updateOrder : JSVal → Orders.Payload → Except ε Orders.OrderRecord)
    (so : Orders.State) (order : Orders.OrderRecord)
    (hd1 : truthy sd.editingDriverId = true) (hd2 : sd.formData.name = .str n)
    (hd3 : jsTrim n ≠ "")
    (hd4 : updateDriver sd.editingDriverId (Drivers.buildPayload sd.formData (jsTrim n)) =
      .ok driver)
    (hr1 : truthy sr.editingRouteId = true)
    (hr2 : truthy sr.formData.routeId = true ∧ truthy sr.formData.distanceKm = true ∧
      truthy sr.formData.trafficLevel = true ∧ truthy sr.formData.baseTimeMin = true)
    (hr3 : updateRoute sr.editingRouteId (RoutesPage.buildPayload sr.formData) = .ok route)
    (ho1 : truthy so.editingOrderId = true)
    (ho2 : truthy so.formData.order_id = true ∧ truthy so.formData.value_rs = true ∧
      truthy so.formData.route_id = true)
    (ho3 : updateOrder so.editingOrderId (Orders.buildPayload so.formData) = .ok order) :
    ReplacedById (fun d : Drivers.DriverRecord => d._id) sd.editingDriverId driver sd.drivers
      (Drivers.handleSubmit createDriver updateDriver sd).state.drivers ∧
    ReplacedById (fun r : RoutesPage.RouteRecord => r._id) sr.editingRouteId route sr.routes
      (RoutesPage.handleSubmit createRoute updateRoute sr).state.routes ∧
    ReplacedById (fun o : Orders.OrderRecord => o._id) so.editingOrderId order so.orders
      (Orders.handleSubmit createOrder updateOrder so).state.orders := by
  refine ⟨?_, ?_, ?_⟩
  · rw [drivers_update_list createDriver updateDriver sd n driver hd1 hd2 hd3 hd4]
    exact replacedById_map _ _ hd1 _ _
  · rw [routes_update_list createRoute updateRoute sr route hr1 hr2 hr3]
    exact replacedById_map _ _ hr1 _ _
  · rw [orders_update_list createOrder updateOrder so order ho1 ho2 ho3]
    exact replacedById_map _ _ ho1 _ _

/-- C23, at the three sample states in which a record of the list is being
edited and the sample API stores the update. -/
theorem update_replaces_by_id_witness :
    (truthy Drivers.witnessEditing.editingDriverId = true ∧
      Drivers.witnessEditing.formData.name = .str "Kiran" ∧ jsTrim "Kiran" ≠ "" ∧
      truthy RoutesPage.witnessEditing.editingRouteId = true ∧
      truthy Orders.witnessEditing.editingOrderId = true) ∧
    (Drivers.handleSubmit Drivers.witnessApi (fun _ => Drivers.witnessApi)
      Drivers.witnessEditing).state.drivers.map (fun d => d.name) =
      [.str "Asha", .str "Kiran"] ∧
    (ReplacedById (fun d : Drivers.DriverRecord => d._id) Drivers.witnessEditing.editingDriverId
        { _id := .str "64f0c0ffee", name := .str "Kiran", currentShiftHours := .num (.fin 4),
          shift_hours := .undefined,
          pastWeekHours := some (List.replicate 7 (.num (.fin 8))),
          isActive := .bool true, is_active := .undefined }
        Drivers.witnessEditing.drivers
        (Drivers.handleSubmit Drivers.witnessApi (fun _ => Drivers.witnessApi)
          Drivers.witnessEditing).state.drivers ∧
      ReplacedById (fun r : RoutesPage.RouteRecord => r._id)
        RoutesPage.witnessEditing.editingRouteId
        { _id := .str "64f0c0ffee", routeId := .str "R7", route_id := .undefined,
          distanceKm := .num (.fin 12), distance_km := .undefined,
          trafficLevel := .str "High", traffic_level := .undefined,
          baseTimeMin := .num (.fin 45), base_time_min := .undefined,
          isActive := .bool false, is_active := .undefined }
        RoutesPage.witnessEditing.routes
        (RoutesPage.handleSubmit RoutesPage.witnessApi (fun _ => RoutesPage.witnessApi)
          RoutesPage.witnessEditing).state.routes ∧
      ReplacedById (fun o : Orders.OrderRecord => o._id) Orders.witnessEditing.editingOrderId
        { _id := .str "64f0c0ffee", order_id := .str "ORD-7", value_rs := .num (.fin 1250),
          route_id := .str "R1", delivery_time := .str "2025-03-14T09:30",
          assigned_driver_id := .null, simulation_id := .null }
        Orders.witnessEditing.orders
        (Orders.handleSubmit Orders.witnessApi (fun _ => Orders.witnessApi)
          Orders.witnessEditing).state.orders) :=
  ⟨by decide!, by decide!,
    update_replaces_by_id Drivers.witnessApi (fun _ => Drivers.witnessApi) Drivers.witnessEditing
      "Kiran" _ RoutesPage.witnessApi (fun _ => RoutesPage.witnessApi) RoutesPage.witnessEditing _
      Orders.witnessApi (fun _ => Orders.witnessApi) Orders.witnessEditing _
      (by decide!) (by decide!) (by decide!) (congrArg Except.ok (by decide!))
      (by decide!) (by decide!) (congrArg Except.ok (by decide!))
      (by decide!) (by decide!) (congrArg Except.ok (by decide!))⟩

/-- C24: for `handleDelete(id)` in Drivers, RoutesPage and Orders: when the
user confirms and the delete call succeeds, the list is the previous list
without the records whose `_id` is `id`, the others in their order, and
nothing else of the state changes; when the user declines, the API is not
called and the state is unchanged; when the call fails, the state is
unchanged. -/
theorem handleDelete_removes_by_id {ε : Type} (confirm : Bool)
    (deleteDriver deleteRoute deleteOrder : JSVal → Except ε Unit)
    (sd : Drivers.State) (sr : RoutesPage.State) (so : Orders.State) (id : JSVal) :
    ((confirm = true → (∃ u, deleteDriver id = .ok u) →
        RemovedById (fun d : Drivers.DriverRecord => d._id) id sd.drivers
          (Drivers.handleDelete confirm deleteDriver sd id).state.drivers ∧
        (Drivers.handleDelete confirm deleteDriver sd id).state =
          { sd with drivers := (Drivers.handleDelete confirm deleteDriver sd id).state.drivers } ∧
        (Drivers.handleDelete confirm deleteDriver sd id).deleted = [id]) ∧
      (confirm = false →
        (Drivers.handleDelete confirm deleteDriver sd id).state = sd ∧
        (Drivers.handleDelete confirm deleteDriver sd id).deleted = []) ∧
      ((∃ e, deleteDriver id = .error e) →
        (Drivers.handleDelete confirm deleteDriver sd id).state = sd)) ∧
    ((confirm = true → (∃ u, deleteRoute id = .ok u) →
        RemovedById (fun r : RoutesPage.RouteRecord => r._id) id sr.routes
          (RoutesPage.handleDelete confirm deleteRoute sr id).state.routes ∧
        (RoutesPage.handleDelete confirm deleteRoute sr id).state =
          { sr with routes := (RoutesPage.handleDelete confirm deleteRoute sr id).state.routes } ∧
        (RoutesPage.handleDelete confirm deleteRoute sr id).deleted = [id]) ∧
      (confirm = false →
        (RoutesPage.handleDelete confirm deleteRoute sr id).state = sr ∧
        (RoutesPage.handleDelete confirm deleteRoute sr id).deleted = []) ∧
      ((∃ e, deleteRoute id = .error e) →
        (RoutesPage.handleDelete confirm deleteRoute sr id).state = sr)) ∧
    ((confirm = true → (∃ u, deleteOrder id = .ok u) →
        RemovedById (fun o : Orders.OrderRecord => o._id) id so.orders
          (Orders.handleDelete confirm deleteOrder so id).state.orders ∧
        (Orders.handleDelete confirm deleteOrder so id).state =
          { so with orders := (Orders.handleDelete confirm deleteOrder so id).state.orders } ∧
        (Orders.handleDelete confirm deleteOrder so id).deleted = [id]) ∧
      (confirm = false →
        (Orders.handleDelete confirm deleteOrder so id).state = so ∧
        (Orders.handleDelete confirm deleteOrder so id).deleted = []) ∧
      ((∃ e, deleteOrder id = .error e) →
        (Orders.handleDelete confirm deleteOrder so id).state = so)) := by
  refine ⟨⟨?_, ?_, ?_⟩, ⟨?_, ?_, ?_⟩, ⟨?_, ?_, ?_⟩⟩
  · rintro hc ⟨u, hu⟩
    subst hc
    unfold Drivers.handleDelete
    rw [hu]
    exact ⟨removedById_filter _ _ _, rfl, rfl⟩
  · intro hc
    subst hc
    exact ⟨rfl, rfl⟩
  · rintro ⟨e, he⟩
    cases confirm
    · rfl
    · unfold Drivers.handleDelete
      rw [he]
      rfl
  · rintro hc ⟨u, hu⟩
    subst hc
    unfold RoutesPage.handleDelete
    rw [hu]
    exact ⟨removedById_filter _ _ _, rfl, rfl⟩
  · intro hc
    subst hc
    exact ⟨rfl, rfl⟩
  · rintro ⟨e, he⟩
    cases confirm
    · rfl
    · unfold RoutesPage.handleDelete
      rw [he]
      rfl
  · rintro hc ⟨u, hu⟩
    subst hc
    unfold Orders.handleDelete
    rw [hu]
    exact ⟨removedById_filter _ _ _, rfl, rfl⟩
  · intro hc
    subst hc
    exact ⟨rfl, rfl⟩
  · rintro ⟨e, he⟩
    cases confirm
    · rfl
    · unfold Orders.handleDelete
      rw [he]
      rfl

/-- Deleting the sample driver from the sample list leaves the other driver;
declining leaves both. -/
theorem handleDelete_sample :
    (Drivers.handleDelete true (fun _ => (Except.ok () : Except Unit Unit)) Drivers.witnessEditing
      (.str "64f0c0ffee")).state.drivers.map (fun d => d.name) = [.str "Asha"] ∧
    (Drivers.handleDelete false (fun _ => (Except.ok () : Except Unit Unit)) Drivers.witnessEditing
      (.str "64f0c0ffee")).state.drivers.map (fun d => d.name) = [.str "Asha", .str "Kiran"] := by
  decide!

/-- Drivers: every action keeps the hidden form clean. -/
theorem drivers_closedClean_act (s : Drivers.State) (a : Drivers.Action)
    (h : s.closedClean) : (Drivers.act s a).closedClean := by
  cases a with
  | loaded fetched =>
    cases fetched <;> exact h
  | edit driver =>
    exact fun hs => Bool.noConfusion hs
  | toggle =>
    show (Drivers.toggleForm s).closedClean
    unfold Drivers.toggleForm
    split
    · exact fun _ => ⟨rfl, rfl⟩
    · exact fun hs => Bool.noConfusion hs
  | submit createDriver updateDriver =>
    show (Drivers.handleSubmit createDriver updateDriver s).state.closedClean
    unfold Drivers.handleSubmit
    split
    · exact h
    · dsimp only
      split
      · exact h
      · split
        · split
          · exact fun _ => ⟨rfl, rfl⟩
          · exact h
        · split
          · exact fun _ => ⟨rfl, rfl⟩
          · exact h
  | delete confirm deleteDriver driverId =>
    show (Drivers.handleDelete confirm deleteDriver s driverId).state.closedClean
    unfold Drivers.handleDelete
    split
    · exact h
    · split <;> exact h
  | change e =>
    show (if s.showForm then Drivers.handleInputChange s e else s).closedClean
    split
    · rename_i hshown
      intro hs
      have hhidden : s.showForm = false := hs
      rw [hhidden] at hshown
      cases hshown
    · exact h

/-- RoutesPage: every action keeps the hidden form clean. -/
theorem routes_closedClean_act (s : RoutesPage.State) (a : RoutesPage.Action)
    (h : s.closedClean) : (RoutesPage.act s a).closedClean := by
  cases a with
  | loaded fetched =>
    cases fetched <;> exact h
  | edit route =>
    exact fun hs => Bool.noConfusion hs
  | toggle =>
    show (RoutesPage.toggleForm s).closedClean
    unfold RoutesPage.toggleForm
    split
    · exact fun _ => ⟨rfl, rfl⟩
    · exact fun hs => Bool.noConfusion hs
  | submit createRoute updateRoute =>
    show (RoutesPage.handleSubmit createRoute updateRoute s).state.closedClean
    unfold RoutesPage.handleSubmit
    split
    · exact h
    · dsimp only
      split
      · split
        · exact fun _ => ⟨rfl, rfl⟩
        · exact h
      · split
        · exact fun _ => ⟨rfl, rfl⟩
        · exact h
  | delete confirm deleteRoute routeId =>
    show (RoutesPage.handleDelete confirm deleteRoute s routeId).state.closedClean
    unfold RoutesPage.handleDelete
    split
    · exact h
    · split <;> exact h
  | change e =>
    show (if s.showForm then RoutesPage.handleInputChange s e else s).closedClean
    split
    · rename_i hshown
      intro hs
      have hhidden : s.showForm = false := hs
      rw [hhidden] at hshown
      cases hshown
    · exact h

/-- Orders: every action keeps the hidden form clean. -/
theorem orders_closedClean_act (b : Orders.Builtins) (s : Orders.State) (a : Orders.Action)
    (h : s.closedClean) : (Orders.act b s a).closedClean := by
  cases a with
  | loaded fetched =>
    cases fetched <;> exact h
  | edit order =>
    show (Orders.handleEdit b s order).closedClean
    unfold Orders.handleEdit
    split <;> exact fun hs => Bool.noConfusion hs
  | toggle =>
    show (Orders.toggleForm s).closedClean
    unfold Orders.toggleForm
    split
    · exact fun _ => ⟨rfl, rfl⟩
    · exact fun hs => Bool.noConfusion hs
  | submit createOrder updateOrder =>
    show (Orders.handleSubmit createOrder updateOrder s).state.closedClean
    unfold Orders.handleSubmit
    split
    · exact h
    · dsimp only
      split
      · split
        · exact fun _ => ⟨rfl, rfl⟩
        · exact h
      · split
        · exact fun _ => ⟨rfl, rfl⟩
        · exact h
  | delete confirm deleteOrder orderId =>
    show (Orders.handleDelete confirm deleteOrder s orderId).state.closedClean
    unfold Orders.handleDelete
    split
    · exact h
    · split <;> exact h
  | change e =>
    show (if s.showForm then Orders.handleInputChange s e else s).closedClean
    split
    · rename_i hshown
      intro hs
      have hhidden : s.showForm = false := hs
      rw [hhidden] at hshown
      cases hshown
    · exact h

/-- C25: in Drivers, RoutesPage and Orders, in every state reached from the
mount state by the answer to the fetch, `handleEdit`, the Add/Cancel toggle,
`handleSubmit` with any answers of the API, `handleDelete` with any answers,
and `handleInputChange` while the form is shown: when showForm is false the
editing id is null and formData is the empty form; so an editing id other
than null implies that the form is shown. -/
theorem hidden_form_is_clean (b : Orders.Builtins) (da : List Drivers.Action)
    (ra : List RoutesPage.Action) (oa : List Orders.Action) :
    ((da.foldl Drivers.act Drivers.initialState).closedClean ∧
      ((da.foldl Drivers.act Drivers.initialState).editingDriverId ≠ .null →
        (da.foldl Drivers.act Drivers.initialState).showForm = true)) ∧
    ((ra.foldl RoutesPage.act RoutesPage.initialState).closedClean ∧
      ((ra.foldl RoutesPage.act RoutesPage.initialState).editingRouteId ≠ .null →
        (ra.foldl RoutesPage.act RoutesPage.initialState).showForm = true)) ∧
    ((oa.foldl (Orders.act b) Orders.initialState).closedClean ∧
      ((oa.foldl (Orders.act b) Orders.initialState).editingOrderId ≠ .null →
        (oa.foldl (Orders.act b) Orders.initialState).showForm = true)) := by
  have hd : ∀ (l : List Drivers.Action) (s : Drivers.State), s.closedClean →
      (l.foldl Drivers.act s).closedClean := by
    intro l
    induction l with
    | nil => intro s h; exact h
    | cons a rest ih => intro s h; exact ih _ (drivers_closedClean_act s a h)
  have hr : ∀ (l : List RoutesPage.Action) (s : RoutesPage.State), s.closedClean →
      (l.foldl RoutesPage.act s).closedClean := by
    intro l
    induction l with
    | nil => intro s h; exact h
    | cons a rest ih => intro s h; exact ih _ (routes_closedClean_act s a h)
  have ho : ∀ (l : List Orders.Action) (s : Orders.State), s.closedClean →
      (l.foldl (Orders.act b) s).closedClean := by
    intro l
    induction l with
    | nil => intro s h; exact h
    | cons a rest ih => intro s h; exact ih _ (orders_closedClean_act b s a h)
  have hd0 := hd da Drivers.initialState (fun _ => ⟨rfl, rfl⟩)
  have hr0 := hr ra RoutesPage.initialState (fun _ => ⟨rfl, rfl⟩)
  have ho0 := ho oa Orders.initialState (fun _ => ⟨rfl, rfl⟩)
  refine ⟨⟨hd0, ?_⟩, ⟨hr0, ?_⟩, ⟨ho0, ?_⟩⟩
  · intro hne
    by_contra hs
    exact hne (hd0 (Bool.eq_false_iff.mpr hs)).1
  · intro hne
    by_contra hs
    exact hne (hr0 (Bool.eq_false_iff.mpr hs)).1
  · intro hne
    by_contra hs
    exact hne (ho0 (Bool.eq_false_iff.mpr hs)).1

/-! ## Drivers: the import loop -/

namespace Drivers

/-- The payload built for a row has a truthy name exactly when the row has a
name. -/
theorem csvPayload_truthy_name (row : CsvRow) (p : Payload) (h : csvPayload row = some p) :
    truthy p.name = row.hasName := by
  unfold csvPayload at h
  dsimp only at h
  split at h
  · rename_i nm a hnm _
    cases h
    dsimp only
    unfold CsvRow.hasName
    cases hr : row.name with
    | undefined => rw [hr] at hnm; cases hnm; rfl
    | null => rw [hr] at hnm; cases hnm; rfl
    | bool b => rw [hr] at hnm; cases hnm
    | num k => rw [hr] at hnm; cases hnm
    | str t =>
      rw [hr] at hnm
      cases hnm
      by_cases ht : jsTrim t = ""
      · simp [jsOr, truthy, ht]
      · simp [jsOr, truthy, ht]
  · cases h

/-- The calls for a row followed by more rows: the call for the row, when it
has a name, and the calls for the others. -/
theorem callsFor_cons (row : CsvRow) (p : Payload) (more : List CsvRow)
    (hp : csvPayload row = some p) :
    callsFor (row :: more) =
      if row.hasName then .createDriver p :: callsFor more else callsFor more := by
  unfold callsFor
  cases hn : row.hasName with
  | false => simp [hn]
  | true => simp [hn, hp]

/-- The loop over rows on which every call succeeds goes on with the rest,
having made the calls for the rows with a name and appended the drivers
created. -/
theorem importRows_append {ε : Type} (createDriver : Nat → Payload → Except ε DriverRecord)
    (created : Nat → Payload → DriverRecord) (before rest : List CsvRow) (calls : List ApiCall)
    (drivers : List DriverRecord) (hparsed : ∀ row ∈ before, row.parsed)
    (hok : ∀ k p, (callsFor before)[k]? = some (.createDriver p) →
      createDriver (calls.length + k) p = .ok (created (calls.length + k) p)) :
    importRows createDriver (before ++ rest) calls drivers =
      importRows createDriver rest (calls ++ callsFor before)
        (drivers ++ createdFrom created calls.length (callsFor before)) := by
  induction before generalizing calls drivers with
  | nil => simp [callsFor, createdFrom]
  | cons row more ih =>
    obtain ⟨p, hp⟩ := csvPayload_parsed row (hparsed row (List.mem_cons_self _ _))
    have hname := csvPayload_truthy_name row p hp
    have hmore : ∀ r ∈ more, r.parsed := fun r hr => hparsed r (List.mem_cons_of_mem _ hr)
    rw [List.cons_append, importRows, hp]
    dsimp only
    rw [callsFor_cons row p more hp] at hok ⊢
    cases hn : row.hasName with
    | false =>
      rw [hn] at hname hok
      rw [hname, if_neg (by decide), if_neg (by decide)]
      exact ih calls drivers hmore hok
    | true =>
      rw [hn] at hname hok
      rw [if_pos rfl] at hok
      have h0 := hok 0 p (by simp)
      rw [Nat.add_zero] at h0
      rw [hname, if_pos rfl, if_pos rfl, h0]
      dsimp only
      have hnext : ∀ k q, (callsFor more)[k]? = some (.createDriver q) →
          createDriver ((calls ++ [ApiCall.createDriver p]).length + k) q =
            .ok (created ((calls ++ [ApiCall.createDriver p]).length + k) q) := by
        intro k q hq
        have h := hok (k + 1) q (by simpa using hq)
        have hl : (calls ++ [ApiCall.createDriver p]).length + k = calls.length + (k + 1) := by
          rw [List.length_append, List.length_singleton]; omega
        rw [hl]
        exact h
      rw [ih (calls ++ [ApiCall.createDriver p]) (drivers ++ [created calls.length p]) hmore hnext]
      simp [createdFrom, ApiCall.payload]

/-- A payload is built, and so a call is listed, for each of a list of rows the
parser yields. -/
theorem length_filterMap_csvPayload (rows : List CsvRow) (hparsed : ∀ row ∈ rows, row.parsed) :
    (rows.filterMap (fun row => (csvPayload row).map ApiCall.createDriver)).length =
      rows.length := by
  induction rows with
  | nil => rfl
  | cons row more ih =>
    obtain ⟨p, hp⟩ := csvPayload_parsed row (hparsed row (List.mem_cons_self _ _))
    rw [List.filterMap_cons, hp]
    simp only [Option.map_some', List.length_cons]
    rw [ih (fun r hr => hparsed r (List.mem_cons_of_mem _ hr))]

/-- On rows the parser yields, one call is made for each row with a name. -/
theorem callsFor_length (rows : List CsvRow) (hparsed : ∀ row ∈ rows, row.parsed) :
    (callsFor rows).length = (rows.filter CsvRow.hasName).length :=
  length_filterMap_csvPayload _ (fun row hrow => hparsed row (List.mem_filter.mp hrow).1)

/-- One driver is created for each call. -/
theorem createdFrom_length (created : Nat → Payload → DriverRecord) (k : Nat)
    (calls : List ApiCall) : (createdFrom created k calls).length = calls.length := by
  induction calls generalizing k with
  | nil => rfl
  | cons c cs ih => simp [createdFrom, ih]

/-- C21: in `handleCSVImport` over rows the parser yields, when every
`createDriver` call succeeds (the call numbered `k`, made with the payload `p`
of the `k`-th row that has a name, is answered with the record `created k p`,
whatever the API answered to equal payloads before), `createDriver` is called
exactly once for each row whose name is not empty after trimming, in row
order, with the payload of that row, and for no other row; the drivers list
afterwards is the previous list followed by the created drivers in that
order, one for each call; and the import reports success. -/
theorem handleCSVImport_all_succeed {ε : Type}
    (createDriver : Nat → Payload → Except ε DriverRecord)
    (created : Nat → Payload → DriverRecord) (rows : List CsvRow) (s : State)
    (hparsed : ∀ row ∈ rows, row.parsed)
    (hok : ∀ k p, (callsFor rows)[k]? = some (.createDriver p) →
      createDriver k p = .ok (created k p)) :
    (handleCSVImport createDriver rows s).calls = callsFor rows ∧
    (callsFor rows).length = (rows.filter CsvRow.hasName).length ∧
    (handleCSVImport createDriver rows s).drivers = s.drivers ++ createdFor created rows ∧
    (createdFor created rows).length = (rows.filter CsvRow.hasName).length ∧
    (handleCSVImport createDriver rows s).alert = "CSV imported successfully!" := by
  have h := importRows_append createDriver created rows [] [] s.drivers hparsed
    (by intro k p hk; rw [List.length_nil, Nat.zero_add]; exact hok k p hk)
  rw [List.append_nil] at h
  unfold handleCSVImport
  rw [h]
  refine ⟨by simp [importRows], callsFor_length rows hparsed, rfl, ?_, rfl⟩
  unfold createdFor
  rw [createdFrom_length, callsFor_length rows hparsed]

/-- The sample rows with a repeated row are rows the parser yields. -/
theorem witnessRepeated_parsed : ∀ row ∈ witnessRepeated, row.parsed := by
  intro row hrow
  simp only [witnessRepeated, List.mem_cons, List.mem_singleton, List.not_mem_nil,
    or_false] at hrow
  rcases hrow with h | h | h | h <;> subst h
  · exact ⟨Or.inr ⟨_, rfl⟩, Or.inr ⟨_, rfl⟩, Or.inr ⟨_, rfl⟩⟩
  · exact ⟨Or.inl rfl, Or.inr ⟨_, rfl⟩, Or.inr ⟨_, rfl⟩⟩
  · exact ⟨Or.inr ⟨_, rfl⟩, Or.inr ⟨_, rfl⟩, Or.inr ⟨_, rfl⟩⟩
  · exact ⟨Or.inr ⟨_, rfl⟩, Or.inr ⟨_, rfl⟩, Or.inr ⟨_, rfl⟩⟩

/-- C21, at the sample rows in which the first row is repeated as the third
and the second has no name, with the API that answers each call with a new
record: three calls are made, two of them with equal payloads, and three
drivers with three different ids are appended. -/
theorem handleCSVImport_all_succeed_witness :
    (∀ row ∈ witnessRepeated, row.parsed) ∧
    (∀ k p, (callsFor witnessRepeated)[k]? = some (.createDriver p) →
      witnessStoringApi k p = .ok (witnessStored k p)) ∧
    (callsFor witnessRepeated).map (fun c => c.payload.name) =
      [.str "Asha", .str "Asha", .str "Meera"] ∧
    (createdFor witnessStored witnessRepeated).map (fun d => d._id) =
      [.str "64f0c0ffee-0", .str "64f0c0ffee-1", .str "64f0c0ffee-2"] ∧
    ((handleCSVImport witnessStoringApi witnessRepeated initialState).calls =
        callsFor witnessRepeated ∧
      (callsFor witnessRepeated).length = (witnessRepeated.filter CsvRow.hasName).length ∧
      (handleCSVImport witnessStoringApi witnessRepeated initialState).drivers =
        initialState.drivers ++ createdFor witnessStored witnessRepeated ∧
      (createdFor witnessStored witnessRepeated).length =
        (witnessRepeated.filter CsvRow.hasName).length ∧
      (handleCSVImport witnessStoringApi witnessRepeated initialState).alert =
        "CSV imported successfully!") :=
  ⟨witnessRepeated_parsed, fun _ _ _ => rfl, by decide!, by decide!,
    handleCSVImport_all_succeed witnessStoringApi witnessStored witnessRepeated initialState
      witnessRepeated_parsed (fun _ _ _ => rfl)⟩

/-- C22: `handleCSVImport` is not all-or-nothing: when the calls for the rows
before a row with a name succeed and the call for that row, the one numbered
by the calls made before it, fails (also when its payload equals one sent
before), the calls made are those for the rows before and the failing one,
none for a row after it; the drivers created from the rows before stay
appended to the drivers list; and the import reports the failure. -/
theorem handleCSVImport_partial {ε : Type}
    (createDriver : Nat → Payload → Except ε DriverRecord)
    (created : Nat → Payload → DriverRecord) (before after : List CsvRow) (failing : CsvRow)
    (payload : Payload) (s : State)
    (hparsed : ∀ row ∈ before, row.parsed)
    (hok : ∀ k p, (callsFor before)[k]? = some (.createDriver p) →
      createDriver k p = .ok (created k p))
    (hpayload : csvPayload failing = some payload) (hname : failing.hasName = true)
    (hfail : ∃ e, createDriver (callsFor before).length payload = .error e) :
    (handleCSVImport createDriver (before ++ failing :: after) s).calls =
      callsFor before ++ [.createDriver payload] ∧
    (handleCSVImport createDriver (before ++ failing :: after) s).drivers =
      s.drivers ++ createdFor created before ∧
    (handleCSVImport createDriver (before ++ failing :: after) s).alert =
      "Failed to import CSV. Check the format." := by
  obtain ⟨e, he⟩ := hfail
  have h := importRows_append createDriver created before (failing :: after) [] s.drivers
    hparsed (by intro k p hk; rw [List.length_nil, Nat.zero_add]; exact hok k p hk)
  have htruthy : truthy payload.name = true := by
    rw [csvPayload_truthy_name failing payload hpayload, hname]
  unfold handleCSVImport
  rw [h, importRows, hpayload]
  dsimp only
  rw [List.nil_append, if_pos htruthy, he]
  exact ⟨rfl, rfl, rfl⟩

/-- The sample rows before the refused one are rows the parser yields. -/
theorem witnessBefore_parsed : ∀ row ∈ witnessBefore, row.parsed := by
  intro row hrow
  simp only [witnessBefore, List.mem_cons, List.mem_singleton, List.not_mem_nil, or_false] at hrow
  rcases hrow with h | h <;> subst h
  · exact ⟨Or.inr ⟨_, rfl⟩, Or.inr ⟨_, rfl⟩, Or.inr ⟨_, rfl⟩⟩
  · exact ⟨Or.inl rfl, Or.inr ⟨_, rfl⟩, Or.inr ⟨_, rfl⟩⟩

/-- The calls for the sample rows before the refused one: one call. -/
theorem callsFor_witnessBefore : callsFor witnessBefore = [.createDriver witnessFailingPayload] := by
  decide!

/-- The refusing sample API answers the calls for the sample rows before the
refused one, of which there is one, numbered 0. -/
theorem witnessBefore_succeed : ∀ k p, (callsFor witnessBefore)[k]? = some (.createDriver p) →
    witnessRefusingApi k p = .ok (witnessStored k p) := by
  intro k p hk
  rw [callsFor_witnessBefore] at hk
  cases k with
  | zero => rfl
  | succ j => simp at hk

/-- C22, at the sample rows whose third repeats the first and is refused by the
sample API, as the second call: two calls are made, with equal payloads, none
for the fourth row, and the driver created from the first row stays in the
list. -/
theorem handleCSVImport_partial_witness :
    ((∀ row ∈ witnessBefore, row.parsed) ∧
      (∀ k p, (callsFor witnessBefore)[k]? = some (.createDriver p) →
        witnessRefusingApi k p = .ok (witnessStored k p)) ∧
      csvPayload witnessFailing = some witnessFailingPayload ∧
      witnessFailing.hasName = true ∧
      witnessRefusingApi (callsFor witnessBefore).length witnessFailingPayload = .error ()) ∧
    witnessBefore ++ witnessFailing :: witnessAfter = witnessRepeated ∧
    (handleCSVImport witnessRefusingApi witnessRepeated initialState).calls =
      [.createDriver witnessFailingPayload, .createDriver witnessFailingPayload] ∧
    (handleCSVImport witnessRefusingApi witnessRepeated initialState).drivers.map
      (fun d => d._id) = [.str "64f0c0ffee-0"] ∧
    ((handleCSVImport witnessRefusingApi (witnessBefore ++ witnessFailing :: witnessAfter)
        initialState).calls = callsFor witnessBefore ++ [.createDriver witnessFailingPayload] ∧
      (handleCSVImport witnessRefusingApi (witnessBefore ++ witnessFailing :: witnessAfter)
        initialState).drivers = initialState.drivers ++ createdFor witnessStored witnessBefore ∧
      (handleCSVImport witnessRefusingApi (witnessBefore ++ witnessFailing :: witnessAfter)
        initialState).alert = "Failed to import CSV. Check the format.") :=
  ⟨⟨witnessBefore_parsed, witnessBefore_succeed, by decide!, by decide,
      by rw [callsFor_witnessBefore]; rfl⟩,
    rfl, by decide!, by decide!,
    handleCSVImport_partial witnessRefusingApi witnessStored witnessBefore witnessAfter
      witnessFailing witnessFailingPayload initialState witnessBefore_parsed
      witnessBefore_succeed (by decide!) (by decide)
      ⟨(), by rw [callsFor_witnessBefore]; rfl⟩⟩

end Drivers

/-! ## Orders: editing an order and saving it unchanged -/

namespace Orders

/-- C26, as stated, fails: for the sample order whose delivery time is not a
date, with an order id, a route id and a numeric value, `handleEdit` throws
before it loads the form, and `handleSubmit` right after it finds the form
empty and calls nothing. -/
theorem handleEdit_handleSubmit_undated :
    (handleEdit witnessBuiltins initialState witnessUndatedOrder).formData = emptyForm ∧
    (handleSubmit witnessApi (fun _ => witnessApi)
      (handleEdit witnessBuiltins initialState witnessUndatedOrder)).calls = [] := by
  decide!

/-- The value `(x || "") || null` is `x` when it is truthy and null otherwise. -/
theorem jsOr_blank_null (x : JSVal) :
    jsOr (jsOr x (.str "")) .null = if truthy x then x else .null := by
  by_cases h : truthy x = true
  · have h1 : jsOr x (.str "") = x := by unfold jsOr; rw [if_pos h]
    rw [h1, if_pos h]
    unfold jsOr
    rw [if_pos h]
  · have h1 : jsOr x (.str "") = .str "" := by unfold jsOr; rw [if_neg h]
    rw [h1, if_neg h]
    rfl

/-- C26, amended: for every order record with a truthy `_id`, a non-empty
order_id and route_id, a numeric value_rs (whose text is not empty and reads
back as the number, as `toString` guarantees) and a delivery_time that is
absent or a date `toISOString` accepts, `handleEdit` followed immediately by
`handleSubmit` calls `updateOrder` once, with the `_id` of the order and a
payload whose orderId, valueRs and routeId are the order_id, value_rs and
route_id of the record and whose assignedDriverId and simulationId are those
of the record, or null when they are absent or empty. -/
theorem handleEdit_handleSubmit_roundtrip {ε : Type}
    (createOrder : Payload → Except ε OrderRecord)
    (updateOrder : JSVal → Payload → Except ε OrderRecord) (b : Builtins) (s : State)
    (order : OrderRecord) (n : JSNum)
    (hid : truthy order._id = true) (horder : truthy order.order_id = true)
    (hroute : truthy order.route_id = true) (hvalue : order.value_rs = .num n)
    (htext : b.numberToString n ≠ "") (hback : stringToNumber (b.numberToString n) = n)
    (hdate : truthy order.delivery_time = false ∨
      ∃ iso, b.dateToISOString order.delivery_time = some iso) :
    ∃ payload,
      (handleSubmit createOrder updateOrder (handleEdit b s order)).calls =
        [.updateOrder order._id payload] ∧
      payload.orderId = order.order_id ∧ payload.valueRs = n ∧
      payload.routeId = order.route_id ∧
      payload.assignedDriverId =
        (if truthy order.assigned_driver_id then order.assigned_driver_id else .null) ∧
      payload.simulationId =
        (if truthy order.simulation_id then order.simulation_id else .null) := by
  have hform : ∃ dt, editForm b order = some
      { order_id := jsOr order.order_id (.str "")
        value_rs := jsOr (optToString b order.value_rs) (.str "")
        route_id := jsOr order.route_id (.str "")
        delivery_time := dt
        assigned_driver_id := jsOr order.assigned_driver_id (.str "")
        simulation_id := jsOr order.simulation_id (.str "") } := by
    unfold editForm
    rcases hdate with hd | ⟨iso, hd⟩
    · exact ⟨.str "", by simp [hd]⟩
    · by_cases ht : truthy order.delivery_time = true
      · exact ⟨.str (jsSlice iso 0 16), by simp [ht, hd]⟩
      · exact ⟨.str "", by simp [ht]⟩
  obtain ⟨dt, hform⟩ := hform
  have hedit : handleEdit b s order =
      { s with showForm := true, editingOrderId := order._id
               formData :=
                 { order_id := jsOr order.order_id (.str "")
                   value_rs := jsOr (optToString b order.value_rs) (.str "")
                   route_id := jsOr order.route_id (.str "")
                   delivery_time := dt
                   assigned_driver_id := jsOr order.assigned_driver_id (.str "")
                   simulation_id := jsOr order.simulation_id (.str "") } } := by
    unfold handleEdit
    rw [hform]
  have hvtext : jsOr (optToString b order.value_rs) (.str "") = .str (b.numberToString n) := by
    rw [hvalue]
    simp [optToString, jsOr, truthy, htext]
  have h1 : jsOr order.order_id (.str "") = order.order_id := by simp [jsOr, horder]
  have h3 : jsOr order.route_id (.str "") = order.route_id := by simp [jsOr, hroute]
  have hvt : truthy (JSVal.str (b.numberToString n)) = true := by simp [truthy, htext]
  refine ⟨buildPayload (handleEdit b s order).formData, ?_, ?_, ?_, ?_, ?_, ?_⟩
  · rw [orders_handleSubmit_calls, hedit]
    dsimp only
    rw [hvtext, h1, h3, if_neg (by simp [horder, hroute, hvt]), if_pos hid]
  · rw [hedit]; exact h1
  · rw [hedit]
    show toNumber (jsOr (optToString b order.value_rs) (.str "")) = n
    rw [hvtext]
    exact hback
  · rw [hedit]; exact h3
  · rw [hedit]; exact jsOr_blank_null _
  · rw [hedit]; exact jsOr_blank_null _

/-- C26, amended, at the sample order: the update carries the order id, the
value 1250 and the route id of the record and null for the driver and the
simulation it lacks. -/
theorem handleEdit_handleSubmit_roundtrip_witness :
    (truthy witnessOrder._id = true ∧ truthy witnessOrder.order_id = true ∧
      truthy witnessOrder.route_id = true ∧ witnessOrder.value_rs = .num (.fin 1250) ∧
      witnessBuiltins.numberToString (.fin 1250) ≠ "" ∧
      stringToNumber (witnessBuiltins.numberToString (.fin 1250)) = .fin 1250 ∧
      witnessBuiltins.dateToISOString witnessOrder.delivery_time =
        some "2025-03-14T09:30:00.000Z") ∧
    (handleSubmit witnessApi (fun _ => witnessApi)
      (handleEdit witnessBuiltins initialState witnessOrder)).calls =
      [.updateOrder (.str "64f0c0ffee")
        { orderId := .str "ORD-7", valueRs := .fin 1250, routeId := .str "R1",
          deliveryTime := .str "2025-03-14T09:30", assignedDriverId := .null,
          simulationId := .null }] ∧
    ∃ payload,
      (handleSubmit witnessApi (fun _ => witnessApi)
        (handleEdit witnessBuiltins initialState witnessOrder)).calls =
        [.updateOrder witnessOrder._id payload] ∧
      payload.orderId = witnessOrder.order_id ∧ payload.valueRs = .fin 1250 ∧
      payload.routeId = witnessOrder.route_id ∧
      payload.assignedDriverId =
        (if truthy witnessOrder.assigned_driver_id then witnessOrder.assigned_driver_id
         else .null) ∧
      payload.simulationId =
        (if truthy witnessOrder.simulation_id then witnessOrder.simulation_id else .null) :=
  ⟨by decide!, by decide!,
    handleEdit_handleSubmit_roundtrip witnessApi (fun _ => witnessApi) witnessBuiltins
      initialState witnessOrder (.fin 1250) (by decide!) (by decide!) (by decide!) (by decide!)
      (by decide!) (by decide!) (Or.inr ⟨"2025-03-14T09:30:00.000Z", by decide!⟩)⟩

end Orders
end GreenCart
